import Mathlib

/-!
# Workflow submission in `pkg/pipeline/CommonWorkflowService.go`

A shallow embedding of `CommonWorkflowServiceImpl.SubmitWorkflow` and of the
helpers it calls (`getConfiguredCmCs`, `updateBlobStorageConfig`,
`getWorkflowExecutor`).

Conventions of the embedding.

* A Go pointer that the code may find nil is an `Option`; reading a field
  through a nil pointer ends the call with `Outcome.panicked`.
* The caller's request is passed by pointer in Go and mutated in place; here the
  request is threaded through and its final value is part of the `Run`.
* Collaborators reached through interfaces (global CM/CS service, app service,
  k8s utility, the two executors) are fields of `CommonWorkflowServiceImpl`;
  every call made on them is appended to the `calls` trace of the `Run`.
* Constants, library functions and package helpers that are declared outside
  this source file are fields of `Ambient`.
* Logger calls are omitted, except that their arguments are still evaluated
  (`pipeline.Id` is read at the two places where a log line mentions it).
* A `map[string]string` is an association list read with `mapIndex`;
  a `map[string]bool` used as a set is the list of its keys.
* Slices of pointers (`[]*GlobalCMCSDto`, `[]*ConfigSecretMap`) are lists of
  values: the pointers are taken to be non-nil and pairwise distinct, and the
  state of the pointed-to objects after the call is part of the `Run`.
-/

namespace Devtron

/-! ## Data model -/

/-- A Go `error` value, identified by its message. -/
structure GoError where
  msg : String
deriving DecidableEq, Repr

/-- A Go `map[string]string`. -/
abbrev StringMap := List (String × String)

/-- The Go map read `m[k]`: the stored value, or `""` when the key is absent. -/
def mapIndex : StringMap → String → String
  | [], _ => ""
  | (k', v) :: rest, k => if k' = k then v else mapIndex rest k

/-- `strconv.Itoa`. -/
def Itoa (n : Int) : String := toString n

/-- `strconv.FormatBool`. -/
def FormatBool (b : Bool) : String := if b then "true" else "false"

/-- The conversion `int32(x)` of a Go `int`: wrap-around into the signed 32-bit range. -/
def toInt32 (x : Int) : Int := (x + 2 ^ 31) % 2 ^ 32 - 2 ^ 31

/-- `CommonWorkflowRequest`: the fields `SubmitWorkflow` reads or writes, by
their source names. Nested objects whose content is never inspected are kept
as their serialised text; `Remaining` carries all the other fields of the Go
struct (registry credentials, cache and artifact locations, scripts, …),
which the function neither reads nor writes. -/
structure CommonWorkflowRequest where
  WorkflowNamePrefix : String
  PipelineName : String
  ActiveDeadlineSeconds : Int
  CiImage : String
  Namespace : String
  WorkflowId : Int
  BlobStorageConfigured : Bool
  BlobStorageS3Config : Option String
  AzureBlobConfig : Option String
  GcpBlobConfig : Option String
  BlobStorageLogsKey : String
  InAppLoggingEnabled : Bool
  RefPlugins : List String
  IgnoreDockerCachePush : Bool
  IgnoreDockerCachePull : Bool
  IsPvcMounted : Bool
  AppId : Int
  EnvironmentId : Int
  IsExtRun : Bool
  WorkflowRunnerId : Int
  CdImage : String
  StageType : String
  WorkflowPrefixForLog : String
  WorkflowExecutor : String
  PrePostDeploySteps : List String
  Remaining : String
deriving DecidableEq, Repr

/-- `CdWorkflowRequest`, the type of `CiCdTriggerEvent.CdRequest`. Its
declaration is outside this file; only the two fields read through
`ciCdTriggerEvent.CdRequest` are kept. -/
structure CdWorkflowRequest where
  InAppLoggingEnabled : Bool
  BlobStorageLogsKey : String
deriving DecidableEq, Repr

/-- `WorkflowRequest`, the type of `CiCdTriggerEvent.CiRequest`; never read here. -/
structure WorkflowRequest where
  Remaining : String
deriving DecidableEq, Repr

/-- `CiCdTriggerEvent`. `CommonWorkflowRequest` is a pointer to the caller's
request; the event value here holds the request as it is when the event is used.
The Go field `Type` is spelled `Type_`. -/
structure CiCdTriggerEvent where
  Type_ : String
  CiRequest : Option WorkflowRequest
  CdRequest : Option CdWorkflowRequest
  CommonWorkflowRequest : CommonWorkflowRequest
deriving DecidableEq, Repr

/-- `pipelineConfig.Pipeline`: the fields read here. -/
structure Pipeline where
  Id : Int
  RunPreStageInEnv : Bool
  RunPostStageInEnv : Bool
  PreStageConfigMapSecretNames : String
  PostStageConfigMapSecretNames : String
deriving DecidableEq, Repr

/-- `repository.Cluster`: the fields read here. -/
structure Cluster where
  ClusterName : String
  ServerUrl : String
  Config : StringMap
deriving DecidableEq, Repr

/-- `repository.Environment`: the fields read here; `Cluster` is a pointer. -/
structure Environment where
  Id : Int
  Cluster : Option Cluster
deriving DecidableEq, Repr

/-- `bean.ConfigSecretMap`: name, external flag, and the rest of the entry. -/
structure ConfigSecretMap where
  Name : String
  External : Bool
  Payload : String
deriving DecidableEq, Repr

/-- `bean.ConfigMapJson` (`Maps` is a slice of values). -/
structure ConfigMapJson where
  Maps : List ConfigSecretMap
deriving DecidableEq, Repr

/-- `bean.ConfigSecretJson` (`Secrets` is a slice of pointers). -/
structure ConfigSecretJson where
  Secrets : List ConfigSecretMap
deriving DecidableEq, Repr

/-- `bean3.GlobalCMCSDto`: name and the rest of the definition. -/
structure GlobalCMCSDto where
  Name : String
  Payload : String
deriving DecidableEq, Repr

/-- The struct `json.Unmarshal` fills for a stage allow-list
(`PreStageConfigMapSecretNames` / `PostStageConfigMapSecretNames`). -/
structure StageConfigMapSecretNames where
  ConfigMaps : List String
  Secrets : List String
deriving DecidableEq, Repr

/-- `v12.EnvVar`. -/
structure EnvVar where
  Name : String
  Value : String
deriving DecidableEq, Repr

/-- `v12.Toleration`. -/
structure Toleration where
  Key : String
  Value : String
  Operator : String
  Effect : String
deriving DecidableEq, Repr

/-- A parsed `resource.Quantity`. -/
structure Quantity where
  canonical : String
deriving DecidableEq, Repr

/-- `v12.ResourceRequirements` with the two keys the code sets in each list. -/
structure ResourceRequirements where
  LimitsCpu : Quantity
  LimitsMemory : Quantity
  RequestsCpu : Quantity
  RequestsMemory : Quantity
deriving DecidableEq, Repr

/-- `v12.Container`: the fields set here. `EnvFrom` stands for whatever
`UpdateContainerEnvsFromCmCs` adds to the container. -/
structure Container where
  Env : List EnvVar
  Name : String
  Image : String
  Privileged : Option Bool
  Resources : ResourceRequirements
  EnvFrom : List String
deriving DecidableEq, Repr

/-- `rest.Config`, kept abstract. -/
structure RestConfig where
  descr : String
deriving DecidableEq, Repr

/-- `k8s.ClusterConfig`. -/
structure ClusterConfig where
  ClusterName : String
  BearerToken : String
  Host : String
  InsecureSkipTLSVerify : Bool
deriving DecidableEq, Repr

/-- `bean3.WorkflowTemplate`: every field `SubmitWorkflow` assigns. The default
values are the Go zero values, so `{}` is `bean3.WorkflowTemplate{}`. -/
structure WorkflowTemplate where
  TTLValue : Option Int := none
  WorkflowId : Int := 0
  WorkflowRunnerId : Int := 0
  PrePostDeploySteps : List String := []
  WorkflowRequestJson : String := ""
  RefPlugins : List String := []
  ConfigMaps : List ConfigSecretMap := []
  Secrets : List ConfigSecretMap := []
  ServiceAccountName : String := ""
  Tolerations : List Toleration := []
  NodeSelector : StringMap := []
  Volumes : List String := []
  ArchiveLogs : Bool := false
  RestartPolicy : String := ""
  BlobStorageConfigured : Bool := false
  BlobStorageS3Config : Option String := none
  AzureBlobConfig : Option String := none
  GcpBlobConfig : Option String := none
  CloudStorageKey : String := ""
  Containers : List Container := []
  WorkflowNamePrefix : String := ""
  WfControllerInstanceID : String := ""
  ActiveDeadlineSeconds : Option Int := none
  Namespace : String := ""
  ClusterConfig : Option RestConfig := none
deriving DecidableEq, Repr

/-- `CiCdConfig`: the fields read here. -/
structure CiCdConfig where
  ImageScannerEndpoint : String
  CloudProvider : String
  BlobStorageS3AccessKey : String
  BlobStorageS3SecretKey : String
  CiDefaultBuildLogsKeyPrefix : String
  CdDefaultBuildLogsKeyPrefix : String
  InAppLoggingEnabled : Bool
  BuildLogTTLValue : Int
  CiWorkflowServiceAccount : String
  CdWorkflowServiceAccount : String
  CiTaintKey : String
  CiTaintValue : String
  CdTaintKey : String
  CdTaintValue : String
  NodeLabel : StringMap
  CiLimitCpu : String
  CiLimitMem : String
  CiReqCpu : String
  CiReqMem : String
  CdLimitCpu : String
  CdLimitMem : String
  CdReqCpu : String
  CdReqMem : String
  WfControllerInstanceID : String
  UseBlobStorageConfigInCdWorkflow : Bool
deriving DecidableEq, Repr

/-- A `WorkflowExecutor` implementation: an identity, used to tell in the call
trace which instance was invoked, and its `ExecuteWorkflow`, of which only the
returned error matters (the first result is discarded by the caller). -/
structure WorkflowExecutor where
  id : String
  ExecuteWorkflow : WorkflowTemplate → Option GoError

/-- Constants, library functions and package-level helpers used by the file
but declared elsewhere. -/
structure Ambient where
  PRE : String
  POST : String
  CI_NODE_PVC_ALL_ENV : String
  CI_NODE_PVC_PIPELINE_PREFIX : String
  CI_WORKFLOW_NAME : String
  CD_WORKFLOW_NAME : String
  BLOB_STORAGE_S3 : String
  WORKFLOW_EXECUTOR_TYPE_AWF : String
  WORKFLOW_EXECUTOR_TYPE_SYSTEM : String
  PIPELINE_TYPE_CI : String
  PIPELINE_TYPE_CD : String
  BearerToken : String
  MainContainerName : String
  TolerationOpEqual : String
  TaintEffectNoSchedule : String
  RestartPolicyNever : String
  /-- `strings.ToLower`. -/
  ToLower : String → String
  /-- `json.Marshal` of the trigger event. -/
  Marshal : CiCdTriggerEvent → Except GoError String
  /-- `json.Unmarshal` of a stage allow-list. -/
  Unmarshal : String → Except GoError StageConfigMapSecretNames
  /-- `resource.MustParse`; `none` is the panic on a malformed quantity. -/
  ParseQuantity : String → Option Quantity
  /-- `GetFromGlobalCmCsDtos`: the two lists, and the error (which the caller only logs). -/
  GetFromGlobalCmCsDtos :
    List GlobalCMCSDto → List ConfigSecretMap × List ConfigSecretMap × Option GoError
  /-- `ExtractVolumesFromCmCs`. -/
  ExtractVolumesFromCmCs : List ConfigSecretMap → List ConfigSecretMap → List String
  /-- `UpdateContainerEnvsFromCmCs`, as a function of the container it updates. -/
  UpdateContainerEnvsFromCmCs :
    Container → List ConfigSecretMap → List ConfigSecretMap → Container

/-- `CommonWorkflowServiceImpl`: the in-cluster rest config, the process
configuration, and the collaborators. An executor field is an interface value
and may be nil. -/
structure CommonWorkflowServiceImpl where
  config : RestConfig
  ciCdConfig : CiCdConfig
  /-- `appService.GetCmSecretNew`. -/
  GetCmSecretNew : Int → Int → Bool → Except GoError (ConfigMapJson × ConfigSecretJson)
  /-- `globalCMCSService.FindAllActiveByPipelineType`. -/
  FindAllActiveByPipelineType : String → Except GoError (List GlobalCMCSDto)
  /-- `k8sUtil.GetRestConfigByCluster`. -/
  GetRestConfigByCluster : ClusterConfig → Except GoError RestConfig
  argoWorkflowExecutor : Option WorkflowExecutor
  systemWorkflowExecutor : Option WorkflowExecutor

/-- A call made on a collaborator. -/
inductive Call where
  | FindAllActiveByPipelineType (pipelineType : String)
  | GetCmSecretNew (appId : Int) (environmentId : Int) (isJob : Bool)
  | GetRestConfigByCluster (clusterConfig : ClusterConfig)
  | ExecuteWorkflow (executorId : String) (template : WorkflowTemplate)
deriving DecidableEq, Repr

/-- The runtime panics the function can raise. -/
inductive Panic where
  /-- A field of `pipeline` read while `pipeline` is nil. -/
  | nilPipeline
  /-- A field of `ciCdTriggerEvent.CdRequest` read while it is nil. -/
  | nilCdRequest
  /-- A field of `env` read while `env` is nil. -/
  | nilEnv
  /-- A field of `env.Cluster` read while it is nil. -/
  | nilCluster
  /-- The panic of `resource.MustParse` on the given string. -/
  | mustParse (quantity : String)
deriving DecidableEq, Repr

/-- How a call of `SubmitWorkflow` ends: it returns its `error` result
(`none` is `nil`), or it panics. -/
inductive Outcome where
  | returned (err : Option GoError)
  | panicked (p : Panic)
deriving DecidableEq, Repr

/-- Everything observable about one call of `SubmitWorkflow`: how it ended, the
caller's request as the call left it, the local `workflowTemplate` as it stood
when the call ended, the collaborator calls in order, and the state in which
the call left the objects it received from `FindAllActiveByPipelineType` and
the secret entries it received from `GetCmSecretNew`. -/
structure Run where
  outcome : Outcome
  request : CommonWorkflowRequest
  template : WorkflowTemplate
  calls : List Call
  globalCmCsConfigs : List GlobalCMCSDto
  existingSecrets : List ConfigSecretMap
deriving DecidableEq, Repr

/-! ## Operations -/

/-- `const ciEvent`. -/
def ciEvent : String := "CI"

/-- `const cdStage`. -/
def cdStage : String := "CD"

/-- `getConfiguredCmCs`: the keys put into `cdPipelineLevelConfigMaps` and into
`cdPipelineLevelSecrets`, and the returned error. The outer `none` is the panic
on reading the allow-list field of a nil `pipeline`. -/
def getConfiguredCmCs (A : Ambient) (pipeline : Option Pipeline) (stage : String) :
    Option (List String × List String × Option GoError) :=
  match pipeline with
  | none => none
  | some pipeline =>
    if stage = "PRE" then
      match A.Unmarshal pipeline.PreStageConfigMapSecretNames with
      | .error err => some ([], [], some err)
      | .ok preStageConfigmapSecrets =>
        some (preStageConfigmapSecrets.ConfigMaps, preStageConfigmapSecrets.Secrets, none)
    else
      match A.Unmarshal pipeline.PostStageConfigMapSecretNames with
      | .error err => some ([], [], some err)
      | .ok postStageConfigmapSecrets =>
        some (postStageConfigmapSecrets.ConfigMaps, postStageConfigmapSecrets.Secrets, none)

/-- `updateBlobStorageConfig`, as a function of the template it updates. -/
def updateBlobStorageConfig (impl : CommonWorkflowServiceImpl)
    (workflowRequest : CommonWorkflowRequest) (workflowTemplate : WorkflowTemplate)
    (storageConfigured : Bool) (blobStorageKey : String) : WorkflowTemplate :=
  { workflowTemplate with
    BlobStorageConfigured :=
      storageConfigured &&
        (impl.ciCdConfig.UseBlobStorageConfigInCdWorkflow || !workflowRequest.IsExtRun)
    BlobStorageS3Config := workflowRequest.BlobStorageS3Config
    AzureBlobConfig := workflowRequest.AzureBlobConfig
    GcpBlobConfig := workflowRequest.GcpBlobConfig
    CloudStorageKey := blobStorageKey }

/-- `getWorkflowExecutor`; `none` is the nil interface value. -/
def getWorkflowExecutor (A : Ambient) (impl : CommonWorkflowServiceImpl)
    (executorType : String) : Option WorkflowExecutor :=
  if executorType = A.WORKFLOW_EXECUTOR_TYPE_AWF then impl.argoWorkflowExecutor
  else if executorType = A.WORKFLOW_EXECUTOR_TYPE_SYSTEM then impl.systemWorkflowExecutor
  else none

/-- Lines 181–188 of `SubmitWorkflow`: the initial `containerEnvVariables`. -/
def initialEnvVariables (A : Ambient) (impl : CommonWorkflowServiceImpl) (isCi : Bool) :
    List EnvVar :=
  let containerEnvVariables : List EnvVar :=
    if isCi then [⟨"IMAGE_SCANNER_ENDPOINT", impl.ciCdConfig.ImageScannerEndpoint⟩] else []
  if impl.ciCdConfig.CloudProvider = A.BLOB_STORAGE_S3 ∧ impl.ciCdConfig.BlobStorageS3AccessKey ≠ ""
  then
    containerEnvVariables ++
      [⟨"AWS_ACCESS_KEY_ID", impl.ciCdConfig.BlobStorageS3AccessKey⟩,
       ⟨"AWS_SECRET_ACCESS_KEY", impl.ciCdConfig.BlobStorageS3SecretKey⟩]
  else containerEnvVariables

/-- The condition of line 189, with Go's short-circuit evaluation: `pipeline` is
dereferenced only when the stage equals `PRE` or `POST`; `none` is the panic on
a nil `pipeline`. -/
def stageRunsInEnv (A : Ambient) (workflowRequest : CommonWorkflowRequest)
    (pipeline : Option Pipeline) : Option Bool :=
  if workflowRequest.StageType = A.PRE ∨ workflowRequest.StageType = A.POST then
    match pipeline with
    | none => none
    | some pipeline =>
      some ((decide (workflowRequest.StageType = A.PRE) && pipeline.RunPreStageInEnv) ||
        (decide (workflowRequest.StageType = A.POST) && pipeline.RunPostStageInEnv))
  else some false

/-- The condition of line 209: `env != nil && env.Id != 0 && isCi`. -/
def ciInEnvironment (env : Option Environment) (isCi : Bool) : Bool :=
  match env with
  | none => false
  | some env => decide (env.Id ≠ 0) && isCi

/-- Lines 192–200 of `SubmitWorkflow`: the PVC label lookup and its effect. -/
def mountPvc (A : Ambient) (workflowRequest : CommonWorkflowRequest) (appLabels : StringMap) :
    CommonWorkflowRequest :=
  let pvc := mapIndex appLabels
    (A.ToLower (A.CI_NODE_PVC_PIPELINE_PREFIX ++ "-" ++ workflowRequest.PipelineName))
  let pvc := if pvc.length = 0 then mapIndex appLabels A.CI_NODE_PVC_ALL_ENV else pvc
  if pvc.length ≠ 0 then
    { workflowRequest with
      IsPvcMounted := true, IgnoreDockerCachePush := true, IgnoreDockerCachePull := true }
  else workflowRequest

/-- Lines 189–218 of `SubmitWorkflow`: every write to the caller's request, in
source order. `none` is the panic of line 189 on a nil `pipeline`, raised
before anything is written. -/
def prepareRequest (A : Ambient) (impl : CommonWorkflowServiceImpl)
    (workflowRequest : CommonWorkflowRequest) (pipeline : Option Pipeline)
    (env : Option Environment) (appLabels : StringMap) (isCi : Bool) :
    Option CommonWorkflowRequest :=
  match stageRunsInEnv A workflowRequest pipeline with
  | none => none
  | some inEnv =>
    let workflowRequest := if inEnv then { workflowRequest with IsExtRun := true } else workflowRequest
    let workflowRequest := mountPvc A workflowRequest appLabels
    let workflowRequest :=
      if ciInEnvironment env isCi then { workflowRequest with IsExtRun := true } else workflowRequest
    let workflowRequest :=
      if isCi then
        { workflowRequest with
          BlobStorageLogsKey :=
            impl.ciCdConfig.CiDefaultBuildLogsKeyPrefix ++ "/" ++ workflowRequest.WorkflowPrefixForLog }
      else
        { workflowRequest with
          BlobStorageLogsKey :=
            impl.ciCdConfig.CdDefaultBuildLogsKeyPrefix ++ "/" ++ workflowRequest.WorkflowPrefixForLog }
    some { workflowRequest with
      InAppLoggingEnabled :=
        impl.ciCdConfig.InAppLoggingEnabled ||
          decide (workflowRequest.WorkflowExecutor = A.WORKFLOW_EXECUTOR_TYPE_SYSTEM) }

/-- Lines 201–208: the trigger event. Only `Type` and `CommonWorkflowRequest` are
set by the composite literal, so `CiRequest` and `CdRequest` are nil. -/
def triggerEvent (workflowRequest : CommonWorkflowRequest) (isCi : Bool) : CiCdTriggerEvent :=
  let eventType := if isCi then ciEvent else cdStage
  { Type_ := eventType, CiRequest := none, CdRequest := none,
    CommonWorkflowRequest := workflowRequest }

/-- Lines 228–236: the template after its first assignments. -/
def initialTemplate (impl : CommonWorkflowServiceImpl) (workflowRequest : CommonWorkflowRequest)
    (workflowJson : String) (isCi : Bool) : WorkflowTemplate :=
  let ttl := toInt32 impl.ciCdConfig.BuildLogTTLValue
  let workflowTemplate : WorkflowTemplate := {}
  let workflowTemplate := { workflowTemplate with TTLValue := some ttl }
  let workflowTemplate := { workflowTemplate with WorkflowId := workflowRequest.WorkflowId }
  let workflowTemplate :=
    if !isCi then
      { workflowTemplate with
        WorkflowRunnerId := workflowRequest.WorkflowRunnerId
        PrePostDeploySteps := workflowRequest.PrePostDeploySteps }
    else workflowTemplate
  { workflowTemplate with
    WorkflowRequestJson := workflowJson, RefPlugins := workflowRequest.RefPlugins }

/-- The renaming of a global CM/CS definition (lines 255 and 259). -/
def renameGlobal (A : Ambient) (workflowRequest : CommonWorkflowRequest) (isCi : Bool)
    (g : GlobalCMCSDto) : GlobalCMCSDto :=
  if isCi then
    { g with
      Name := A.ToLower g.Name ++ "-" ++ Itoa workflowRequest.WorkflowId ++ "-" ++ A.CI_WORKFLOW_NAME }
  else
    { g with
      Name := A.ToLower g.Name ++ "-" ++ Itoa workflowRequest.WorkflowRunnerId ++ "-" ++
        A.CD_WORKFLOW_NAME }

/-- The renaming of an app-level entry in a CI submission (lines 285–287, 292–294). -/
def renameForCi (A : Ambient) (workflowRequest : CommonWorkflowRequest)
    (cm : ConfigSecretMap) : ConfigSecretMap :=
  if !cm.External then
    { cm with Name := cm.Name ++ "-" ++ Itoa workflowRequest.WorkflowId ++ "-" ++ A.CI_WORKFLOW_NAME }
  else cm

/-- The renaming of an app-level entry in a CD submission (lines 300–302, 308–310). -/
def renameForCd (workflowRequest : CommonWorkflowRequest)
    (cm : ConfigSecretMap) : ConfigSecretMap :=
  if !cm.External then
    { cm with
      Name := cm.Name ++ "-" ++ Itoa workflowRequest.WorkflowId ++ "-" ++
        Itoa workflowRequest.WorkflowRunnerId }
  else cm

/-- Lines 283–314, one of the two loops over the app-level entries: the entries
appended to the workflow list. `allowed` holds the keys of the CD allow-list
map (unused for CI). -/
def appLevelEntries (A : Ambient) (workflowRequest : CommonWorkflowRequest) (isCi : Bool)
    (allowed : List String) (existing : List ConfigSecretMap) : List ConfigSecretMap :=
  if isCi then existing.map (renameForCi A workflowRequest)
  else (existing.filter (fun cm => decide (cm.Name ∈ allowed))).map (renameForCd workflowRequest)

/-- Lines 291–296 and 306–313: the secret entries are reached through pointers,
so the renaming is written into the objects received from `GetCmSecretNew`;
this is their state after the loop. -/
def secretsAfterLoop (A : Ambient) (workflowRequest : CommonWorkflowRequest) (isCi : Bool)
    (allowed : List String) (existing : List ConfigSecretMap) : List ConfigSecretMap :=
  if isCi then existing.map (renameForCi A workflowRequest)
  else existing.map
    (fun secret => if secret.Name ∈ allowed then renameForCd workflowRequest secret else secret)

/-- The state of the configuration part of `SubmitWorkflow` (lines 238–314)
when it is left: `exit` is set when the function ends there. -/
structure ConfigResolution where
  exit : Option Outcome
  calls : List Call
  globalCmCsConfigs : List GlobalCMCSDto
  existingSecrets : List ConfigSecretMap
  workflowConfigMaps : List ConfigSecretMap
  workflowSecrets : List ConfigSecretMap
deriving DecidableEq, Repr

/-- Lines 238–314 of `SubmitWorkflow`: global CM/CS injection, the CD
allow-list, the app-level lookup, and the merge. -/
def resolveConfigs (A : Ambient) (impl : CommonWorkflowServiceImpl)
    (workflowRequest : CommonWorkflowRequest) (pipeline : Option Pipeline)
    (isJob isCi : Bool) : ConfigResolution :=
  -- lines 242–266
  let pipelineType := if isCi then A.PIPELINE_TYPE_CI else A.PIPELINE_TYPE_CD
  let fetched : Except GoError (List Call × List GlobalCMCSDto) :=
    if !workflowRequest.IsExtRun then
      match impl.FindAllActiveByPipelineType pipelineType with
      | .error err => .error err
      | .ok globalCmCsConfigs =>
        .ok ([Call.FindAllActiveByPipelineType pipelineType],
          globalCmCsConfigs.map (renameGlobal A workflowRequest isCi))
    else .ok ([], [])
  match fetched with
  | .error err =>
    ⟨some (.returned (some err)), [Call.FindAllActiveByPipelineType pipelineType], [], [], [], []⟩
  | .ok (calls, globalCmCsConfigs) =>
  let fromGlobal : List ConfigSecretMap × List ConfigSecretMap :=
    if !workflowRequest.IsExtRun then
      let r := A.GetFromGlobalCmCsDtos globalCmCsConfigs
      (r.1, r.2.1)
    else ([], [])
  let workflowConfigMaps := fromGlobal.1
  let workflowSecrets := fromGlobal.2
  -- lines 267–274
  let configured : Option (List String × List String × Option GoError) :=
    if !isCi then getConfiguredCmCs A pipeline workflowRequest.StageType
    else some ([], [], none)
  match configured with
  | none => ⟨some (.panicked .nilPipeline), calls, globalCmCsConfigs, [], [], []⟩
  | some (_, _, some err) =>
    ⟨some (.returned (some err)), calls, globalCmCsConfigs, [], [], []⟩
  | some (cdPipelineLevelConfigMaps, cdPipelineLevelSecrets, none) =>
  -- lines 276–281
  let calls := calls ++
    [Call.GetCmSecretNew workflowRequest.AppId workflowRequest.EnvironmentId isJob]
  match impl.GetCmSecretNew workflowRequest.AppId workflowRequest.EnvironmentId isJob with
  | .error err => ⟨some (.returned (some err)), calls, globalCmCsConfigs, [], [], []⟩
  | .ok (existingConfigMap, existingSecrets) =>
  match pipeline with
  | none =>
    ⟨some (.panicked .nilPipeline), calls, globalCmCsConfigs, existingSecrets.Secrets, [], []⟩
  | some _ =>
  -- lines 283–314
  ⟨none, calls, globalCmCsConfigs,
    secretsAfterLoop A workflowRequest isCi cdPipelineLevelSecrets existingSecrets.Secrets,
    workflowConfigMaps ++
      appLevelEntries A workflowRequest isCi cdPipelineLevelConfigMaps existingConfigMap.Maps,
    workflowSecrets ++
      appLevelEntries A workflowRequest isCi cdPipelineLevelSecrets existingSecrets.Secrets⟩

/-- The state of the template part of `SubmitWorkflow` (lines 315–400) when it
is left: `exit` is set when the function ends there. -/
structure Assembly where
  exit : Option Outcome
  template : WorkflowTemplate
  calls : List Call
deriving DecidableEq, Repr

/-- Lines 383–400 of `SubmitWorkflow`: the cluster connection of the template. -/
def resolveClusterConfig (A : Ambient) (impl : CommonWorkflowServiceImpl)
    (workflowRequest : CommonWorkflowRequest) (env : Option Environment)
    (workflowTemplate : WorkflowTemplate) : Assembly :=
  if workflowRequest.IsExtRun then
    match env with
    | none => ⟨some (.panicked .nilEnv), workflowTemplate, []⟩
    | some env =>
    match env.Cluster with
    | none => ⟨some (.panicked .nilCluster), workflowTemplate, []⟩
    | some cluster =>
    let configMap := cluster.Config
    let bearerToken := mapIndex configMap A.BearerToken
    let clusterConfig : ClusterConfig :=
      { ClusterName := cluster.ClusterName
        BearerToken := bearerToken
        Host := cluster.ServerUrl
        InsecureSkipTLSVerify := true }
    match impl.GetRestConfigByCluster clusterConfig with
    | .error err2 =>
      ⟨some (.returned (some err2)), workflowTemplate, [Call.GetRestConfigByCluster clusterConfig]⟩
    | .ok restConfig =>
      ⟨none, { workflowTemplate with ClusterConfig := some restConfig },
        [Call.GetRestConfigByCluster clusterConfig]⟩
  else ⟨none, { workflowTemplate with ClusterConfig := some impl.config }, []⟩

/-- Lines 315–332 of `SubmitWorkflow`: the workflow lists, service account,
tolerations, node selector, volumes, and the first value of `ArchiveLogs`. -/
def placeTemplate (A : Ambient) (impl : CommonWorkflowServiceImpl)
    (workflowRequest : CommonWorkflowRequest) (workflowTemplate : WorkflowTemplate)
    (workflowConfigMaps workflowSecrets : List ConfigSecretMap) (isJob isCi : Bool) :
    WorkflowTemplate :=
  let storageConfigured := workflowRequest.BlobStorageConfigured
  -- lines 315–316
  let workflowTemplate :=
    { workflowTemplate with ConfigMaps := workflowConfigMaps, Secrets := workflowSecrets }
  -- lines 317–330
  let workflowTemplate :=
    if isCi then
      { workflowTemplate with
        ServiceAccountName := impl.ciCdConfig.CiWorkflowServiceAccount
        Tolerations :=
          if impl.ciCdConfig.CiTaintKey ≠ "" ∨ impl.ciCdConfig.CiTaintValue ≠ "" then
            [⟨impl.ciCdConfig.CiTaintKey, impl.ciCdConfig.CiTaintValue, A.TolerationOpEqual,
              A.TaintEffectNoSchedule⟩]
          else workflowTemplate.Tolerations
        NodeSelector :=
          if impl.ciCdConfig.NodeLabel.length > 0 ∧
              ¬(isJob = true ∧ workflowRequest.IsExtRun = true) then
            impl.ciCdConfig.NodeLabel
          else workflowTemplate.NodeSelector }
    else
      { workflowTemplate with
        ServiceAccountName := impl.ciCdConfig.CdWorkflowServiceAccount
        NodeSelector := [(impl.ciCdConfig.CdTaintKey, impl.ciCdConfig.CdTaintValue)]
        Tolerations :=
          [⟨impl.ciCdConfig.CdTaintKey, impl.ciCdConfig.CdTaintValue, A.TolerationOpEqual,
            A.TaintEffectNoSchedule⟩] }
  -- lines 331–332
  { workflowTemplate with
    Volumes := A.ExtractVolumesFromCmCs workflowConfigMaps workflowSecrets
    ArchiveLogs := storageConfigured }

/-- The right-hand side of line 333, `workflowTemplate.ArchiveLogs &&
!ciCdTriggerEvent.CdRequest.InAppLoggingEnabled`: the right operand is
evaluated only when the left one is true, and reading it through a nil
`CdRequest` panics (`none`). -/
def archiveLogsValue (workflowTemplate : WorkflowTemplate)
    (ciCdTriggerEvent : CiCdTriggerEvent) : Option Bool :=
  if workflowTemplate.ArchiveLogs then
    match ciCdTriggerEvent.CdRequest with
    | none => none
    | some cdRequest => some (!cdRequest.InAppLoggingEnabled)
  else some false

/-- Lines 333 (the assignment), 334 and 336–338 of `SubmitWorkflow`. -/
def restartAndNodeLabel (A : Ambient) (impl : CommonWorkflowServiceImpl)
    (workflowTemplate : WorkflowTemplate) (archiveLogs : Bool) : WorkflowTemplate :=
  { workflowTemplate with
    ArchiveLogs := archiveLogs
    RestartPolicy := A.RestartPolicyNever
    NodeSelector :=
      if impl.ciCdConfig.NodeLabel.length > 0 then impl.ciCdConfig.NodeLabel
      else workflowTemplate.NodeSelector }

/-- Lines 339–373 of `SubmitWorkflow`, after the two environment variables
have been appended: the main container. The four `resource.MustParse` calls are
made in source order; the first malformed quantity panics. -/
def mainContainer (A : Ambient) (impl : CommonWorkflowServiceImpl)
    (workflowRequest : CommonWorkflowRequest) (containerEnvVariables : List EnvVar)
    (workflowConfigMaps workflowSecrets : List ConfigSecretMap) (isCi : Bool) :
    Except Panic Container :=
  let privileged := true
  -- lines 339–350
  let limitCpu := if isCi then impl.ciCdConfig.CiLimitCpu else impl.ciCdConfig.CdLimitCpu
  let limitMem := if isCi then impl.ciCdConfig.CiLimitMem else impl.ciCdConfig.CdLimitMem
  let reqCpu := if isCi then impl.ciCdConfig.CiReqCpu else impl.ciCdConfig.CdReqCpu
  let reqMem := if isCi then impl.ciCdConfig.CiReqMem else impl.ciCdConfig.CdReqMem
  -- lines 355–372
  match A.ParseQuantity limitCpu with
  | none => .error (.mustParse limitCpu)
  | some qLimitCpu =>
  match A.ParseQuantity limitMem with
  | none => .error (.mustParse limitMem)
  | some qLimitMem =>
  match A.ParseQuantity reqCpu with
  | none => .error (.mustParse reqCpu)
  | some qReqCpu =>
  match A.ParseQuantity reqMem with
  | none => .error (.mustParse reqMem)
  | some qReqMem =>
  let workflowMainContainer : Container :=
    { Env := containerEnvVariables
      Name := A.MainContainerName
      Image := workflowRequest.CdImage
      Privileged := some privileged
      Resources := ⟨qLimitCpu, qLimitMem, qReqCpu, qReqMem⟩
      EnvFrom := [] }
  -- line 373
  .ok (A.UpdateContainerEnvsFromCmCs workflowMainContainer workflowConfigMaps workflowSecrets)

/-- Lines 376–382 of `SubmitWorkflow`. -/
def finishTemplate (impl : CommonWorkflowServiceImpl) (workflowRequest : CommonWorkflowRequest)
    (workflowTemplate : WorkflowTemplate) (workflowMainContainer : Container) (isCi : Bool) :
    WorkflowTemplate :=
  { workflowTemplate with
    Containers := [workflowMainContainer]
    WorkflowNamePrefix := workflowRequest.WorkflowNamePrefix
    WfControllerInstanceID :=
      if !isCi then impl.ciCdConfig.WfControllerInstanceID
      else workflowTemplate.WfControllerInstanceID
    ActiveDeadlineSeconds := some workflowRequest.ActiveDeadlineSeconds
    Namespace := workflowRequest.Namespace }

/-- Lines 315–400 of `SubmitWorkflow`: the template is filled in field by field.
`ciCdTriggerEvent.CdRequest` is read at lines 333, 353 and 375; each read
through a nil `CdRequest` panics. -/
def assembleTemplate (A : Ambient) (impl : CommonWorkflowServiceImpl)
    (workflowRequest : CommonWorkflowRequest) (env : Option Environment)
    (ciCdTriggerEvent : CiCdTriggerEvent) (workflowJson : String)
    (containerEnvVariables : List EnvVar) (workflowTemplate : WorkflowTemplate)
    (workflowConfigMaps workflowSecrets : List ConfigSecretMap) (isJob isCi : Bool) : Assembly :=
  let storageConfigured := workflowRequest.BlobStorageConfigured
  -- lines 315–332
  let workflowTemplate :=
    placeTemplate A impl workflowRequest workflowTemplate workflowConfigMaps workflowSecrets
      isJob isCi
  -- line 333
  match archiveLogsValue workflowTemplate ciCdTriggerEvent with
  | none => ⟨some (.panicked .nilCdRequest), workflowTemplate, []⟩
  | some archiveLogs =>
  -- lines 334–338
  let workflowTemplate := restartAndNodeLabel A impl workflowTemplate archiveLogs
  -- lines 352–354
  let eventEnv : EnvVar := ⟨"CI_CD_EVENT", workflowJson⟩
  match ciCdTriggerEvent.CdRequest with
  | none => ⟨some (.panicked .nilCdRequest), workflowTemplate, []⟩
  | some cdRequest =>
  let inAppLoggingEnv : EnvVar := ⟨"IN_APP_LOGGING", FormatBool cdRequest.InAppLoggingEnabled⟩
  let containerEnvVariables := containerEnvVariables ++ [eventEnv, inAppLoggingEnv]
  -- lines 339–350 and 355–373
  match mainContainer A impl workflowRequest containerEnvVariables workflowConfigMaps
      workflowSecrets isCi with
  | .error p => ⟨some (.panicked p), workflowTemplate, []⟩
  | .ok workflowMainContainer =>
  -- line 375
  match ciCdTriggerEvent.CdRequest with
  | none => ⟨some (.panicked .nilCdRequest), workflowTemplate, []⟩
  | some cdRequest =>
  let workflowTemplate :=
    updateBlobStorageConfig impl workflowRequest workflowTemplate storageConfigured
      cdRequest.BlobStorageLogsKey
  -- lines 376–382
  let workflowTemplate :=
    finishTemplate impl workflowRequest workflowTemplate workflowMainContainer isCi
  -- lines 383–400
  resolveClusterConfig A impl workflowRequest env workflowTemplate

/-- Lines 402–407 of `SubmitWorkflow`: the executor is selected and, when there
is one, called with the template. The result is what the function returns and
the calls made on an executor. -/
def dispatchWorkflow (A : Ambient) (impl : CommonWorkflowServiceImpl)
    (workflowRequest : CommonWorkflowRequest) (workflowTemplate : WorkflowTemplate) :
    Outcome × List Call :=
  match getWorkflowExecutor A impl workflowRequest.WorkflowExecutor with
  | none => (.returned (some ⟨"workflow executor not found"⟩), [])
  | some workflowExecutor =>
    (.returned (workflowExecutor.ExecuteWorkflow workflowTemplate),
      [Call.ExecuteWorkflow workflowExecutor.id workflowTemplate])

/-- `SubmitWorkflow`. The `Run` holds the returned error or the panic, together
with the state the call leaves behind; `template` is the zero template when
the call ends before `workflowTemplate` is declared. -/
def SubmitWorkflow (A : Ambient) (impl : CommonWorkflowServiceImpl)
    (workflowRequest : CommonWorkflowRequest) (pipeline : Option Pipeline)
    (env : Option Environment) (appLabels : StringMap) (isJob isCi : Bool) : Run :=
  -- lines 181–188
  let containerEnvVariables := initialEnvVariables A impl isCi
  -- lines 189–218
  match prepareRequest A impl workflowRequest pipeline env appLabels isCi with
  | none => ⟨.panicked .nilPipeline, workflowRequest, {}, [], [], []⟩
  | some workflowRequest =>
  let ciCdTriggerEvent := triggerEvent workflowRequest isCi
  -- lines 219–223
  match A.Marshal ciCdTriggerEvent with
  | .error err => ⟨.returned (some err), workflowRequest, {}, [], [], []⟩
  | .ok workflowJson =>
  -- lines 225–236
  let workflowTemplate := initialTemplate impl workflowRequest workflowJson isCi
  -- lines 238–314
  let resolved := resolveConfigs A impl workflowRequest pipeline isJob isCi
  match resolved.exit with
  | some outcome =>
    ⟨outcome, workflowRequest, workflowTemplate, resolved.calls, resolved.globalCmCsConfigs,
      resolved.existingSecrets⟩
  | none =>
  -- lines 315–400
  let assembled :=
    assembleTemplate A impl workflowRequest env ciCdTriggerEvent workflowJson
      containerEnvVariables workflowTemplate resolved.workflowConfigMaps
      resolved.workflowSecrets isJob isCi
  match assembled.exit with
  | some outcome =>
    ⟨outcome, workflowRequest, assembled.template, resolved.calls ++ assembled.calls,
      resolved.globalCmCsConfigs, resolved.existingSecrets⟩
  | none =>
  -- lines 402–407
  let dispatched := dispatchWorkflow A impl workflowRequest assembled.template
  ⟨dispatched.1, workflowRequest, assembled.template,
    resolved.calls ++ assembled.calls ++ dispatched.2,
    resolved.globalCmCsConfigs, resolved.existingSecrets⟩

/-! ## Closed forms used in the proofs -/

/-- Whether the PVC label lookup of lines 192–195 finds a non-empty value. -/
def pvcLabelPresent (A : Ambient) (r : CommonWorkflowRequest) (l : StringMap) : Bool :=
  decide (mapIndex l (A.ToLower (A.CI_NODE_PVC_PIPELINE_PREFIX ++ "-" ++ r.PipelineName)) ≠ "" ∨
    mapIndex l A.CI_NODE_PVC_ALL_ENV ≠ "")

/-- The request that lines 189–218 leave behind, in closed form. -/
def preparedRequest (A : Ambient) (impl : CommonWorkflowServiceImpl)
    (r : CommonWorkflowRequest) (env : Option Environment) (l : StringMap) (isCi : Bool)
    (inEnv : Bool) : CommonWorkflowRequest :=
  { r with
    IsExtRun := r.IsExtRun || inEnv || ciInEnvironment env isCi
    IsPvcMounted := r.IsPvcMounted || pvcLabelPresent A r l
    IgnoreDockerCachePush := r.IgnoreDockerCachePush || pvcLabelPresent A r l
    IgnoreDockerCachePull := r.IgnoreDockerCachePull || pvcLabelPresent A r l
    BlobStorageLogsKey :=
      (if isCi then impl.ciCdConfig.CiDefaultBuildLogsKeyPrefix
        else impl.ciCdConfig.CdDefaultBuildLogsKeyPrefix) ++ "/" ++ r.WorkflowPrefixForLog
    InAppLoggingEnabled := impl.ciCdConfig.InAppLoggingEnabled ||
      decide (r.WorkflowExecutor = A.WORKFLOW_EXECUTOR_TYPE_SYSTEM) }

/-- The template as a call leaves it when the nil `CdRequest` stops the template
part: the state after line 332 when line 333 reads `CdRequest` (blob storage
configured), the state after line 338 otherwise (the read of line 353). -/
def abandonedTemplate (A : Ambient) (impl : CommonWorkflowServiceImpl)
    (r : CommonWorkflowRequest) (json : String) (cms secs : List ConfigSecretMap)
    (isJob isCi : Bool) : WorkflowTemplate :=
  if r.BlobStorageConfigured then
    placeTemplate A impl r (initialTemplate impl r json isCi) cms secs isJob isCi
  else
    restartAndNodeLabel A impl
      (placeTemplate A impl r (initialTemplate impl r json isCi) cms secs isJob isCi) false

/-! ## A concrete setting

Sample values for the declarations outside the file and for the collaborators,
used to run the embedding on concrete submissions. -/

/-- Sample constants and library behaviour: marshalling succeeds, a stage
allow-list is a comma-separated list of config-map names followed, after a
semicolon, by a comma-separated list of secret names. -/
def sampleAmbient : Ambient where
  PRE := "PRE"
  POST := "POST"
  CI_NODE_PVC_ALL_ENV := "devtron.ai/ci-pvc-all"
  CI_NODE_PVC_PIPELINE_PREFIX := "devtron.ai/ci-pvc"
  CI_WORKFLOW_NAME := "ci"
  CD_WORKFLOW_NAME := "cd"
  BLOB_STORAGE_S3 := "S3"
  WORKFLOW_EXECUTOR_TYPE_AWF := "AWF"
  WORKFLOW_EXECUTOR_TYPE_SYSTEM := "SYSTEM"
  PIPELINE_TYPE_CI := "CI"
  PIPELINE_TYPE_CD := "CD"
  BearerToken := "bearer_token"
  MainContainerName := "main"
  TolerationOpEqual := "Equal"
  TaintEffectNoSchedule := "NoSchedule"
  RestartPolicyNever := "Never"
  ToLower := fun s => ⟨s.data.map Char.toLower⟩
  Marshal := fun ev => .ok (ev.Type_ ++ ":" ++ ev.CommonWorkflowRequest.PipelineName)
  Unmarshal := fun s =>
    if s = "a;s" then .ok ⟨["a"], ["s"]⟩
    else if s = "" then .error ⟨"unexpected end of JSON input"⟩
    else .ok ⟨[], []⟩
  ParseQuantity := fun s => if s = "" then none else some ⟨s⟩
  GetFromGlobalCmCsDtos := fun gs =>
    (gs.map (fun g => ⟨g.Name, false, g.Payload⟩), [], none)
  ExtractVolumesFromCmCs := fun cms secrets => (cms ++ secrets).map (fun c => c.Name)
  UpdateContainerEnvsFromCmCs := fun c cms secrets =>
    { c with EnvFrom := (cms ++ secrets).map (fun c => c.Name) }

/-- Sample process configuration. -/
def sampleConfig : CiCdConfig where
  ImageScannerEndpoint := "http://scanner"
  CloudProvider := "S3"
  BlobStorageS3AccessKey := ""
  BlobStorageS3SecretKey := ""
  CiDefaultBuildLogsKeyPrefix := "ci-logs"
  CdDefaultBuildLogsKeyPrefix := "cd-logs"
  InAppLoggingEnabled := false
  BuildLogTTLValue := 3600
  CiWorkflowServiceAccount := "ci-runner"
  CdWorkflowServiceAccount := "cd-runner"
  CiTaintKey := ""
  CiTaintValue := ""
  CdTaintKey := "dedicated"
  CdTaintValue := "ci"
  NodeLabel := []
  CiLimitCpu := "0.5"
  CiLimitMem := "3G"
  CiReqCpu := "0.5"
  CiReqMem := "1G"
  CdLimitCpu := "0.5"
  CdLimitMem := "3G"
  CdReqCpu := "0.5"
  CdReqMem := "1G"
  WfControllerInstanceID := "devtron-runner"
  UseBlobStorageConfigInCdWorkflow := true

/-- A sample Argo executor that accepts every template. -/
def sampleArgo : WorkflowExecutor := ⟨"argo", fun _ => none⟩

/-- A sample system executor that accepts every template. -/
def sampleSystem : WorkflowExecutor := ⟨"system", fun _ => none⟩

/-- Sample service: one global definition, two app-level config maps (`a`
internal, `b` external) and two secrets (`s` internal, `t` external), and both
executors injected and succeeding. -/
def sampleImpl : CommonWorkflowServiceImpl where
  config := ⟨"in-cluster"⟩
  ciCdConfig := sampleConfig
  GetCmSecretNew := fun _ _ _ =>
    .ok (⟨[⟨"a", false, "x"⟩, ⟨"b", true, "y"⟩]⟩, ⟨[⟨"s", false, "p"⟩, ⟨"t", true, "q"⟩]⟩)
  FindAllActiveByPipelineType := fun _ => .ok [⟨"G", "secret"⟩]
  GetRestConfigByCluster := fun c => .ok ⟨c.Host⟩
  argoWorkflowExecutor := some sampleArgo
  systemWorkflowExecutor := some sampleSystem

/-- A sample request: workflow 5, runner 9, nothing set that the code would set. -/
def sampleRequest : CommonWorkflowRequest where
  WorkflowNamePrefix := "5-ci"
  PipelineName := "build"
  ActiveDeadlineSeconds := 3600
  CiImage := "ci-image"
  Namespace := "devtron-ci"
  WorkflowId := 5
  BlobStorageConfigured := false
  BlobStorageS3Config := none
  AzureBlobConfig := none
  GcpBlobConfig := none
  BlobStorageLogsKey := ""
  InAppLoggingEnabled := false
  RefPlugins := []
  IgnoreDockerCachePush := false
  IgnoreDockerCachePull := false
  IsPvcMounted := false
  AppId := 1
  EnvironmentId := 2
  IsExtRun := false
  WorkflowRunnerId := 9
  CdImage := "cd-image"
  StageType := ""
  WorkflowPrefixForLog := "5-build"
  WorkflowExecutor := "AWF"
  PrePostDeploySteps := []
  Remaining := ""

/-- A sample pipeline whose pre-stage allow-list names config map `a` and secret `s`. -/
def samplePipeline : Pipeline where
  Id := 3
  RunPreStageInEnv := true
  RunPostStageInEnv := false
  PreStageConfigMapSecretNames := "a;s"
  PostStageConfigMapSecretNames := "none"

/-- The sample request as a CD pre-stage submission. -/
def preStageRequest : CommonWorkflowRequest := { sampleRequest with StageType := "PRE" }

/-- The sample request as a CD post-stage submission; the sample pipeline does
not run its post-stage in the environment, and its post-stage allow-list is empty. -/
def postStageRequest : CommonWorkflowRequest := { sampleRequest with StageType := "POST" }

/-- The sample request with blob storage configured, for the system executor. -/
def archivingRequest : CommonWorkflowRequest :=
  { sampleRequest with BlobStorageConfigured := true, WorkflowExecutor := "SYSTEM" }

/-- The sample request with the executor type left unset. -/
def unsetExecutorRequest : CommonWorkflowRequest := { sampleRequest with WorkflowExecutor := "" }

/-- A sample environment with id 7 on an external cluster. -/
def sampleEnvironment : Environment where
  Id := 7
  Cluster := some ⟨"remote", "https://remote", [("bearer_token", "tkn")]⟩

/-- Sample application labels with a PVC label for the pipeline `build`. -/
def sampleLabels : StringMap := [("devtron.ai/ci-pvc-build", "pvc-1")]

/-- A sample Argo executor that rejects every template. -/
def failingArgo : WorkflowExecutor := ⟨"argo", fun _ => some ⟨"argo unavailable"⟩⟩

/-- The sample service with the rejecting Argo executor. -/
def failingExecutorImpl : CommonWorkflowServiceImpl :=
  { sampleImpl with argoWorkflowExecutor := some failingArgo }

/-- The sample service with a global CM/CS lookup that fails. -/
def failingGlobalImpl : CommonWorkflowServiceImpl :=
  { sampleImpl with FindAllActiveByPipelineType := fun _ => .error ⟨"global lookup failed"⟩ }

/-- The sample service with a rest-config lookup that fails. -/
def failingRestConfigImpl : CommonWorkflowServiceImpl :=
  { sampleImpl with GetRestConfigByCluster := fun _ => .error ⟨"cluster unreachable"⟩ }

/-- The sample service as a second submission finds it when the collaborators
hand out again the objects a first run has left behind. -/
def resubmitImpl (first : Run) : CommonWorkflowServiceImpl :=
  { sampleImpl with
    FindAllActiveByPipelineType := fun _ => .ok first.globalCmCsConfigs
    GetCmSecretNew := fun _ _ _ =>
      .ok (⟨[⟨"a", false, "x"⟩, ⟨"b", true, "y"⟩]⟩, ⟨first.existingSecrets⟩) }

/-! ## App listing: `pkg/app/AppListingService.go`

`FetchAppListingRequest.GetNamespaceClusterMapping` and
`BuildJobListingResponse`. A Go map that is only read and written by key is a
function from keys to optional values. -/

/-- `strings.Split(s, sep)` for a separator of one character, on the characters
of `s`: the pieces between the separators, so always at least one piece. -/
def splitChars (sep : Char) : List Char → List (List Char)
  | [] => [[]]
  | c :: cs =>
    if c = sep then [] :: splitChars sep cs
    else
      match splitChars sep cs with
      | [] => [[c]]
      | piece :: pieces => (c :: piece) :: pieces

/-- `strings.Split(s, "_")`. -/
def SplitUnderscore (s : String) : List String :=
  (splitChars '_' s.data).map String.mk

/-- The value of a non-empty string of decimal digits; `none` for any other string. -/
def parseDigits (cs : List Char) : Option Nat :=
  if cs ≠ [] ∧ cs.all Char.isDigit then
    some (cs.foldl (fun n c => 10 * n + (c.toNat - '0'.toNat)) 0)
  else none

/-- `strconv.Atoi`: an optional sign followed by decimal digits, within the
range of a 64-bit `int`; `none` is the returned error. -/
def Atoi (s : String) : Option Int :=
  let signed : Option Int :=
    match s.data with
    | '-' :: ds => (parseDigits ds).map (fun n => -(n : Int))
    | '+' :: ds => (parseDigits ds).map (fun n => (n : Int))
    | ds => (parseDigits ds).map (fun n => (n : Int))
  match signed with
  | some n => if -(2 ^ 63) ≤ n ∧ n < 2 ^ 63 then some n else none
  | none => none

/-- `FetchAppListingRequest`: the field read by `GetNamespaceClusterMapping`. -/
structure FetchAppListingRequest where
  Namespaces : List String
deriving DecidableEq, Repr

/-- `repository2.ClusterNamespacePair`. -/
structure ClusterNamespacePair where
  ClusterId : Int
  NamespaceName : String
deriving DecidableEq, Repr

/-- What `GetNamespaceClusterMapping` does: it returns its three results (a nil
slice is the empty list, a nil error is `none`), or it panics on `items[0]`. -/
inductive NamespaceMapping where
  | returned (namespaceClusterPair : List ClusterNamespacePair) (clusterIds : List Int)
      (err : Option GoError)
  | panicked
deriving DecidableEq, Repr

/-- The loop of `GetNamespaceClusterMapping` over the entries still to visit,
with the two result slices built so far. -/
def namespaceLoop :
    List String → List ClusterNamespacePair → List Int → NamespaceMapping
  | [], namespaceClusterPair, clusterIds => .returned namespaceClusterPair clusterIds none
  | ns :: rest, namespaceClusterPair, clusterIds =>
    let items := SplitUnderscore ns
    if items.length < 1 ∧ items.length > 2 then
      .returned [] [] (some ⟨"invalid namespaceds"⟩)
    else
      match items with
      | [] => .panicked
      | first :: _ =>
        match Atoi first with
        | none => .returned [] [] (some ⟨"invalid clustrer id"⟩)
        | some clusterId =>
          if items.length = 2 then
            namespaceLoop rest
              (namespaceClusterPair ++ [⟨clusterId, (items.drop 1).headD ""⟩]) clusterIds
          else
            namespaceLoop rest namespaceClusterPair (clusterIds ++ [clusterId])

/-- `FetchAppListingRequest.GetNamespaceClusterMapping`. -/
def GetNamespaceClusterMapping (req : FetchAppListingRequest) : NamespaceMapping :=
  namespaceLoop req.Namespaces [] []

/-- A `time.Time`, kept abstract; the default is the zero time. -/
structure GoTime where
  instant : Int := 0
deriving DecidableEq, Repr

/-- `bean.JobListingContainer`: the fields read by `BuildJobListingResponse`. -/
structure JobListingContainer where
  JobId : Int
  JobName : String
  Description : String
  CiPipelineID : Int
  CiPipelineName : String
  Status : String
  StartedOn : GoTime
deriving DecidableEq, Repr

/-- `bean.CiPipelineLastSucceededTime`. -/
structure CiPipelineLastSucceededTime where
  CiPipelineID : Int
  LastSucceededOn : GoTime
deriving DecidableEq, Repr

/-- `bean.JobCIPipeline`: the fields set by `BuildJobListingResponse`. -/
structure JobCIPipeline where
  CiPipelineId : Int := 0
  CiPipelineName : String := ""
  Status : String := ""
  LastRunAt : GoTime := {}
  LastSuccessAt : GoTime := {}
deriving DecidableEq, Repr

/-- `bean.JobContainer`: the fields set by `BuildJobListingResponse`; `{}` is
the zero value. -/
structure JobContainer where
  JobId : Int := 0
  JobName : String := ""
  Description : String := ""
  JobCiPipelines : List JobCIPipeline := []
deriving DecidableEq, Repr

/-- The map write `m[k] = v`. -/
def mapStore {V : Type} (m : Int → Option V) (k : Int) (v : V) : Int → Option V :=
  fun key => if key = k then some v else m key

/-- The first loop of `BuildJobListingResponse`: `lastSucceededTimeMapping`. -/
def lastSucceededTimes (JobsLastSucceededOnTime : List CiPipelineLastSucceededTime) :
    Int → Option GoTime :=
  JobsLastSucceededOnTime.foldl
    (fun lastSucceededTimeMapping lastSuccessTime =>
      mapStore lastSucceededTimeMapping lastSuccessTime.CiPipelineID
        lastSuccessTime.LastSucceededOn)
    (fun _ => none)

/-- One turn of the second loop of `BuildJobListingResponse`, on the pair of
`jobContainersMapping` and `appIds`. -/
def groupJob (lastSucceededTimeMapping : Int → Option GoTime)
    (state : (Int → Option JobContainer) × List Int) (jobContainer : JobListingContainer) :
    (Int → Option JobContainer) × List Int :=
  let jobContainersMapping := state.1
  let appIds := state.2
  let found : JobContainer × List Int :=
    match jobContainersMapping jobContainer.JobId with
    | some val => (val, appIds)
    | none =>
      ({ JobId := jobContainer.JobId, JobName := jobContainer.JobName,
         Description := jobContainer.Description },
        appIds ++ [jobContainer.JobId])
  let val := found.1
  let appIds := found.2
  let val :=
    if jobContainer.CiPipelineID ≠ 0 then
      let ciPipelineObj : JobCIPipeline :=
        { CiPipelineId := jobContainer.CiPipelineID
          CiPipelineName := jobContainer.CiPipelineName
          Status := jobContainer.Status
          LastRunAt := jobContainer.StartedOn }
      let ciPipelineObj :=
        match lastSucceededTimeMapping jobContainer.CiPipelineID with
        | some lastSuccessAt => { ciPipelineObj with LastSuccessAt := lastSuccessAt }
        | none => ciPipelineObj
      { val with JobCiPipelines := val.JobCiPipelines ++ [ciPipelineObj] }
    else val
  (mapStore jobContainersMapping jobContainer.JobId val, appIds)

/-- `BuildJobListingResponse`. The rows and the last-succeeded entries are
reached through pointers, taken to be non-nil. -/
def BuildJobListingResponse (jobContainers : List JobListingContainer)
    (JobsLastSucceededOnTime : List CiPipelineLastSucceededTime) : List JobContainer :=
  let lastSucceededTimeMapping := lastSucceededTimes JobsLastSucceededOnTime
  let state := jobContainers.foldl (groupJob lastSucceededTimeMapping) (fun _ => none, [])
  state.2.map (fun appId => (state.1 appId).getD {})

/-- The ids of a list in the order of their first appearance. -/
def firstAppearances : List Int → List Int
  | [] => []
  | id :: ids => id :: (firstAppearances ids).filter (fun other => decide (other ≠ id))

/-- The time of the last entry for a pipeline among the last-succeeded entries,
when there is one. -/
def lastSucceededOn (times : List CiPipelineLastSucceededTime) (ciPipelineId : Int) :
    Option GoTime :=
  ((times.filter (fun entry => decide (entry.CiPipelineID = ciPipelineId))).getLast?).map
    (fun entry => entry.LastSucceededOn)

/-- The pipeline entry that the claim describes for one job row. -/
def pipelineOfRow (times : List CiPipelineLastSucceededTime) (row : JobListingContainer) :
    JobCIPipeline :=
  { CiPipelineId := row.CiPipelineID
    CiPipelineName := row.CiPipelineName
    Status := row.Status
    LastRunAt := row.StartedOn
    LastSuccessAt := (lastSucceededOn times row.CiPipelineID).getD {} }

/-- The container that the claim describes for one job id: name and
description of the first row of the job, and one pipeline entry, in input
order, for each row of the job that has a pipeline. -/
def containerOfJob (rows : List JobListingContainer) (times : List CiPipelineLastSucceededTime)
    (jobId : Int) : JobContainer :=
  { JobId := jobId
    JobName := ((rows.find? (fun row => decide (row.JobId = jobId))).map (·.JobName)).getD ""
    Description :=
      ((rows.find? (fun row => decide (row.JobId = jobId))).map (·.Description)).getD ""
    JobCiPipelines :=
      (rows.filter (fun row => decide (row.JobId = jobId) && decide (row.CiPipelineID ≠ 0))).map
        (pipelineOfRow times) }

/-- The grouped listing as the claim describes it: one container per distinct
job id, in the order of first appearance. -/
def groupedJobs (rows : List JobListingContainer) (times : List CiPipelineLastSucceededTime) :
    List JobContainer :=
  (firstAppearances (rows.map (·.JobId))).map (containerOfJob rows times)

/-- Sample job rows: job 7 with two pipelines, job 3 without any, job 7 again. -/
def sampleJobRows : List JobListingContainer :=
  [⟨7, "nightly", "nightly build", 11, "build", "Succeeded", ⟨100⟩⟩,
   ⟨3, "cleanup", "", 0, "", "", ⟨0⟩⟩,
   ⟨7, "nightly", "nightly build", 12, "scan", "Failed", ⟨200⟩⟩]

/-- Sample last-succeeded entries: two for pipeline 11, none for pipeline 12. -/
def sampleSucceededTimes : List CiPipelineLastSucceededTime :=
  [⟨11, ⟨90⟩⟩, ⟨11, ⟨95⟩⟩]

/-- The sample request with blob storage configured and an S3 configuration. -/
def blobRequest : CommonWorkflowRequest :=
  { sampleRequest with BlobStorageConfigured := true, BlobStorageS3Config := some "s3-logs" }

/-- The sample process configuration with a node label. -/
def labelledConfig : CiCdConfig := { sampleConfig with NodeLabel := [("purpose", "ci")] }

/-- The sample service with the node label configured. -/
def labelledImpl : CommonWorkflowServiceImpl := { sampleImpl with ciCdConfig := labelledConfig }

/-! ## Auxiliary facts -/

theorem length_eq_zero_iff (s : String) : s.length = 0 ↔ s = "" := by
  cases s with
  | mk l =>
    cases l with
    | nil => simp [String.length]
    | cons a l =>
      simp only [String.length, List.length_cons, Nat.add_one_ne_zero, false_iff]
      intro h
      have hd := congrArg String.data h
      simp at hd

theorem append_right_cancel (a b s : String) (h : a ++ s = b ++ s) : a = b := by
  have hd := congrArg String.data h
  simp only [String.data_append] at hd
  exact String.ext (List.append_cancel_right hd)

/-- With a non-nil pipeline line 189 does not panic. -/
theorem stageRunsInEnv_some (A : Ambient) (r : CommonWorkflowRequest) (p : Pipeline) :
    stageRunsInEnv A r (some p) =
      some ((decide (r.StageType = A.PRE) && p.RunPreStageInEnv) ||
        (decide (r.StageType = A.POST) && p.RunPostStageInEnv)) := by
  unfold stageRunsInEnv
  by_cases h1 : r.StageType = A.PRE <;> by_cases h2 : r.StageType = A.POST <;> simp [h1, h2]

theorem mountPvc_eq (A : Ambient) (r : CommonWorkflowRequest) (l : StringMap) :
    mountPvc A r l =
      { r with
        IsPvcMounted := r.IsPvcMounted || pvcLabelPresent A r l
        IgnoreDockerCachePush := r.IgnoreDockerCachePush || pvcLabelPresent A r l
        IgnoreDockerCachePull := r.IgnoreDockerCachePull || pvcLabelPresent A r l } := by
  unfold mountPvc pvcLabelPresent
  simp only [length_eq_zero_iff, ne_eq]
  by_cases h1 : mapIndex l (A.ToLower (A.CI_NODE_PVC_PIPELINE_PREFIX ++ "-" ++ r.PipelineName)) = ""
  · by_cases h2 : mapIndex l A.CI_NODE_PVC_ALL_ENV = ""
    · simp [h1, h2]
    · simp [h1, h2]
  · simp [h1]

theorem prepareRequest_eq (A : Ambient) (impl : CommonWorkflowServiceImpl)
    (r : CommonWorkflowRequest) (pipeline : Option Pipeline) (env : Option Environment)
    (l : StringMap) (isCi : Bool) :
    prepareRequest A impl r pipeline env l isCi =
      (stageRunsInEnv A r pipeline).map (preparedRequest A impl r env l isCi) := by
  unfold prepareRequest preparedRequest
  cases hs : stageRunsInEnv A r pipeline with
  | none => rfl
  | some inEnv =>
    simp only [mountPvc_eq, Option.map_some']
    cases inEnv <;> cases he : ciInEnvironment env isCi <;> cases isCi <;> simp [pvcLabelPresent]

/-- The request that lines 189–218 leave behind when `pipeline` is not nil. -/
theorem prepareRequest_some (A : Ambient) (impl : CommonWorkflowServiceImpl)
    (r : CommonWorkflowRequest) (p : Pipeline) (env : Option Environment)
    (l : StringMap) (isCi : Bool) :
    prepareRequest A impl r (some p) env l isCi =
      some (preparedRequest A impl r env l isCi
        ((decide (r.StageType = A.PRE) && p.RunPreStageInEnv) ||
          (decide (r.StageType = A.POST) && p.RunPostStageInEnv))) := by
  rw [prepareRequest_eq, stageRunsInEnv_some]
  rfl

/-- A request that lines 189–218 leave behind keeps the identifiers of the
incoming one. -/
theorem prepareRequest_ids (A : Ambient) (impl : CommonWorkflowServiceImpl)
    (r : CommonWorkflowRequest) (pipeline : Option Pipeline) (env : Option Environment)
    (l : StringMap) (isCi : Bool) (r' : CommonWorkflowRequest)
    (h : prepareRequest A impl r pipeline env l isCi = some r') :
    r'.WorkflowId = r.WorkflowId ∧ r'.WorkflowRunnerId = r.WorkflowRunnerId ∧
      r'.AppId = r.AppId ∧ r'.EnvironmentId = r.EnvironmentId ∧
      r'.StageType = r.StageType := by
  rw [prepareRequest_eq] at h
  cases hs : stageRunsInEnv A r pipeline with
  | none => simp [hs] at h
  | some inEnv =>
    simp only [hs, Option.map_some', Option.some.injEq] at h
    subst h
    simp [preparedRequest]

theorem placeTemplate_configs (A : Ambient) (impl : CommonWorkflowServiceImpl)
    (r : CommonWorkflowRequest) (t : WorkflowTemplate) (cms secs : List ConfigSecretMap)
    (isJob isCi : Bool) :
    (placeTemplate A impl r t cms secs isJob isCi).ConfigMaps = cms ∧
      (placeTemplate A impl r t cms secs isJob isCi).Secrets = secs := by
  unfold placeTemplate
  cases isCi <;> simp

theorem resolveClusterConfig_configs (A : Ambient) (impl : CommonWorkflowServiceImpl)
    (r : CommonWorkflowRequest) (env : Option Environment) (t : WorkflowTemplate) :
    (resolveClusterConfig A impl r env t).template.ConfigMaps = t.ConfigMaps ∧
      (resolveClusterConfig A impl r env t).template.Secrets = t.Secrets := by
  unfold resolveClusterConfig
  simp only []
  constructor <;> (repeat' split) <;> rfl

/-- Wherever the template part of the function is left, and whatever the
trigger event holds, the template carries the two workflow lists it was given. -/
theorem assembleTemplate_configs (A : Ambient) (impl : CommonWorkflowServiceImpl)
    (r : CommonWorkflowRequest) (env : Option Environment) (ev : CiCdTriggerEvent)
    (json : String) (envs : List EnvVar) (t : WorkflowTemplate)
    (cms secs : List ConfigSecretMap) (isJob isCi : Bool) :
    (assembleTemplate A impl r env ev json envs t cms secs isJob isCi).template.ConfigMaps = cms ∧
    (assembleTemplate A impl r env ev json envs t cms secs isJob isCi).template.Secrets = secs := by
  have hp := placeTemplate_configs A impl r t cms secs isJob isCi
  unfold assembleTemplate
  simp only []
  cases ha : archiveLogsValue (placeTemplate A impl r t cms secs isJob isCi) ev with
  | none => exact hp
  | some archive =>
    cases hc : ev.CdRequest with
    | none => simpa [restartAndNodeLabel] using hp
    | some cd =>
      simp only []
      split
      · simpa [restartAndNodeLabel] using hp
      · rw [(resolveClusterConfig_configs A impl r env _).1,
          (resolveClusterConfig_configs A impl r env _).2]
        simpa [finishTemplate, updateBlobStorageConfig, restartAndNodeLabel] using hp


theorem mem_appLevelEntries (A : Ambient) (r : CommonWorkflowRequest) (isCi : Bool)
    (allowed : List String) (existing : List ConfigSecretMap) (e : ConfigSecretMap)
    (h : e ∈ appLevelEntries A r isCi allowed existing) :
    ∃ cm ∈ existing, e = renameForCi A r cm ∨ e = renameForCd r cm := by
  unfold appLevelEntries at h
  cases isCi with
  | true =>
    simp only [if_true, List.mem_map] at h
    obtain ⟨cm, hcm, rfl⟩ := h
    exact ⟨cm, hcm, Or.inl rfl⟩
  | false =>
    simp only [Bool.false_eq_true, if_false, List.mem_map, List.mem_filter] at h
    obtain ⟨cm, ⟨hcm, _⟩, rfl⟩ := h
    exact ⟨cm, hcm, Or.inr rfl⟩

/-- The configuration part of an external run: no call to the global CM/CS
service, and workflow lists made of app-level entries only. -/
theorem resolveConfigs_external (A : Ambient) (impl : CommonWorkflowServiceImpl)
    (r : CommonWorkflowRequest) (pipeline : Option Pipeline) (isJob isCi : Bool)
    (h : r.IsExtRun = true) :
    (∀ t, Call.FindAllActiveByPipelineType t ∉ (resolveConfigs A impl r pipeline isJob isCi).calls) ∧
    (resolveConfigs A impl r pipeline isJob isCi).globalCmCsConfigs = [] ∧
    (∀ e ∈ (resolveConfigs A impl r pipeline isJob isCi).workflowConfigMaps,
      ∃ existing, impl.GetCmSecretNew r.AppId r.EnvironmentId isJob = .ok existing ∧
        ∃ cm ∈ existing.1.Maps, e = renameForCi A r cm ∨ e = renameForCd r cm) ∧
    (∀ e ∈ (resolveConfigs A impl r pipeline isJob isCi).workflowSecrets,
      ∃ existing, impl.GetCmSecretNew r.AppId r.EnvironmentId isJob = .ok existing ∧
        ∃ cm ∈ existing.2.Secrets, e = renameForCi A r cm ∨ e = renameForCd r cm) := by
  unfold resolveConfigs
  simp only [h, Bool.not_true, Bool.false_eq_true, if_false]
  split
  · simp
  · simp
  · split
    · simp
    · split
      · simp
      · refine ⟨by simp, by simp, ?_, ?_⟩
        · intro e he
          simp only [List.nil_append] at he
          exact ⟨_, by assumption, mem_appLevelEntries A r isCi _ _ e he⟩
        · intro e he
          simp only [List.nil_append] at he
          exact ⟨_, by assumption, mem_appLevelEntries A r isCi _ _ e he⟩

/-- An external run is the same whatever the global CM/CS service would answer. -/
theorem resolveConfigs_external_indep (A : Ambient) (impl : CommonWorkflowServiceImpl)
    (r : CommonWorkflowRequest) (pipeline : Option Pipeline) (isJob isCi : Bool)
    (h : r.IsExtRun = true) (find : String → Except GoError (List GlobalCMCSDto)) :
    resolveConfigs A { impl with FindAllActiveByPipelineType := find } r pipeline isJob isCi =
      resolveConfigs A impl r pipeline isJob isCi := by
  unfold resolveConfigs
  simp only [h, Bool.not_true, Bool.false_eq_true, if_false]


/-- The request a call leaves behind is the one lines 189–218 produce; a call
that panics at line 189 leaves the request as it was. -/
theorem SubmitWorkflow_request (A : Ambient) (impl : CommonWorkflowServiceImpl)
    (r : CommonWorkflowRequest) (pipeline : Option Pipeline) (env : Option Environment)
    (l : StringMap) (isJob isCi : Bool) :
    (SubmitWorkflow A impl r pipeline env l isJob isCi).request =
      (prepareRequest A impl r pipeline env l isCi).getD r := by
  unfold SubmitWorkflow
  simp only []
  cases prepareRequest A impl r pipeline env l isCi with
  | none => rfl
  | some r' =>
    simp only [Option.getD_some]
    (repeat' split) <;> rfl

/-- A call that gets past the configuration part has, in its template, the two
workflow lists that part produced. -/
theorem SubmitWorkflow_configs (A : Ambient) (impl : CommonWorkflowServiceImpl)
    (r : CommonWorkflowRequest) (pipeline : Option Pipeline) (env : Option Environment)
    (l : StringMap) (isJob isCi : Bool) (r' : CommonWorkflowRequest) (json : String)
    (hp : prepareRequest A impl r pipeline env l isCi = some r')
    (hm : A.Marshal (triggerEvent r' isCi) = .ok json)
    (hr : (resolveConfigs A impl r' pipeline isJob isCi).exit = none) :
    (SubmitWorkflow A impl r pipeline env l isJob isCi).template.ConfigMaps =
        (resolveConfigs A impl r' pipeline isJob isCi).workflowConfigMaps ∧
      (SubmitWorkflow A impl r pipeline env l isJob isCi).template.Secrets =
        (resolveConfigs A impl r' pipeline isJob isCi).workflowSecrets := by
  unfold SubmitWorkflow
  simp only [hp, hm, hr]
  have hc := assembleTemplate_configs A impl r' env (triggerEvent r' isCi) json
    (initialEnvVariables A impl isCi) (initialTemplate impl r' json isCi)
    (resolveConfigs A impl r' pipeline isJob isCi).workflowConfigMaps
    (resolveConfigs A impl r' pipeline isJob isCi).workflowSecrets isJob isCi
  constructor <;> (repeat' split) <;> first | exact hc.1 | exact hc.2
theorem renameForCi_congr (A : Ambient) (r r' : CommonWorkflowRequest)
    (h : r'.WorkflowId = r.WorkflowId) : renameForCi A r' = renameForCi A r := by
  funext cm
  unfold renameForCi
  rw [h]

theorem renameForCd_congr (r r' : CommonWorkflowRequest)
    (h : r'.WorkflowId = r.WorkflowId) (h2 : r'.WorkflowRunnerId = r.WorkflowRunnerId) :
    renameForCd r' = renameForCd r := by
  funext cm
  unfold renameForCd
  rw [h, h2]

theorem resolveClusterConfig_calls (A : Ambient) (impl : CommonWorkflowServiceImpl)
    (r : CommonWorkflowRequest) (env : Option Environment) (t : WorkflowTemplate) :
    ∀ c ∈ (resolveClusterConfig A impl r env t).calls,
      ∃ clusterConfig, c = Call.GetRestConfigByCluster clusterConfig := by
  unfold resolveClusterConfig
  simp only []
  (repeat' split) <;> simp

/-- The template part calls no collaborator other than the rest-config lookup. -/
theorem assembleTemplate_calls (A : Ambient) (impl : CommonWorkflowServiceImpl)
    (r : CommonWorkflowRequest) (env : Option Environment) (ev : CiCdTriggerEvent)
    (json : String) (envs : List EnvVar) (t : WorkflowTemplate)
    (cms secs : List ConfigSecretMap) (isJob isCi : Bool) :
    ∀ c ∈ (assembleTemplate A impl r env ev json envs t cms secs isJob isCi).calls,
      ∃ clusterConfig, c = Call.GetRestConfigByCluster clusterConfig := by
  unfold assembleTemplate
  simp only []
  (repeat' split) <;> first | (intro c hc; exact absurd hc (List.not_mem_nil c)) | exact resolveClusterConfig_calls _ _ _ _ _

/-- The dispatch block calls nothing but `ExecuteWorkflow`, on the template at hand. -/
theorem dispatchWorkflow_calls (A : Ambient) (impl : CommonWorkflowServiceImpl)
    (r : CommonWorkflowRequest) (t : WorkflowTemplate) :
    ∀ c ∈ (dispatchWorkflow A impl r t).2, ∃ id, c = Call.ExecuteWorkflow id t := by
  unfold dispatchWorkflow
  split <;> simp

/-- The global CM/CS service is called only by the configuration part, and only
when the prepared request is not an external run. -/
theorem resolveConfigs_findAll (A : Ambient) (impl : CommonWorkflowServiceImpl)
    (r : CommonWorkflowRequest) (pipeline : Option Pipeline) (isJob isCi : Bool) (t : String)
    (h : Call.FindAllActiveByPipelineType t ∈ (resolveConfigs A impl r pipeline isJob isCi).calls) :
    r.IsExtRun = false := by
  cases hx : r.IsExtRun with
  | false => rfl
  | true => exact absurd h ((resolveConfigs_external A impl r pipeline isJob isCi hx).1 t)

theorem SubmitWorkflow_findAll (A : Ambient) (impl : CommonWorkflowServiceImpl)
    (r : CommonWorkflowRequest) (pipeline : Option Pipeline) (env : Option Environment)
    (l : StringMap) (isJob isCi : Bool) (t : String)
    (h : Call.FindAllActiveByPipelineType t ∈ (SubmitWorkflow A impl r pipeline env l isJob isCi).calls) :
    (SubmitWorkflow A impl r pipeline env l isJob isCi).request.IsExtRun = false := by
  rw [SubmitWorkflow_request]
  unfold SubmitWorkflow at h
  simp only [] at h
  cases hp : prepareRequest A impl r pipeline env l isCi with
  | none => simp [hp] at h
  | some r' =>
    simp only [hp, Option.getD_some] at h ⊢
    have hasm := assembleTemplate_calls A impl r' env (triggerEvent r' isCi)
    have hres := resolveConfigs_findAll A impl r' pipeline isJob isCi t
    cases hm : A.Marshal (triggerEvent r' isCi) with
    | error e => simp [hm] at h
    | ok json =>
      simp only [hm] at h
      split at h
      · exact hres h
      · split at h
        · rcases List.mem_append.1 h with h1 | h2
          · exact hres h1
          · obtain ⟨cc, hcc⟩ := hasm _ _ _ _ _ _ _ _ h2
            cases hcc
        · rcases List.mem_append.1 h with h1 | h2
          · rcases List.mem_append.1 h1 with h1 | h2
            · exact hres h1
            · obtain ⟨cc, hcc⟩ := hasm _ _ _ _ _ _ _ _ h2
              cases hcc
          · obtain ⟨id, hid⟩ := dispatchWorkflow_calls _ _ _ _ _ h2
            cases hid

theorem initialTemplate_configs (impl : CommonWorkflowServiceImpl) (r : CommonWorkflowRequest)
    (json : String) (isCi : Bool) :
    (initialTemplate impl r json isCi).ConfigMaps = [] ∧
      (initialTemplate impl r json isCi).Secrets = [] := by
  unfold initialTemplate
  cases isCi <;> simp

/-- The template of any call holds, once the configuration part is done, the
lists that part produced, and holds no entry before. -/
theorem SubmitWorkflow_template_configs (A : Ambient) (impl : CommonWorkflowServiceImpl)
    (r : CommonWorkflowRequest) (pipeline : Option Pipeline) (env : Option Environment)
    (l : StringMap) (isJob isCi : Bool) (r' : CommonWorkflowRequest)
    (hp : prepareRequest A impl r pipeline env l isCi = some r') :
    ((SubmitWorkflow A impl r pipeline env l isJob isCi).template.ConfigMaps = [] ∧
      (SubmitWorkflow A impl r pipeline env l isJob isCi).template.Secrets = []) ∨
    ((SubmitWorkflow A impl r pipeline env l isJob isCi).template.ConfigMaps =
        (resolveConfigs A impl r' pipeline isJob isCi).workflowConfigMaps ∧
      (SubmitWorkflow A impl r pipeline env l isJob isCi).template.Secrets =
        (resolveConfigs A impl r' pipeline isJob isCi).workflowSecrets) := by
  cases hm : A.Marshal (triggerEvent r' isCi) with
  | error e =>
    left
    unfold SubmitWorkflow
    simp [hp, hm]
  | ok json =>
    cases hr : (resolveConfigs A impl r' pipeline isJob isCi).exit with
    | some o =>
      left
      unfold SubmitWorkflow
      simp only [hp, hm, hr]
      exact initialTemplate_configs impl r' json isCi
    | none =>
      right
      exact SubmitWorkflow_configs A impl r pipeline env l isJob isCi r' json hp hm hr

/-- Replacing the global CM/CS service does not change a call whose prepared
request is an external run. -/
theorem SubmitWorkflow_external_indep (A : Ambient) (impl : CommonWorkflowServiceImpl)
    (r : CommonWorkflowRequest) (pipeline : Option Pipeline) (env : Option Environment)
    (l : StringMap) (isJob isCi : Bool)
    (h : ∀ r', prepareRequest A impl r pipeline env l isCi = some r' → r'.IsExtRun = true)
    (find : String → Except GoError (List GlobalCMCSDto)) :
    SubmitWorkflow A { impl with FindAllActiveByPipelineType := find } r pipeline env l isJob isCi =
      SubmitWorkflow A impl r pipeline env l isJob isCi := by
  have e1 : prepareRequest A { impl with FindAllActiveByPipelineType := find } r pipeline env l isCi
      = prepareRequest A impl r pipeline env l isCi := rfl
  unfold SubmitWorkflow
  simp only [e1]
  cases hp : prepareRequest A impl r pipeline env l isCi with
  | none => rfl
  | some r' =>
    simp only []
    rw [resolveConfigs_external_indep A impl r' pipeline isJob isCi (h r' hp) find]
    rfl

/-! ## Claims C1–C10 -/

/-- C1. For every call of `SubmitWorkflow` whose request is an external run
after the external-run determination (`IsExtRun` is true in the request the
call leaves behind), the global CM/CS service is not consulted: no
`FindAllActiveByPipelineType` call is in the trace, and the whole run is the
same whatever that service would have answered. Every entry of the template's
`ConfigMaps` (`Secrets`) is an entry of the app-level config maps (secrets)
returned by `GetCmSecretNew`, either unchanged or under its CI or CD name. -/
theorem external_run_has_no_global_config (A : Ambient) (impl : CommonWorkflowServiceImpl)
    (workflowRequest : CommonWorkflowRequest) (pipeline : Option Pipeline)
    (env : Option Environment) (appLabels : StringMap) (isJob isCi : Bool)
    (hExt : (SubmitWorkflow A impl workflowRequest pipeline env appLabels isJob isCi).request.IsExtRun
      = true) :
    (∀ t, Call.FindAllActiveByPipelineType t ∉
      (SubmitWorkflow A impl workflowRequest pipeline env appLabels isJob isCi).calls) ∧
    (∀ find,
      SubmitWorkflow A { impl with FindAllActiveByPipelineType := find } workflowRequest pipeline
          env appLabels isJob isCi =
        SubmitWorkflow A impl workflowRequest pipeline env appLabels isJob isCi) ∧
    (∀ e ∈ (SubmitWorkflow A impl workflowRequest pipeline env appLabels isJob isCi).template.ConfigMaps,
      ∃ existing,
        impl.GetCmSecretNew workflowRequest.AppId workflowRequest.EnvironmentId isJob = .ok existing ∧
        ∃ cm ∈ existing.1.Maps,
          e = renameForCi A workflowRequest cm ∨ e = renameForCd workflowRequest cm) ∧
    (∀ e ∈ (SubmitWorkflow A impl workflowRequest pipeline env appLabels isJob isCi).template.Secrets,
      ∃ existing,
        impl.GetCmSecretNew workflowRequest.AppId workflowRequest.EnvironmentId isJob = .ok existing ∧
        ∃ cm ∈ existing.2.Secrets,
          e = renameForCi A workflowRequest cm ∨ e = renameForCd workflowRequest cm) := by
  have hreq := SubmitWorkflow_request A impl workflowRequest pipeline env appLabels isJob isCi
  have hprep : ∀ r', prepareRequest A impl workflowRequest pipeline env appLabels isCi = some r' →
      r'.IsExtRun = true := by
    intro r' hp
    rw [hreq, hp] at hExt
    exact hExt
  refine ⟨?_, ?_, ?_⟩
  · intro t ht
    have := SubmitWorkflow_findAll A impl workflowRequest pipeline env appLabels isJob isCi t ht
    rw [hExt] at this
    cases this
  · exact SubmitWorkflow_external_indep A impl workflowRequest pipeline env appLabels isJob isCi hprep
  · cases hp : prepareRequest A impl workflowRequest pipeline env appLabels isCi with
    | none =>
      unfold SubmitWorkflow
      simp [hp]
    | some r' =>
      obtain ⟨hid, hrun, happ, henv, _⟩ :=
        prepareRequest_ids A impl workflowRequest pipeline env appLabels isCi r' hp
      have hext := resolveConfigs_external A impl r' pipeline isJob isCi (hprep r' hp)
      rw [happ, henv, renameForCi_congr A workflowRequest r' hid,
        renameForCd_congr workflowRequest r' hid hrun] at hext
      rcases SubmitWorkflow_template_configs A impl workflowRequest pipeline env appLabels isJob
        isCi r' hp with ⟨h1, h2⟩ | ⟨h1, h2⟩
      · rw [h1, h2]
        simp
      · rw [h1, h2]
        exact ⟨hext.2.2.1, hext.2.2.2⟩

theorem resolveConfigs_calls (A : Ambient) (impl : CommonWorkflowServiceImpl)
    (r : CommonWorkflowRequest) (pipeline : Option Pipeline) (isJob isCi : Bool) :
    ∀ c ∈ (resolveConfigs A impl r pipeline isJob isCi).calls,
      (∃ t, c = Call.FindAllActiveByPipelineType t) ∨
        c = Call.GetCmSecretNew r.AppId r.EnvironmentId isJob := by
  unfold resolveConfigs
  simp only []
  cases r.IsExtRun <;> simp only [Bool.not_true, Bool.not_false, Bool.false_eq_true, if_false, if_true]
  · cases impl.FindAllActiveByPipelineType (if isCi = true then A.PIPELINE_TYPE_CI else A.PIPELINE_TYPE_CD) with
    | error e => simp
    | ok gs =>
      simp only []
      (repeat' split) <;> simp
  · (repeat' split) <;> simp

theorem resolveClusterConfig_restConfig (A : Ambient) (impl : CommonWorkflowServiceImpl)
    (r : CommonWorkflowRequest) (env : Option Environment) (t : WorkflowTemplate)
    (c : ClusterConfig)
    (h : Call.GetRestConfigByCluster c ∈ (resolveClusterConfig A impl r env t).calls) :
    r.IsExtRun = true := by
  unfold resolveClusterConfig at h
  cases hx : r.IsExtRun with
  | true => rfl
  | false => simp [hx] at h

/-- The rest-config lookup is made only for an external run. -/
theorem assembleTemplate_restConfig (A : Ambient) (impl : CommonWorkflowServiceImpl)
    (r : CommonWorkflowRequest) (env : Option Environment) (ev : CiCdTriggerEvent)
    (json : String) (envs : List EnvVar) (t : WorkflowTemplate)
    (cms secs : List ConfigSecretMap) (isJob isCi : Bool) (c : ClusterConfig)
    (h : Call.GetRestConfigByCluster c ∈
      (assembleTemplate A impl r env ev json envs t cms secs isJob isCi).calls) :
    r.IsExtRun = true := by
  unfold assembleTemplate at h
  simp only [] at h
  (repeat' split at h) <;>
    first
    | exact absurd h (List.not_mem_nil _)
    | exact resolveClusterConfig_restConfig _ _ _ _ _ _ h

theorem SubmitWorkflow_restConfig (A : Ambient) (impl : CommonWorkflowServiceImpl)
    (r : CommonWorkflowRequest) (pipeline : Option Pipeline) (env : Option Environment)
    (l : StringMap) (isJob isCi : Bool) (c : ClusterConfig)
    (h : Call.GetRestConfigByCluster c ∈ (SubmitWorkflow A impl r pipeline env l isJob isCi).calls) :
    (SubmitWorkflow A impl r pipeline env l isJob isCi).request.IsExtRun = true := by
  rw [SubmitWorkflow_request]
  unfold SubmitWorkflow at h
  simp only [] at h
  cases hp : prepareRequest A impl r pipeline env l isCi with
  | none => simp [hp] at h
  | some r' =>
    simp only [hp, Option.getD_some] at h ⊢
    have hasm := assembleTemplate_restConfig A impl r' env (triggerEvent r' isCi)
    have hres : Call.GetRestConfigByCluster c ∉ (resolveConfigs A impl r' pipeline isJob isCi).calls := by
      intro hc
      rcases resolveConfigs_calls A impl r' pipeline isJob isCi _ hc with ⟨t, ht⟩ | ht <;> cases ht
    cases hm : A.Marshal (triggerEvent r' isCi) with
    | error e => simp [hm] at h
    | ok json =>
      simp only [hm] at h
      split at h
      · exact absurd h hres
      · split at h
        · rcases List.mem_append.1 h with h1 | h2
          · exact absurd h1 hres
          · exact hasm _ _ _ _ _ _ _ _ h2
        · rcases List.mem_append.1 h with h1 | h2
          · rcases List.mem_append.1 h1 with h1 | h2
            · exact absurd h1 hres
            · exact hasm _ _ _ _ _ _ _ _ h2
          · obtain ⟨id, hid⟩ := dispatchWorkflow_calls _ _ _ _ _ h2
            cases hid

theorem ciInEnvironment_iff (env : Option Environment) (isCi : Bool) :
    ciInEnvironment env isCi = true ↔ isCi = true ∧ ∃ e, env = some e ∧ e.Id ≠ 0 := by
  unfold ciInEnvironment
  cases env with
  | none => simp
  | some e => simp [and_comm]

/-- C2. With a non-nil pipeline, the request that `SubmitWorkflow` leaves behind
has `IsExtRun` true if and only if it was true on entry, or the stage is `PRE`
and the pipeline runs its pre-stage in the environment, or the stage is `POST`
and the pipeline runs its post-stage in the environment, or the call is a CI
call with a non-nil environment whose id is not 0. In particular a CI call with
environment id 7 ends with `IsExtRun` true whatever the other flags are. The
value is fixed before it is used: the global CM/CS service is called only if
the final value is false, and the cluster rest config is looked up only if the
final value is true. -/
theorem external_run_determination (A : Ambient) (impl : CommonWorkflowServiceImpl)
    (workflowRequest : CommonWorkflowRequest) (pipeline : Pipeline)
    (env : Option Environment) (appLabels : StringMap) (isJob isCi : Bool) :
    ((SubmitWorkflow A impl workflowRequest (some pipeline) env appLabels isJob isCi).request.IsExtRun
        = true ↔
      workflowRequest.IsExtRun = true ∨
      (workflowRequest.StageType = A.PRE ∧ pipeline.RunPreStageInEnv = true) ∨
      (workflowRequest.StageType = A.POST ∧ pipeline.RunPostStageInEnv = true) ∨
      (isCi = true ∧ ∃ e, env = some e ∧ e.Id ≠ 0)) ∧
    (∀ e, env = some e → e.Id = 7 → isCi = true →
      (SubmitWorkflow A impl workflowRequest (some pipeline) env appLabels isJob isCi).request.IsExtRun
        = true) ∧
    (∀ t, Call.FindAllActiveByPipelineType t ∈
        (SubmitWorkflow A impl workflowRequest (some pipeline) env appLabels isJob isCi).calls →
      (SubmitWorkflow A impl workflowRequest (some pipeline) env appLabels isJob isCi).request.IsExtRun
        = false) ∧
    (∀ c, Call.GetRestConfigByCluster c ∈
        (SubmitWorkflow A impl workflowRequest (some pipeline) env appLabels isJob isCi).calls →
      (SubmitWorkflow A impl workflowRequest (some pipeline) env appLabels isJob isCi).request.IsExtRun
        = true) := by
  have hiff : (SubmitWorkflow A impl workflowRequest (some pipeline) env appLabels isJob
        isCi).request.IsExtRun = true ↔
      workflowRequest.IsExtRun = true ∨
      (workflowRequest.StageType = A.PRE ∧ pipeline.RunPreStageInEnv = true) ∨
      (workflowRequest.StageType = A.POST ∧ pipeline.RunPostStageInEnv = true) ∨
      (isCi = true ∧ ∃ e, env = some e ∧ e.Id ≠ 0) := by
    rw [SubmitWorkflow_request, prepareRequest_some, Option.getD_some]
    simp only [preparedRequest, Bool.or_eq_true, Bool.and_eq_true, decide_eq_true_eq,
      ciInEnvironment_iff]
    tauto
  refine ⟨hiff, ?_, ?_, ?_⟩
  · intro e he h7 hci
    rw [hiff]
    refine Or.inr (Or.inr (Or.inr ⟨hci, e, he, ?_⟩))
    rw [h7]
    decide
  · intro t ht
    exact SubmitWorkflow_findAll A impl workflowRequest (some pipeline) env appLabels isJob isCi t ht
  · intro c hc
    exact SubmitWorkflow_restConfig A impl workflowRequest (some pipeline) env appLabels isJob isCi
      c hc

theorem renameGlobal_congr (A : Ambient) (r r' : CommonWorkflowRequest) (isCi : Bool)
    (h : r'.WorkflowId = r.WorkflowId) (h2 : r'.WorkflowRunnerId = r.WorkflowRunnerId) :
    renameGlobal A r' isCi = renameGlobal A r isCi := by
  funext g
  unfold renameGlobal
  rw [h, h2]

theorem appLevelEntries_congr (A : Ambient) (r r' : CommonWorkflowRequest) (isCi : Bool)
    (h : r'.WorkflowId = r.WorkflowId) (h2 : r'.WorkflowRunnerId = r.WorkflowRunnerId) :
    appLevelEntries A r' isCi = appLevelEntries A r isCi := by
  funext allowed existing
  unfold appLevelEntries
  rw [renameForCi_congr A r r' h, renameForCd_congr r r' h h2]

/-- The configuration part in closed form, when every lookup succeeds. For a CI
call the allow-list arguments are not used. -/
theorem resolveConfigs_ok (A : Ambient) (impl : CommonWorkflowServiceImpl)
    (r : CommonWorkflowRequest) (p : Pipeline) (isJob isCi : Bool)
    (gs : List GlobalCMCSDto) (existingConfigMap : ConfigMapJson)
    (existingSecrets : ConfigSecretJson) (allowedConfigMaps allowedSecrets : List String)
    (hG : impl.FindAllActiveByPipelineType
      (if isCi then A.PIPELINE_TYPE_CI else A.PIPELINE_TYPE_CD) = .ok gs)
    (hA : isCi = false →
      getConfiguredCmCs A (some p) r.StageType = some (allowedConfigMaps, allowedSecrets, none))
    (hE : impl.GetCmSecretNew r.AppId r.EnvironmentId isJob =
      .ok (existingConfigMap, existingSecrets)) :
    (resolveConfigs A impl r (some p) isJob isCi).exit = none ∧
    (resolveConfigs A impl r (some p) isJob isCi).workflowConfigMaps =
      (if r.IsExtRun then []
        else (A.GetFromGlobalCmCsDtos (gs.map (renameGlobal A r isCi))).1) ++
        appLevelEntries A r isCi allowedConfigMaps existingConfigMap.Maps ∧
    (resolveConfigs A impl r (some p) isJob isCi).workflowSecrets =
      (if r.IsExtRun then []
        else (A.GetFromGlobalCmCsDtos (gs.map (renameGlobal A r isCi))).2.1) ++
        appLevelEntries A r isCi allowedSecrets existingSecrets.Secrets := by
  unfold resolveConfigs
  cases isCi with
  | true =>
    simp only [if_true] at hG
    cases hx : r.IsExtRun <;> simp [hG, hE, appLevelEntries]
  | false =>
    simp only [Bool.false_eq_true, if_false] at hG
    have hA' := hA rfl
    cases hx : r.IsExtRun <;> simp [hG, hE, hA']

/-- The template lists in closed form, when marshalling and every lookup of the
configuration part succeed. -/
theorem SubmitWorkflow_configs_ok (A : Ambient) (impl : CommonWorkflowServiceImpl)
    (r : CommonWorkflowRequest) (p : Pipeline) (env : Option Environment) (l : StringMap)
    (isJob isCi : Bool) (gs : List GlobalCMCSDto) (existingConfigMap : ConfigMapJson)
    (existingSecrets : ConfigSecretJson) (allowedConfigMaps allowedSecrets : List String)
    (hM : ∀ ev, ∃ json, A.Marshal ev = .ok json)
    (hG : impl.FindAllActiveByPipelineType
      (if isCi then A.PIPELINE_TYPE_CI else A.PIPELINE_TYPE_CD) = .ok gs)
    (hA : isCi = false →
      getConfiguredCmCs A (some p) r.StageType = some (allowedConfigMaps, allowedSecrets, none))
    (hE : impl.GetCmSecretNew r.AppId r.EnvironmentId isJob =
      .ok (existingConfigMap, existingSecrets)) :
    (SubmitWorkflow A impl r (some p) env l isJob isCi).template.ConfigMaps =
      (if (SubmitWorkflow A impl r (some p) env l isJob isCi).request.IsExtRun then []
        else (A.GetFromGlobalCmCsDtos (gs.map (renameGlobal A r isCi))).1) ++
        appLevelEntries A r isCi allowedConfigMaps existingConfigMap.Maps ∧
    (SubmitWorkflow A impl r (some p) env l isJob isCi).template.Secrets =
      (if (SubmitWorkflow A impl r (some p) env l isJob isCi).request.IsExtRun then []
        else (A.GetFromGlobalCmCsDtos (gs.map (renameGlobal A r isCi))).2.1) ++
        appLevelEntries A r isCi allowedSecrets existingSecrets.Secrets := by
  obtain ⟨r', hp⟩ : ∃ r', prepareRequest A impl r (some p) env l isCi = some r' :=
    ⟨_, prepareRequest_some A impl r p env l isCi⟩
  obtain ⟨hid, hrun, happ, henv, hstage⟩ := prepareRequest_ids A impl r (some p) env l isCi r' hp
  obtain ⟨json, hm⟩ := hM (triggerEvent r' isCi)
  rw [← happ, ← henv] at hE
  rw [← hstage] at hA
  obtain ⟨hx, hc, hs⟩ := resolveConfigs_ok A impl r' p isJob isCi gs existingConfigMap
    existingSecrets allowedConfigMaps allowedSecrets hG hA hE
  obtain ⟨h1, h2⟩ := SubmitWorkflow_configs A impl r (some p) env l isJob isCi r' json hp hm hx
  rw [h1, h2, hc, hs, SubmitWorkflow_request, hp, Option.getD_some,
    renameGlobal_congr A r r' isCi hid hrun, appLevelEntries_congr A r r' isCi hid hrun]
  exact ⟨rfl, rfl⟩

/-- C3. In a CI submission whose marshalling, global lookup and app-level
lookup succeed, the template's `ConfigMaps` ends with the app-level config
maps in their order, and its `Secrets` with the app-level secrets, where every
entry whose `External` flag is false carries the name
`name-{WorkflowId}-{CI_WORKFLOW_NAME}`. -/
theorem ci_existing_entries_named (A : Ambient) (impl : CommonWorkflowServiceImpl)
    (workflowRequest : CommonWorkflowRequest) (pipeline : Pipeline)
    (env : Option Environment) (appLabels : StringMap) (isJob : Bool)
    (gs : List GlobalCMCSDto) (existingConfigMap : ConfigMapJson)
    (existingSecrets : ConfigSecretJson)
    (hMarshal : ∀ ev, ∃ json, A.Marshal ev = .ok json)
    (hGlobal : impl.FindAllActiveByPipelineType A.PIPELINE_TYPE_CI = .ok gs)
    (hExisting : impl.GetCmSecretNew workflowRequest.AppId workflowRequest.EnvironmentId isJob =
      .ok (existingConfigMap, existingSecrets)) :
    (existingConfigMap.Maps.map (fun cm =>
        if cm.External then cm
        else { cm with
          Name := cm.Name ++ "-" ++ Itoa workflowRequest.WorkflowId ++ "-" ++ A.CI_WORKFLOW_NAME }))
      <:+ (SubmitWorkflow A impl workflowRequest (some pipeline) env appLabels isJob
        true).template.ConfigMaps ∧
    (existingSecrets.Secrets.map (fun secret =>
        if secret.External then secret
        else { secret with
          Name := secret.Name ++ "-" ++ Itoa workflowRequest.WorkflowId ++ "-" ++
            A.CI_WORKFLOW_NAME }))
      <:+ (SubmitWorkflow A impl workflowRequest (some pipeline) env appLabels isJob
        true).template.Secrets ∧
    (∀ cm ∈ existingConfigMap.Maps, cm.External = false →
      (⟨cm.Name ++ "-" ++ Itoa workflowRequest.WorkflowId ++ "-" ++ A.CI_WORKFLOW_NAME, false,
          cm.Payload⟩ : ConfigSecretMap) ∈
        (SubmitWorkflow A impl workflowRequest (some pipeline) env appLabels isJob
          true).template.ConfigMaps) ∧
    (∀ secret ∈ existingSecrets.Secrets, secret.External = false →
      (⟨secret.Name ++ "-" ++ Itoa workflowRequest.WorkflowId ++ "-" ++ A.CI_WORKFLOW_NAME, false,
          secret.Payload⟩ : ConfigSecretMap) ∈
        (SubmitWorkflow A impl workflowRequest (some pipeline) env appLabels isJob
          true).template.Secrets) := by
  have hname : (fun cm : ConfigSecretMap =>
      if cm.External then cm
      else { cm with
        Name := cm.Name ++ "-" ++ Itoa workflowRequest.WorkflowId ++ "-" ++ A.CI_WORKFLOW_NAME })
      = renameForCi A workflowRequest := by
    funext cm
    unfold renameForCi
    cases cm.External <;> simp
  obtain ⟨h1, h2⟩ := SubmitWorkflow_configs_ok A impl workflowRequest pipeline env appLabels
    isJob true gs existingConfigMap existingSecrets [] [] hMarshal hGlobal
    (fun h => Bool.noConfusion h) hExisting
  simp only [appLevelEntries, if_true] at h1 h2
  rw [hname, h1, h2]
  refine ⟨List.suffix_append _ _, List.suffix_append _ _, ?_, ?_⟩
  · intro cm hcm hext
    refine List.mem_append_right _ (List.mem_map.2 ⟨cm, hcm, ?_⟩)
    simp [renameForCi, hext]
  · intro cm hcm hext
    refine List.mem_append_right _ (List.mem_map.2 ⟨cm, hcm, ?_⟩)
    simp [renameForCi, hext]

theorem renameForCd_injective (r : CommonWorkflowRequest) :
    Function.Injective (renameForCd r) := by
  intro a b h
  unfold renameForCd at h
  cases a with
  | mk an ae ap =>
    cases b with
    | mk bn be bp =>
      cases ae <;> cases be <;>
        simp only [Bool.not_false, Bool.not_true, if_true, Bool.false_eq_true, if_false,
          ConfigSecretMap.mk.injEq, and_true, true_and, and_false, false_and,
          Bool.true_eq_false] at h ⊢
      · obtain ⟨hn, hp⟩ := h
        refine ⟨?_, hp⟩
        have h1 := append_right_cancel _ _ _ hn
        have h2 := append_right_cancel _ _ _ h1
        have h3 := append_right_cancel _ _ _ h2
        exact append_right_cancel _ _ _ h3
      · exact h

/-- C4. In a CD submission whose marshalling, global lookup, allow-list parsing
and app-level lookup succeed, the template's `ConfigMaps` ends with the
app-level config maps that are carried into the template, in their order, and
its `Secrets` with the carried app-level secrets, where every entry whose
`External` flag is false carries the name `name-{WorkflowId}-{WorkflowRunnerId}`. -/
theorem cd_existing_entries_named (A : Ambient) (impl : CommonWorkflowServiceImpl)
    (workflowRequest : CommonWorkflowRequest) (pipeline : Pipeline)
    (env : Option Environment) (appLabels : StringMap) (isJob : Bool)
    (gs : List GlobalCMCSDto) (existingConfigMap : ConfigMapJson)
    (existingSecrets : ConfigSecretJson) (allowedConfigMaps allowedSecrets : List String)
    (hMarshal : ∀ ev, ∃ json, A.Marshal ev = .ok json)
    (hGlobal : impl.FindAllActiveByPipelineType A.PIPELINE_TYPE_CD = .ok gs)
    (hAllowed : getConfiguredCmCs A (some pipeline) workflowRequest.StageType =
      some (allowedConfigMaps, allowedSecrets, none))
    (hExisting : impl.GetCmSecretNew workflowRequest.AppId workflowRequest.EnvironmentId isJob =
      .ok (existingConfigMap, existingSecrets)) :
    ((existingConfigMap.Maps.filter (fun cm => decide (cm.Name ∈ allowedConfigMaps))).map
        (fun cm =>
          if cm.External then cm
          else { cm with
            Name := cm.Name ++ "-" ++ Itoa workflowRequest.WorkflowId ++ "-" ++
              Itoa workflowRequest.WorkflowRunnerId }))
      <:+ (SubmitWorkflow A impl workflowRequest (some pipeline) env appLabels isJob
        false).template.ConfigMaps ∧
    ((existingSecrets.Secrets.filter (fun secret => decide (secret.Name ∈ allowedSecrets))).map
        (fun secret =>
          if secret.External then secret
          else { secret with
            Name := secret.Name ++ "-" ++ Itoa workflowRequest.WorkflowId ++ "-" ++
              Itoa workflowRequest.WorkflowRunnerId }))
      <:+ (SubmitWorkflow A impl workflowRequest (some pipeline) env appLabels isJob
        false).template.Secrets ∧
    (∀ cm ∈ existingConfigMap.Maps, cm.Name ∈ allowedConfigMaps → cm.External = false →
      (⟨cm.Name ++ "-" ++ Itoa workflowRequest.WorkflowId ++ "-" ++
          Itoa workflowRequest.WorkflowRunnerId, false, cm.Payload⟩ : ConfigSecretMap) ∈
        (SubmitWorkflow A impl workflowRequest (some pipeline) env appLabels isJob
          false).template.ConfigMaps) ∧
    (∀ secret ∈ existingSecrets.Secrets, secret.Name ∈ allowedSecrets → secret.External = false →
      (⟨secret.Name ++ "-" ++ Itoa workflowRequest.WorkflowId ++ "-" ++
          Itoa workflowRequest.WorkflowRunnerId, false, secret.Payload⟩ : ConfigSecretMap) ∈
        (SubmitWorkflow A impl workflowRequest (some pipeline) env appLabels isJob
          false).template.Secrets) := by
  have hname : (fun cm : ConfigSecretMap =>
      if cm.External then cm
      else { cm with
        Name := cm.Name ++ "-" ++ Itoa workflowRequest.WorkflowId ++ "-" ++
          Itoa workflowRequest.WorkflowRunnerId })
      = renameForCd workflowRequest := by
    funext cm
    unfold renameForCd
    cases cm.External <;> simp
  obtain ⟨h1, h2⟩ := SubmitWorkflow_configs_ok A impl workflowRequest pipeline env appLabels
    isJob false gs existingConfigMap existingSecrets allowedConfigMaps allowedSecrets hMarshal
    hGlobal (fun _ => hAllowed) hExisting
  simp only [appLevelEntries, Bool.false_eq_true, if_false] at h1 h2
  rw [hname, h1, h2]
  refine ⟨List.suffix_append _ _, List.suffix_append _ _, ?_, ?_⟩
  · intro cm hcm hin hext
    refine List.mem_append_right _ (List.mem_map.2 ⟨cm, ?_, ?_⟩)
    · exact List.mem_filter.2 ⟨hcm, by simpa using hin⟩
    · simp [renameForCd, hext]
  · intro cm hcm hin hext
    refine List.mem_append_right _ (List.mem_map.2 ⟨cm, ?_, ?_⟩)
    · exact List.mem_filter.2 ⟨hcm, by simpa using hin⟩
    · simp [renameForCd, hext]

/-- C5. In a CD submission whose marshalling, global lookup, allow-list parsing
and app-level lookup succeed, the template's `ConfigMaps` (`Secrets`) is the
list of entries made from the global definitions (empty for an external run)
followed by a list of app-level entries in which an app-level config map
(secret) occurs, under its CD name, if and only if its stored name is a key of
the stage allow-list for config maps (secrets); every entry of that app-level
part comes from an allowed app-level entry. This holds for every list of
app-level entries. -/
theorem cd_allow_list_filters_existing (A : Ambient) (impl : CommonWorkflowServiceImpl)
    (workflowRequest : CommonWorkflowRequest) (pipeline : Pipeline)
    (env : Option Environment) (appLabels : StringMap) (isJob : Bool)
    (gs : List GlobalCMCSDto) (existingConfigMap : ConfigMapJson)
    (existingSecrets : ConfigSecretJson) (allowedConfigMaps allowedSecrets : List String)
    (hMarshal : ∀ ev, ∃ json, A.Marshal ev = .ok json)
    (hGlobal : impl.FindAllActiveByPipelineType A.PIPELINE_TYPE_CD = .ok gs)
    (hAllowed : getConfiguredCmCs A (some pipeline) workflowRequest.StageType =
      some (allowedConfigMaps, allowedSecrets, none))
    (hExisting : impl.GetCmSecretNew workflowRequest.AppId workflowRequest.EnvironmentId isJob =
      .ok (existingConfigMap, existingSecrets)) :
    ∃ appConfigMaps appSecrets : List ConfigSecretMap,
      (SubmitWorkflow A impl workflowRequest (some pipeline) env appLabels isJob
          false).template.ConfigMaps =
        (if (SubmitWorkflow A impl workflowRequest (some pipeline) env appLabels isJob
            false).request.IsExtRun then []
          else (A.GetFromGlobalCmCsDtos (gs.map (renameGlobal A workflowRequest false))).1) ++
          appConfigMaps ∧
      (SubmitWorkflow A impl workflowRequest (some pipeline) env appLabels isJob
          false).template.Secrets =
        (if (SubmitWorkflow A impl workflowRequest (some pipeline) env appLabels isJob
            false).request.IsExtRun then []
          else (A.GetFromGlobalCmCsDtos (gs.map (renameGlobal A workflowRequest false))).2.1) ++
          appSecrets ∧
      (∀ cm ∈ existingConfigMap.Maps,
        renameForCd workflowRequest cm ∈ appConfigMaps ↔ cm.Name ∈ allowedConfigMaps) ∧
      (∀ secret ∈ existingSecrets.Secrets,
        renameForCd workflowRequest secret ∈ appSecrets ↔ secret.Name ∈ allowedSecrets) ∧
      (∀ e ∈ appConfigMaps, ∃ cm ∈ existingConfigMap.Maps,
        cm.Name ∈ allowedConfigMaps ∧ e = renameForCd workflowRequest cm) ∧
      (∀ e ∈ appSecrets, ∃ secret ∈ existingSecrets.Secrets,
        secret.Name ∈ allowedSecrets ∧ e = renameForCd workflowRequest secret) := by
  obtain ⟨h1, h2⟩ := SubmitWorkflow_configs_ok A impl workflowRequest pipeline env appLabels
    isJob false gs existingConfigMap existingSecrets allowedConfigMaps allowedSecrets hMarshal
    hGlobal (fun _ => hAllowed) hExisting
  simp only [appLevelEntries, Bool.false_eq_true, if_false] at h1 h2
  have key : ∀ (allowed : List String) (existing : List ConfigSecretMap),
      (∀ cm ∈ existing,
        renameForCd workflowRequest cm ∈
            (existing.filter (fun cm => decide (cm.Name ∈ allowed))).map
              (renameForCd workflowRequest) ↔ cm.Name ∈ allowed) ∧
      (∀ e ∈ (existing.filter (fun cm => decide (cm.Name ∈ allowed))).map
          (renameForCd workflowRequest),
        ∃ cm ∈ existing, cm.Name ∈ allowed ∧ e = renameForCd workflowRequest cm) := by
    intro allowed existing
    constructor
    · intro cm hcm
      rw [List.mem_map_of_injective (renameForCd_injective workflowRequest)]
      simp [List.mem_filter, hcm]
    · intro e he
      obtain ⟨cm, hcm, rfl⟩ := List.mem_map.1 he
      obtain ⟨hin, hal⟩ := List.mem_filter.1 hcm
      exact ⟨cm, hin, by simpa using hal, rfl⟩
  exact ⟨_, _, h1, h2, (key allowedConfigMaps existingConfigMap.Maps).1,
    (key allowedSecrets existingSecrets.Secrets).1,
    (key allowedConfigMaps existingConfigMap.Maps).2,
    (key allowedSecrets existingSecrets.Secrets).2⟩

/-- A CI call does not depend on the stage allow-lists of the pipeline, nor on
how an allow-list would be parsed. -/
theorem SubmitWorkflow_ci_indep (A : Ambient) (impl : CommonWorkflowServiceImpl)
    (r : CommonWorkflowRequest) (p : Pipeline) (env : Option Environment) (l : StringMap)
    (isJob : Bool) (unmarshal : String → Except GoError StageConfigMapSecretNames)
    (pre post : String) :
    SubmitWorkflow { A with Unmarshal := unmarshal } impl r
        (some { p with PreStageConfigMapSecretNames := pre, PostStageConfigMapSecretNames := post })
        env l isJob true =
      SubmitWorkflow A impl r (some p) env l isJob true := by
  have e1 : prepareRequest { A with Unmarshal := unmarshal } impl r
      (some { p with PreStageConfigMapSecretNames := pre, PostStageConfigMapSecretNames := post })
      env l true = prepareRequest A impl r (some p) env l true := rfl
  have e2 : ∀ r', resolveConfigs { A with Unmarshal := unmarshal } impl r'
      (some { p with PreStageConfigMapSecretNames := pre, PostStageConfigMapSecretNames := post })
      isJob true = resolveConfigs A impl r' (some p) isJob true := fun _ => rfl
  unfold SubmitWorkflow
  simp only [e1, e2]
  rfl

/-- C6. In a CI submission whose marshalling, global lookup and app-level
lookup succeed, the template's `ConfigMaps` (`Secrets`) is the list of entries
made from the global definitions (empty for an external run) followed by
exactly one entry per app-level config map (secret), in order: the entry itself
when its `External` flag is true, and the entry under its CI name otherwise.
No allow-list is consulted: the run is the same whatever the pipeline's stage
allow-lists hold and however they would parse. -/
theorem ci_carries_all_existing (A : Ambient) (impl : CommonWorkflowServiceImpl)
    (workflowRequest : CommonWorkflowRequest) (pipeline : Pipeline)
    (env : Option Environment) (appLabels : StringMap) (isJob : Bool)
    (gs : List GlobalCMCSDto) (existingConfigMap : ConfigMapJson)
    (existingSecrets : ConfigSecretJson)
    (hMarshal : ∀ ev, ∃ json, A.Marshal ev = .ok json)
    (hGlobal : impl.FindAllActiveByPipelineType A.PIPELINE_TYPE_CI = .ok gs)
    (hExisting : impl.GetCmSecretNew workflowRequest.AppId workflowRequest.EnvironmentId isJob =
      .ok (existingConfigMap, existingSecrets)) :
    (SubmitWorkflow A impl workflowRequest (some pipeline) env appLabels isJob
        true).template.ConfigMaps =
      (if (SubmitWorkflow A impl workflowRequest (some pipeline) env appLabels isJob
          true).request.IsExtRun then []
        else (A.GetFromGlobalCmCsDtos (gs.map (renameGlobal A workflowRequest true))).1) ++
        existingConfigMap.Maps.map (fun cm =>
          if cm.External then cm
          else { cm with
            Name := cm.Name ++ "-" ++ Itoa workflowRequest.WorkflowId ++ "-" ++
              A.CI_WORKFLOW_NAME }) ∧
    (SubmitWorkflow A impl workflowRequest (some pipeline) env appLabels isJob
        true).template.Secrets =
      (if (SubmitWorkflow A impl workflowRequest (some pipeline) env appLabels isJob
          true).request.IsExtRun then []
        else (A.GetFromGlobalCmCsDtos (gs.map (renameGlobal A workflowRequest true))).2.1) ++
        existingSecrets.Secrets.map (fun secret =>
          if secret.External then secret
          else { secret with
            Name := secret.Name ++ "-" ++ Itoa workflowRequest.WorkflowId ++ "-" ++
              A.CI_WORKFLOW_NAME }) ∧
    (∀ unmarshal pre post,
      SubmitWorkflow { A with Unmarshal := unmarshal } impl workflowRequest
          (some { pipeline with
            PreStageConfigMapSecretNames := pre, PostStageConfigMapSecretNames := post })
          env appLabels isJob true =
        SubmitWorkflow A impl workflowRequest (some pipeline) env appLabels isJob true) := by
  have hname : (fun cm : ConfigSecretMap =>
      if cm.External then cm
      else { cm with
        Name := cm.Name ++ "-" ++ Itoa workflowRequest.WorkflowId ++ "-" ++ A.CI_WORKFLOW_NAME })
      = renameForCi A workflowRequest := by
    funext cm
    unfold renameForCi
    cases cm.External <;> simp
  obtain ⟨h1, h2⟩ := SubmitWorkflow_configs_ok A impl workflowRequest pipeline env appLabels
    isJob true gs existingConfigMap existingSecrets [] [] hMarshal hGlobal
    (fun h => Bool.noConfusion h) hExisting
  simp only [appLevelEntries, if_true] at h1 h2
  rw [hname]
  exact ⟨h1, h2, SubmitWorkflow_ci_indep A impl workflowRequest pipeline env appLabels isJob⟩

/-- C8. With a non-nil pipeline: if `appLabels` holds a non-empty value under
the lower-cased key `{CI_NODE_PVC_PIPELINE_PREFIX}-{PipelineName}` or under
`CI_NODE_PVC_ALL_ENV`, the request that `SubmitWorkflow` leaves behind has
`IsPvcMounted`, `IgnoreDockerCachePush` and `IgnoreDockerCachePull` all true;
if both values are empty, the three fields keep their incoming values. -/
theorem pvc_label_marks_request (A : Ambient) (impl : CommonWorkflowServiceImpl)
    (workflowRequest : CommonWorkflowRequest) (pipeline : Pipeline)
    (env : Option Environment) (appLabels : StringMap) (isJob isCi : Bool) :
    ((mapIndex appLabels
          (A.ToLower (A.CI_NODE_PVC_PIPELINE_PREFIX ++ "-" ++ workflowRequest.PipelineName)) ≠ "" ∨
        mapIndex appLabels A.CI_NODE_PVC_ALL_ENV ≠ "") →
      (SubmitWorkflow A impl workflowRequest (some pipeline) env appLabels isJob
          isCi).request.IsPvcMounted = true ∧
      (SubmitWorkflow A impl workflowRequest (some pipeline) env appLabels isJob
          isCi).request.IgnoreDockerCachePush = true ∧
      (SubmitWorkflow A impl workflowRequest (some pipeline) env appLabels isJob
          isCi).request.IgnoreDockerCachePull = true) ∧
    ((mapIndex appLabels
          (A.ToLower (A.CI_NODE_PVC_PIPELINE_PREFIX ++ "-" ++ workflowRequest.PipelineName)) = "" ∧
        mapIndex appLabels A.CI_NODE_PVC_ALL_ENV = "") →
      (SubmitWorkflow A impl workflowRequest (some pipeline) env appLabels isJob
          isCi).request.IsPvcMounted = workflowRequest.IsPvcMounted ∧
      (SubmitWorkflow A impl workflowRequest (some pipeline) env appLabels isJob
          isCi).request.IgnoreDockerCachePush = workflowRequest.IgnoreDockerCachePush ∧
      (SubmitWorkflow A impl workflowRequest (some pipeline) env appLabels isJob
          isCi).request.IgnoreDockerCachePull = workflowRequest.IgnoreDockerCachePull) := by
  rw [SubmitWorkflow_request, prepareRequest_some, Option.getD_some]
  constructor
  · intro h
    have hp : pvcLabelPresent A workflowRequest appLabels = true := by
      unfold pvcLabelPresent
      exact decide_eq_true h
    simp [preparedRequest, hp]
  · intro h
    have hp : pvcLabelPresent A workflowRequest appLabels = false := by
      unfold pvcLabelPresent
      simp [h.1, h.2]
    simp [preparedRequest, hp]

/-- C10. `getWorkflowExecutor` is defined on every executor-type value. With the
two type constants distinct and both executors injected, it returns the
injected Argo executor for `WORKFLOW_EXECUTOR_TYPE_AWF`, the injected system
executor for `WORKFLOW_EXECUTOR_TYPE_SYSTEM`, nil for every other value, and
nil for no other value. -/
theorem getWorkflowExecutor_by_type (A : Ambient) (impl : CommonWorkflowServiceImpl)
    (argo system : WorkflowExecutor)
    (hDistinct : A.WORKFLOW_EXECUTOR_TYPE_AWF ≠ A.WORKFLOW_EXECUTOR_TYPE_SYSTEM)
    (hArgo : impl.argoWorkflowExecutor = some argo)
    (hSystem : impl.systemWorkflowExecutor = some system) :
    getWorkflowExecutor A impl A.WORKFLOW_EXECUTOR_TYPE_AWF = some argo ∧
    getWorkflowExecutor A impl A.WORKFLOW_EXECUTOR_TYPE_SYSTEM = some system ∧
    (∀ executorType, executorType ≠ A.WORKFLOW_EXECUTOR_TYPE_AWF →
      executorType ≠ A.WORKFLOW_EXECUTOR_TYPE_SYSTEM →
      getWorkflowExecutor A impl executorType = none) ∧
    (∀ executorType, getWorkflowExecutor A impl executorType = none →
      executorType ≠ A.WORKFLOW_EXECUTOR_TYPE_AWF ∧
        executorType ≠ A.WORKFLOW_EXECUTOR_TYPE_SYSTEM) := by
  unfold getWorkflowExecutor
  refine ⟨by simp [hArgo], by simp [hSystem, Ne.symm hDistinct], ?_, ?_⟩
  · intro t h1 h2
    simp [h1, h2]
  · intro t h
    by_cases h1 : t = A.WORKFLOW_EXECUTOR_TYPE_AWF
    · simp [h1, hArgo] at h
    · by_cases h2 : t = A.WORKFLOW_EXECUTOR_TYPE_SYSTEM
      · simp [h2, hSystem, Ne.symm hDistinct] at h
      · exact ⟨h1, h2⟩

/-- With the trigger event that `SubmitWorkflow` builds, the template part of
the function always ends in the nil-`CdRequest` panic, before any rest-config
lookup. -/
theorem assembleTemplate_triggerEvent (A : Ambient) (impl : CommonWorkflowServiceImpl)
    (r r' : CommonWorkflowRequest) (env : Option Environment) (json : String)
    (envs : List EnvVar) (t : WorkflowTemplate) (cms secs : List ConfigSecretMap)
    (isJob isCi : Bool) :
    (assembleTemplate A impl r env (triggerEvent r' isCi) json envs t cms secs isJob isCi).exit =
        some (.panicked .nilCdRequest) ∧
      (assembleTemplate A impl r env (triggerEvent r' isCi) json envs t cms secs isJob isCi).calls
        = [] := by
  unfold assembleTemplate
  simp only [triggerEvent]
  constructor <;> split <;> rfl

/-- C7. A CI submission with blob storage configured and the system executor:
the resolved `InAppLoggingEnabled` of the request is true, yet the call panics
on the nil `CdRequest` at line 333 with the template's `ArchiveLogs` left at
true, and no executor is called. -/
theorem archive_logs_read_panics :
    (SubmitWorkflow sampleAmbient sampleImpl archivingRequest (some samplePipeline) none []
        false true).outcome = .panicked .nilCdRequest ∧
    (SubmitWorkflow sampleAmbient sampleImpl archivingRequest (some samplePipeline) none []
        false true).request.BlobStorageConfigured = true ∧
    (SubmitWorkflow sampleAmbient sampleImpl archivingRequest (some samplePipeline) none []
        false true).request.InAppLoggingEnabled = true ∧
    (SubmitWorkflow sampleAmbient sampleImpl archivingRequest (some samplePipeline) none []
        false true).template.ArchiveLogs = true ∧
    (SubmitWorkflow sampleAmbient sampleImpl archivingRequest (some samplePipeline) none []
        false true).template.RestartPolicy = "" ∧
    (SubmitWorkflow sampleAmbient sampleImpl archivingRequest (some samplePipeline) none []
        false true).calls =
      [Call.FindAllActiveByPipelineType "CI", Call.GetCmSecretNew 1 2 false] := by
  decide

/-- C9. A CI submission whose executor type is unset: `getWorkflowExecutor`
would yield nil, but the call does not get that far. It panics on the nil
`CdRequest` at line 353 instead of returning the "workflow executor not found"
error; no executor is called. -/
theorem unset_executor_panics :
    getWorkflowExecutor sampleAmbient sampleImpl unsetExecutorRequest.WorkflowExecutor = none ∧
    (SubmitWorkflow sampleAmbient sampleImpl unsetExecutorRequest (some samplePipeline) none []
        false true).outcome = .panicked .nilCdRequest ∧
    (SubmitWorkflow sampleAmbient sampleImpl unsetExecutorRequest (some samplePipeline) none []
        false true).outcome ≠ .returned (some ⟨"workflow executor not found"⟩) ∧
    (SubmitWorkflow sampleAmbient sampleImpl unsetExecutorRequest (some samplePipeline) none []
        false true).template.RestartPolicy = "Never" ∧
    (SubmitWorkflow sampleAmbient sampleImpl unsetExecutorRequest (some samplePipeline) none []
        false true).template.Containers = [] ∧
    (SubmitWorkflow sampleAmbient sampleImpl unsetExecutorRequest (some samplePipeline) none []
        false true).calls =
      [Call.FindAllActiveByPipelineType "CI", Call.GetCmSecretNew 1 2 false] := by
  refine ⟨rfl, ?_, ?_, ?_, ?_, ?_⟩ <;> decide

/-- Witness for C1: a CD pre-stage submission on a pipeline that runs its
pre-stage in the environment. -/
theorem external_run_has_no_global_config_witness :
    (SubmitWorkflow sampleAmbient sampleImpl preStageRequest (some samplePipeline) none []
        false false).request.IsExtRun = true ∧
    (∀ t, Call.FindAllActiveByPipelineType t ∉
      (SubmitWorkflow sampleAmbient sampleImpl preStageRequest (some samplePipeline) none []
        false false).calls) ∧
    (SubmitWorkflow sampleAmbient sampleImpl preStageRequest (some samplePipeline) none []
        false false).template.ConfigMaps = [⟨"a-5-9", false, "x"⟩] :=
  ⟨by decide,
    (external_run_has_no_global_config sampleAmbient sampleImpl preStageRequest
      (some samplePipeline) none [] false false (by decide)).1,
    by decide⟩

/-- Witness for C2: a CI submission into environment 7. -/
theorem external_run_determination_witness :
    sampleRequest.IsExtRun = false ∧
    (SubmitWorkflow sampleAmbient sampleImpl sampleRequest (some samplePipeline)
        (some sampleEnvironment) [] false true).request.IsExtRun = true :=
  ⟨rfl,
    (external_run_determination sampleAmbient sampleImpl sampleRequest samplePipeline
      (some sampleEnvironment) [] false true).2.1 sampleEnvironment rfl rfl rfl⟩

/-- Witness for C3: the sample CI submission. -/
theorem ci_existing_entries_named_witness :
    (⟨"a" ++ "-" ++ Itoa 5 ++ "-" ++ "ci", false, "x"⟩ : ConfigSecretMap) ∈
      (SubmitWorkflow sampleAmbient sampleImpl sampleRequest (some samplePipeline) none []
        false true).template.ConfigMaps :=
  (ci_existing_entries_named sampleAmbient sampleImpl sampleRequest samplePipeline none []
    false [⟨"G", "secret"⟩] ⟨[⟨"a", false, "x"⟩, ⟨"b", true, "y"⟩]⟩
    ⟨[⟨"s", false, "p"⟩, ⟨"t", true, "q"⟩]⟩ (fun _ => ⟨_, rfl⟩) rfl rfl).2.2.1
    ⟨"a", false, "x"⟩ (by decide) rfl

/-- Witness for C4: the sample CD pre-stage submission. -/
theorem cd_existing_entries_named_witness :
    (⟨"s" ++ "-" ++ Itoa 5 ++ "-" ++ Itoa 9, false, "p"⟩ : ConfigSecretMap) ∈
      (SubmitWorkflow sampleAmbient sampleImpl preStageRequest (some samplePipeline) none []
        false false).template.Secrets :=
  (cd_existing_entries_named sampleAmbient sampleImpl preStageRequest samplePipeline none []
    false [⟨"G", "secret"⟩] ⟨[⟨"a", false, "x"⟩, ⟨"b", true, "y"⟩]⟩
    ⟨[⟨"s", false, "p"⟩, ⟨"t", true, "q"⟩]⟩ ["a"] ["s"] (fun _ => ⟨_, rfl⟩) rfl rfl rfl).2.2.2
    ⟨"s", false, "p"⟩ (by decide) (by decide) rfl

/-- Witness for C5: in the sample CD pre-stage submission the external config
map `b`, which the allow-list does not name, is not carried. -/
theorem cd_allow_list_filters_existing_witness :
    ∃ appConfigMaps appSecrets : List ConfigSecretMap,
      (SubmitWorkflow sampleAmbient sampleImpl preStageRequest (some samplePipeline) none []
          false false).template.ConfigMaps = [] ++ appConfigMaps ∧
      (SubmitWorkflow sampleAmbient sampleImpl preStageRequest (some samplePipeline) none []
          false false).template.Secrets = [] ++ appSecrets ∧
      (⟨"b", true, "y"⟩ : ConfigSecretMap) ∉ appConfigMaps ∧
      (⟨"a-5-9", false, "x"⟩ : ConfigSecretMap) ∈ appConfigMaps := by
  obtain ⟨cms, secs, h1, h2, h3, _, _, _⟩ :=
    cd_allow_list_filters_existing sampleAmbient sampleImpl preStageRequest samplePipeline none []
      false [⟨"G", "secret"⟩] ⟨[⟨"a", false, "x"⟩, ⟨"b", true, "y"⟩]⟩
      ⟨[⟨"s", false, "p"⟩, ⟨"t", true, "q"⟩]⟩ ["a"] ["s"] (fun _ => ⟨_, rfl⟩) rfl rfl rfl
  refine ⟨cms, secs, h1, h2, ?_, ?_⟩
  · have hb := (h3 ⟨"b", true, "y"⟩ (by decide)).not.2 (by decide)
    exact hb
  · have ha := (h3 ⟨"a", false, "x"⟩ (by decide)).2 (by decide)
    exact ha

/-- Witness for C6: the sample CI submission carries both config maps and both
secrets after the global entry. -/
theorem ci_carries_all_existing_witness :
    (SubmitWorkflow sampleAmbient sampleImpl sampleRequest (some samplePipeline) none []
        false true).template.ConfigMaps =
      [⟨"g-5-ci", false, "secret"⟩, ⟨"a-5-ci", false, "x"⟩, ⟨"b", true, "y"⟩] ∧
    (SubmitWorkflow sampleAmbient sampleImpl sampleRequest (some samplePipeline) none []
        false true).template.Secrets = [⟨"s-5-ci", false, "p"⟩, ⟨"t", true, "q"⟩] :=
  ⟨((ci_carries_all_existing sampleAmbient sampleImpl sampleRequest samplePipeline none []
      false [⟨"G", "secret"⟩] ⟨[⟨"a", false, "x"⟩, ⟨"b", true, "y"⟩]⟩
      ⟨[⟨"s", false, "p"⟩, ⟨"t", true, "q"⟩]⟩ (fun _ => ⟨_, rfl⟩) rfl rfl).1).trans (by decide),
    ((ci_carries_all_existing sampleAmbient sampleImpl sampleRequest samplePipeline none []
      false [⟨"G", "secret"⟩] ⟨[⟨"a", false, "x"⟩, ⟨"b", true, "y"⟩]⟩
      ⟨[⟨"s", false, "p"⟩, ⟨"t", true, "q"⟩]⟩ (fun _ => ⟨_, rfl⟩) rfl rfl).2.1).trans (by decide)⟩

/-- Witness for C8: the sample labels hold a PVC label for the pipeline `build`. -/
theorem pvc_label_marks_request_witness :
    sampleRequest.IsPvcMounted = false ∧
    (SubmitWorkflow sampleAmbient sampleImpl sampleRequest (some samplePipeline) none
        sampleLabels false true).request.IsPvcMounted = true ∧
    (SubmitWorkflow sampleAmbient sampleImpl sampleRequest (some samplePipeline) none
        sampleLabels false true).request.IgnoreDockerCachePush = true ∧
    (SubmitWorkflow sampleAmbient sampleImpl sampleRequest (some samplePipeline) none
        sampleLabels false true).request.IgnoreDockerCachePull = true :=
  ⟨rfl,
    (pvc_label_marks_request sampleAmbient sampleImpl sampleRequest samplePipeline none
      sampleLabels false true).1 (Or.inl (by decide))⟩

/-- Witness for C10: the sample service, asked for the unset executor type. -/
theorem getWorkflowExecutor_by_type_witness :
    sampleAmbient.WORKFLOW_EXECUTOR_TYPE_AWF ≠ sampleAmbient.WORKFLOW_EXECUTOR_TYPE_SYSTEM ∧
    getWorkflowExecutor sampleAmbient sampleImpl "AWF" = some sampleArgo ∧
    getWorkflowExecutor sampleAmbient sampleImpl "SYSTEM" = some sampleSystem ∧
    getWorkflowExecutor sampleAmbient sampleImpl "" = none :=
  ⟨by decide,
    (getWorkflowExecutor_by_type sampleAmbient sampleImpl sampleArgo sampleSystem (by decide)
      rfl rfl).1,
    (getWorkflowExecutor_by_type sampleAmbient sampleImpl sampleArgo sampleSystem (by decide)
      rfl rfl).2.1,
    (getWorkflowExecutor_by_type sampleAmbient sampleImpl sampleArgo sampleSystem (by decide)
      rfl rfl).2.2.1 "" (by decide) (by decide)⟩

/-! ## Closed forms of a run -/

theorem placeTemplate_ArchiveLogs (A : Ambient) (impl : CommonWorkflowServiceImpl)
    (r : CommonWorkflowRequest) (t : WorkflowTemplate) (cms secs : List ConfigSecretMap)
    (isJob isCi : Bool) :
    (placeTemplate A impl r t cms secs isJob isCi).ArchiveLogs = r.BlobStorageConfigured := by
  unfold placeTemplate
  cases isCi <;> simp

/-- With the trigger event that `SubmitWorkflow` builds, the template part ends
in the nil-`CdRequest` panic and leaves the template as `abandonedTemplate`
describes it. -/
theorem assembleTemplate_abandoned (A : Ambient) (impl : CommonWorkflowServiceImpl)
    (r : CommonWorkflowRequest) (env : Option Environment) (json : String)
    (envs : List EnvVar) (cms secs : List ConfigSecretMap) (isJob isCi : Bool) :
    assembleTemplate A impl r env (triggerEvent r isCi) json envs
        (initialTemplate impl r json isCi) cms secs isJob isCi =
      ⟨some (.panicked .nilCdRequest), abandonedTemplate A impl r json cms secs isJob isCi, []⟩ := by
  unfold assembleTemplate abandonedTemplate archiveLogsValue
  simp only [triggerEvent, placeTemplate_ArchiveLogs]
  cases r.BlobStorageConfigured <;> simp

/-- A call whose line 189 panics. -/
theorem SubmitWorkflow_nilPipeline (A : Ambient) (impl : CommonWorkflowServiceImpl)
    (r : CommonWorkflowRequest) (pipeline : Option Pipeline) (env : Option Environment)
    (l : StringMap) (isJob isCi : Bool)
    (hp : prepareRequest A impl r pipeline env l isCi = none) :
    SubmitWorkflow A impl r pipeline env l isJob isCi =
      ⟨.panicked .nilPipeline, r, {}, [], [], []⟩ := by
  unfold SubmitWorkflow
  simp [hp]

/-- A call whose trigger event fails to marshal. -/
theorem SubmitWorkflow_marshal_error (A : Ambient) (impl : CommonWorkflowServiceImpl)
    (r : CommonWorkflowRequest) (pipeline : Option Pipeline) (env : Option Environment)
    (l : StringMap) (isJob isCi : Bool) (r' : CommonWorkflowRequest) (err : GoError)
    (hp : prepareRequest A impl r pipeline env l isCi = some r')
    (hm : A.Marshal (triggerEvent r' isCi) = .error err) :
    SubmitWorkflow A impl r pipeline env l isJob isCi =
      ⟨.returned (some err), r', {}, [], [], []⟩ := by
  unfold SubmitWorkflow
  simp [hp, hm]

/-- A call that ends in the configuration part. -/
theorem SubmitWorkflow_resolve_exit (A : Ambient) (impl : CommonWorkflowServiceImpl)
    (r : CommonWorkflowRequest) (pipeline : Option Pipeline) (env : Option Environment)
    (l : StringMap) (isJob isCi : Bool) (r' : CommonWorkflowRequest) (json : String)
    (o : Outcome)
    (hp : prepareRequest A impl r pipeline env l isCi = some r')
    (hm : A.Marshal (triggerEvent r' isCi) = .ok json)
    (hr : (resolveConfigs A impl r' pipeline isJob isCi).exit = some o) :
    SubmitWorkflow A impl r pipeline env l isJob isCi =
      ⟨o, r', initialTemplate impl r' json isCi,
        (resolveConfigs A impl r' pipeline isJob isCi).calls,
        (resolveConfigs A impl r' pipeline isJob isCi).globalCmCsConfigs,
        (resolveConfigs A impl r' pipeline isJob isCi).existingSecrets⟩ := by
  unfold SubmitWorkflow
  simp [hp, hm, hr]

/-- A call that gets past the configuration part: it ends in the
nil-`CdRequest` panic of the template part. -/
theorem SubmitWorkflow_abandoned (A : Ambient) (impl : CommonWorkflowServiceImpl)
    (r : CommonWorkflowRequest) (pipeline : Option Pipeline) (env : Option Environment)
    (l : StringMap) (isJob isCi : Bool) (r' : CommonWorkflowRequest) (json : String)
    (hp : prepareRequest A impl r pipeline env l isCi = some r')
    (hm : A.Marshal (triggerEvent r' isCi) = .ok json)
    (hr : (resolveConfigs A impl r' pipeline isJob isCi).exit = none) :
    SubmitWorkflow A impl r pipeline env l isJob isCi =
      ⟨.panicked .nilCdRequest, r',
        abandonedTemplate A impl r' json
          (resolveConfigs A impl r' pipeline isJob isCi).workflowConfigMaps
          (resolveConfigs A impl r' pipeline isJob isCi).workflowSecrets isJob isCi,
        (resolveConfigs A impl r' pipeline isJob isCi).calls,
        (resolveConfigs A impl r' pipeline isJob isCi).globalCmCsConfigs,
        (resolveConfigs A impl r' pipeline isJob isCi).existingSecrets⟩ := by
  unfold SubmitWorkflow
  simp [hp, hm, hr, assembleTemplate_abandoned]

/-- The configuration part never ends the call with a nil error. -/
theorem resolveConfigs_exit_ne_nil (A : Ambient) (impl : CommonWorkflowServiceImpl)
    (r : CommonWorkflowRequest) (pipeline : Option Pipeline) (isJob isCi : Bool) :
    (resolveConfigs A impl r pipeline isJob isCi).exit ≠ some (.returned none) := by
  unfold resolveConfigs
  simp only []
  (repeat' split) <;> simp

/-- Fields that only the unreached part of the template code assigns are still
at their zero value in the template a call leaves behind, and the only calls
made are those of the configuration part. -/
theorem SubmitWorkflow_unreached (A : Ambient) (impl : CommonWorkflowServiceImpl)
    (r : CommonWorkflowRequest) (pipeline : Option Pipeline) (env : Option Environment)
    (l : StringMap) (isJob isCi : Bool) :
    (SubmitWorkflow A impl r pipeline env l isJob isCi).template.Containers = [] ∧
    (SubmitWorkflow A impl r pipeline env l isJob isCi).template.ClusterConfig = none ∧
    (SubmitWorkflow A impl r pipeline env l isJob isCi).template.CloudStorageKey = "" ∧
    (SubmitWorkflow A impl r pipeline env l isJob isCi).outcome ≠ .returned none ∧
    (∀ c ∈ (SubmitWorkflow A impl r pipeline env l isJob isCi).calls,
      (∃ t, c = Call.FindAllActiveByPipelineType t) ∨
        ∃ appId environmentId, c = Call.GetCmSecretNew appId environmentId isJob) := by
  cases hp : prepareRequest A impl r pipeline env l isCi with
  | none =>
    rw [SubmitWorkflow_nilPipeline A impl r pipeline env l isJob isCi hp]
    simp
  | some r' =>
    cases hm : A.Marshal (triggerEvent r' isCi) with
    | error err =>
      rw [SubmitWorkflow_marshal_error A impl r pipeline env l isJob isCi r' err hp hm]
      simp
    | ok json =>
      have hcalls := resolveConfigs_calls A impl r' pipeline isJob isCi
      cases hr : (resolveConfigs A impl r' pipeline isJob isCi).exit with
      | some o =>
        rw [SubmitWorkflow_resolve_exit A impl r pipeline env l isJob isCi r' json o hp hm hr]
        refine ⟨?_, ?_, ?_, ?_, ?_⟩
        · unfold initialTemplate; cases isCi <;> simp
        · unfold initialTemplate; cases isCi <;> simp
        · unfold initialTemplate; cases isCi <;> simp
        · intro ho
          have ho' : o = Outcome.returned none := ho
          rw [ho'] at hr
          exact resolveConfigs_exit_ne_nil A impl r' pipeline isJob isCi hr
        · intro c hc
          rcases hcalls c hc with h | h
          · exact Or.inl h
          · exact Or.inr ⟨_, _, h⟩
      | none =>
        rw [SubmitWorkflow_abandoned A impl r pipeline env l isJob isCi r' json hp hm hr]
        refine ⟨?_, ?_, ?_, ?_, ?_⟩
        · unfold abandonedTemplate restartAndNodeLabel placeTemplate initialTemplate
          cases r'.BlobStorageConfigured <;> cases isCi <;> simp
        · unfold abandonedTemplate restartAndNodeLabel placeTemplate initialTemplate
          cases r'.BlobStorageConfigured <;> cases isCi <;> simp
        · unfold abandonedTemplate restartAndNodeLabel placeTemplate initialTemplate
          cases r'.BlobStorageConfigured <;> cases isCi <;> simp
        · simp
        · intro c hc
          rcases hcalls c hc with h | h
          · exact Or.inl h
          · exact Or.inr ⟨_, _, h⟩

/-- With a non-nil pipeline the allow-list lookup does not panic: it parses the
pre-stage list for stage `"PRE"` and the post-stage list otherwise. -/
theorem getConfiguredCmCs_some (A : Ambient) (p : Pipeline) (stage : String) :
    getConfiguredCmCs A (some p) stage =
      match A.Unmarshal (if stage = "PRE" then p.PreStageConfigMapSecretNames
          else p.PostStageConfigMapSecretNames) with
      | .error err => some ([], [], some err)
      | .ok names => some (names.ConfigMaps, names.Secrets, none) := by
  unfold getConfiguredCmCs
  by_cases h : stage = "PRE" <;> simp [h]

/-- The configuration part when the global CM/CS lookup fails. -/
theorem resolveConfigs_global_error (A : Ambient) (impl : CommonWorkflowServiceImpl)
    (r : CommonWorkflowRequest) (pipeline : Option Pipeline) (isJob isCi : Bool) (err : GoError)
    (hx : r.IsExtRun = false)
    (hG : impl.FindAllActiveByPipelineType
      (if isCi then A.PIPELINE_TYPE_CI else A.PIPELINE_TYPE_CD) = .error err) :
    resolveConfigs A impl r pipeline isJob isCi =
      ⟨some (.returned (some err)),
        [Call.FindAllActiveByPipelineType (if isCi then A.PIPELINE_TYPE_CI else A.PIPELINE_TYPE_CD)],
        [], [], [], []⟩ := by
  unfold resolveConfigs
  simp [hx, hG]

/-- The calls and the state of the global definitions that the first step of
the configuration part leaves, when the global lookup is skipped or succeeds. -/
theorem resolveConfigs_allow_error (A : Ambient) (impl : CommonWorkflowServiceImpl)
    (r : CommonWorkflowRequest) (p : Pipeline) (isJob : Bool) (err : GoError)
    (hG : r.IsExtRun = true ∨ ∃ gs, impl.FindAllActiveByPipelineType A.PIPELINE_TYPE_CD = .ok gs)
    (hA : A.Unmarshal (if r.StageType = "PRE" then p.PreStageConfigMapSecretNames
      else p.PostStageConfigMapSecretNames) = .error err) :
    (resolveConfigs A impl r (some p) isJob false).exit = some (.returned (some err)) ∧
    (resolveConfigs A impl r (some p) isJob false).calls =
      (if r.IsExtRun then [] else [Call.FindAllActiveByPipelineType A.PIPELINE_TYPE_CD]) := by
  have hc : getConfiguredCmCs A (some p) r.StageType = some ([], [], some err) := by
    rw [getConfiguredCmCs_some, hA]
  unfold resolveConfigs
  rcases hG with hx | ⟨gs, hgs⟩
  · simp [hx, hc]
  · cases hx : r.IsExtRun <;> simp [hgs, hc]

/-- The configuration part when the app-level lookup fails. -/
theorem resolveConfigs_existing_error (A : Ambient) (impl : CommonWorkflowServiceImpl)
    (r : CommonWorkflowRequest) (p : Pipeline) (isJob isCi : Bool) (err : GoError)
    (hG : r.IsExtRun = true ∨ ∃ gs, impl.FindAllActiveByPipelineType
      (if isCi then A.PIPELINE_TYPE_CI else A.PIPELINE_TYPE_CD) = .ok gs)
    (hA : isCi = true ∨ ∃ names, A.Unmarshal (if r.StageType = "PRE"
      then p.PreStageConfigMapSecretNames else p.PostStageConfigMapSecretNames) = .ok names)
    (hE : impl.GetCmSecretNew r.AppId r.EnvironmentId isJob = .error err) :
    (resolveConfigs A impl r (some p) isJob isCi).exit = some (.returned (some err)) ∧
    (resolveConfigs A impl r (some p) isJob isCi).calls =
      (if r.IsExtRun then []
        else [Call.FindAllActiveByPipelineType
          (if isCi then A.PIPELINE_TYPE_CI else A.PIPELINE_TYPE_CD)]) ++
        [Call.GetCmSecretNew r.AppId r.EnvironmentId isJob] := by
  have hc : ∃ cms secs, (if isCi = false then getConfiguredCmCs A (some p) r.StageType
      else some ([], [], none)) = some (cms, secs, none) := by
    rcases hA with h | ⟨names, hn⟩
    · exact ⟨[], [], by simp [h]⟩
    · cases isCi with
      | true => exact ⟨[], [], by simp⟩
      | false => exact ⟨names.ConfigMaps, names.Secrets, by simp [getConfiguredCmCs_some, hn]⟩
  obtain ⟨cms, secs, hc⟩ := hc
  unfold resolveConfigs
  rcases hG with hx | ⟨gs, hgs⟩
  · simp [hx, hc, hE]
  · cases hx : r.IsExtRun <;> simp [hgs, hc, hE]

/-- The global definitions as the configuration part leaves them, when their
lookup succeeds: renamed in place, in the order received. -/
theorem resolveConfigs_global_state (A : Ambient) (impl : CommonWorkflowServiceImpl)
    (r : CommonWorkflowRequest) (pipeline : Option Pipeline) (isJob isCi : Bool)
    (gs : List GlobalCMCSDto)
    (hG : impl.FindAllActiveByPipelineType
      (if isCi then A.PIPELINE_TYPE_CI else A.PIPELINE_TYPE_CD) = .ok gs) :
    (resolveConfigs A impl r pipeline isJob isCi).globalCmCsConfigs =
      if r.IsExtRun then [] else gs.map (renameGlobal A r isCi) := by
  unfold resolveConfigs
  cases hx : r.IsExtRun
  · simp only [hG, Bool.not_false, if_true, Bool.false_eq_true, if_false]
    (repeat' split) <;> rfl
  · simp only [Bool.not_true, Bool.false_eq_true, if_false, if_true]
    (repeat' split) <;> rfl

/-! ## Claims C11–C20 -/

/-- C11. No call of `SubmitWorkflow` returns what an executor returned, because
none calls an executor: whatever the inputs, the trace holds no
`ExecuteWorkflow` call and the call does not return nil. The sample CI
submission selects the rejecting Argo executor and panics on the nil
`CdRequest` at line 353 instead of returning that executor's error; with the
accepting executor it panics the same way instead of returning nil. The
dispatch block itself (lines 402–407) is as claimed: with an executor selected
it returns exactly that executor's error, nil exactly when the executor
returned nil, after calling it once. -/
theorem executor_error_never_returned :
    getWorkflowExecutor sampleAmbient failingExecutorImpl sampleRequest.WorkflowExecutor =
      some failingArgo ∧
    (∀ t, failingArgo.ExecuteWorkflow t = some ⟨"argo unavailable"⟩) ∧
    (SubmitWorkflow sampleAmbient failingExecutorImpl sampleRequest (some samplePipeline) none []
        false true).outcome = .panicked .nilCdRequest ∧
    (SubmitWorkflow sampleAmbient failingExecutorImpl sampleRequest (some samplePipeline) none []
        false true).outcome ≠ .returned (some ⟨"argo unavailable"⟩) ∧
    (SubmitWorkflow sampleAmbient failingExecutorImpl sampleRequest (some samplePipeline) none []
        false true).calls =
      [Call.FindAllActiveByPipelineType "CI", Call.GetCmSecretNew 1 2 false] ∧
    (SubmitWorkflow sampleAmbient sampleImpl sampleRequest (some samplePipeline) none []
        false true).outcome = .panicked .nilCdRequest ∧
    (∀ (A : Ambient) (impl : CommonWorkflowServiceImpl) (r : CommonWorkflowRequest)
        (pipeline : Option Pipeline) (env : Option Environment) (l : StringMap)
        (isJob isCi : Bool),
      (SubmitWorkflow A impl r pipeline env l isJob isCi).outcome ≠ .returned none ∧
        ∀ c ∈ (SubmitWorkflow A impl r pipeline env l isJob isCi).calls,
          ∀ id t, c ≠ Call.ExecuteWorkflow id t) ∧
    (∀ (A : Ambient) (impl : CommonWorkflowServiceImpl) (r : CommonWorkflowRequest)
        (t : WorkflowTemplate) (workflowExecutor : WorkflowExecutor),
      getWorkflowExecutor A impl r.WorkflowExecutor = some workflowExecutor →
      (dispatchWorkflow A impl r t).1 = .returned (workflowExecutor.ExecuteWorkflow t) ∧
        ((dispatchWorkflow A impl r t).1 = .returned none ↔
          workflowExecutor.ExecuteWorkflow t = none) ∧
        (dispatchWorkflow A impl r t).2 = [Call.ExecuteWorkflow workflowExecutor.id t]) := by
  refine ⟨rfl, fun _ => rfl, by decide, by decide, by decide, by decide, ?_, ?_⟩
  · intro A impl r pipeline env l isJob isCi
    obtain ⟨-, -, -, hne, hcalls⟩ := SubmitWorkflow_unreached A impl r pipeline env l isJob isCi
    refine ⟨hne, ?_⟩
    intro c hc id t hct
    rcases hcalls c hc with ⟨_, h⟩ | ⟨_, _, h⟩
    · rw [h] at hct
      cases hct
    · rw [h] at hct
      cases hct
  · intro A impl r t workflowExecutor hSelected
    unfold dispatchWorkflow
    rw [hSelected]
    simp

/-- With a non-nil pipeline and a trigger event that marshals, a failing
lookup of the configuration part ends the submission with its error, and the
trace holds only the calls made up to the failure: the global CM/CS lookup of
a non-external run; the parsing of the stage allow-list of a CD request, when
the global lookup was skipped or succeeded; `GetCmSecretNew`, when the steps
before it succeeded. -/
theorem SubmitWorkflow_lookup_failure (A : Ambient) (impl : CommonWorkflowServiceImpl)
    (workflowRequest : CommonWorkflowRequest) (pipeline : Pipeline)
    (env : Option Environment) (appLabels : StringMap) (isJob isCi : Bool) (err : GoError)
    (hMarshal : ∀ ev, ∃ json, A.Marshal ev = .ok json) :
    ((SubmitWorkflow A impl workflowRequest (some pipeline) env appLabels isJob
          isCi).request.IsExtRun = false →
      impl.FindAllActiveByPipelineType
          (if isCi then A.PIPELINE_TYPE_CI else A.PIPELINE_TYPE_CD) = .error err →
      (SubmitWorkflow A impl workflowRequest (some pipeline) env appLabels isJob isCi).outcome =
          .returned (some err) ∧
        (SubmitWorkflow A impl workflowRequest (some pipeline) env appLabels isJob isCi).calls =
          [Call.FindAllActiveByPipelineType
            (if isCi then A.PIPELINE_TYPE_CI else A.PIPELINE_TYPE_CD)]) ∧
    (isCi = false →
      ((SubmitWorkflow A impl workflowRequest (some pipeline) env appLabels isJob
          isCi).request.IsExtRun = true ∨
        ∃ gs, impl.FindAllActiveByPipelineType A.PIPELINE_TYPE_CD = .ok gs) →
      A.Unmarshal (if workflowRequest.StageType = "PRE" then pipeline.PreStageConfigMapSecretNames
          else pipeline.PostStageConfigMapSecretNames) = .error err →
      (SubmitWorkflow A impl workflowRequest (some pipeline) env appLabels isJob isCi).outcome =
          .returned (some err) ∧
        (SubmitWorkflow A impl workflowRequest (some pipeline) env appLabels isJob isCi).calls =
          (if (SubmitWorkflow A impl workflowRequest (some pipeline) env appLabels isJob
              isCi).request.IsExtRun then []
            else [Call.FindAllActiveByPipelineType A.PIPELINE_TYPE_CD])) ∧
    (((SubmitWorkflow A impl workflowRequest (some pipeline) env appLabels isJob
          isCi).request.IsExtRun = true ∨
        ∃ gs, impl.FindAllActiveByPipelineType
          (if isCi then A.PIPELINE_TYPE_CI else A.PIPELINE_TYPE_CD) = .ok gs) →
      (isCi = true ∨
        ∃ names, A.Unmarshal (if workflowRequest.StageType = "PRE"
          then pipeline.PreStageConfigMapSecretNames
          else pipeline.PostStageConfigMapSecretNames) = .ok names) →
      impl.GetCmSecretNew workflowRequest.AppId workflowRequest.EnvironmentId isJob = .error err →
      (SubmitWorkflow A impl workflowRequest (some pipeline) env appLabels isJob isCi).outcome =
          .returned (some err) ∧
        (SubmitWorkflow A impl workflowRequest (some pipeline) env appLabels isJob isCi).calls =
          (if (SubmitWorkflow A impl workflowRequest (some pipeline) env appLabels isJob
              isCi).request.IsExtRun then []
            else [Call.FindAllActiveByPipelineType
              (if isCi then A.PIPELINE_TYPE_CI else A.PIPELINE_TYPE_CD)]) ++
            [Call.GetCmSecretNew workflowRequest.AppId workflowRequest.EnvironmentId isJob]) := by
  obtain ⟨r', hp⟩ : ∃ r', prepareRequest A impl workflowRequest (some pipeline) env appLabels
      isCi = some r' := ⟨_, prepareRequest_some A impl workflowRequest pipeline env appLabels isCi⟩
  obtain ⟨-, -, happ, henv, hstage⟩ :=
    prepareRequest_ids A impl workflowRequest (some pipeline) env appLabels isCi r' hp
  obtain ⟨json, hm⟩ := hMarshal (triggerEvent r' isCi)
  have hreq : (SubmitWorkflow A impl workflowRequest (some pipeline) env appLabels isJob
      isCi).request = r' := by
    rw [SubmitWorkflow_request, hp, Option.getD_some]
  rw [hreq, ← happ, ← henv, ← hstage]
  refine ⟨?_, ?_, ?_⟩
  · intro hx hG
    have hres := resolveConfigs_global_error A impl r' (some pipeline) isJob isCi err hx hG
    have hexit : (resolveConfigs A impl r' (some pipeline) isJob isCi).exit =
        some (.returned (some err)) := by rw [hres]
    rw [SubmitWorkflow_resolve_exit A impl workflowRequest (some pipeline) env appLabels isJob
      isCi r' json _ hp hm hexit, hres]
    exact ⟨rfl, rfl⟩
  · intro hci hG hA
    subst hci
    obtain ⟨hexit, hcalls⟩ := resolveConfigs_allow_error A impl r' pipeline isJob err hG hA
    rw [SubmitWorkflow_resolve_exit A impl workflowRequest (some pipeline) env appLabels isJob
      false r' json _ hp hm hexit]
    exact ⟨rfl, hcalls⟩
  · intro hG hA hE
    obtain ⟨hexit, hcalls⟩ :=
      resolveConfigs_existing_error A impl r' pipeline isJob isCi err hG hA hE
    rw [SubmitWorkflow_resolve_exit A impl workflowRequest (some pipeline) env appLabels isJob
      isCi r' json _ hp hm hexit]
    exact ⟨rfl, hcalls⟩

/-- C12. A failing rest-config lookup does not end a submission with its
error, because no call gets to the lookup of lines 392–396: the sample CI
submission in an external environment, against a lookup that fails, panics on
the nil `CdRequest` at line 353 having called `GetCmSecretNew` only, and
whatever the inputs the trace holds no `GetRestConfigByCluster` call. The
other three failures are as claimed: with a non-nil pipeline and a trigger
event that marshals, a failing global CM/CS lookup of a non-external run, a
failing parse of the stage allow-list of a CD request, and a failing
`GetCmSecretNew` each end the submission with that error and with no call
after the failing one. The block of lines 383–400 itself returns the error of
a failing lookup. -/
theorem rest_config_failure_never_returned :
    (SubmitWorkflow sampleAmbient failingRestConfigImpl sampleRequest (some samplePipeline)
        (some sampleEnvironment) [] false true).request.IsExtRun = true ∧
    (∀ clusterConfig,
      failingRestConfigImpl.GetRestConfigByCluster clusterConfig =
        .error ⟨"cluster unreachable"⟩) ∧
    (SubmitWorkflow sampleAmbient failingRestConfigImpl sampleRequest (some samplePipeline)
        (some sampleEnvironment) [] false true).outcome = .panicked .nilCdRequest ∧
    (SubmitWorkflow sampleAmbient failingRestConfigImpl sampleRequest (some samplePipeline)
        (some sampleEnvironment) [] false true).outcome ≠
      .returned (some ⟨"cluster unreachable"⟩) ∧
    (SubmitWorkflow sampleAmbient failingRestConfigImpl sampleRequest (some samplePipeline)
        (some sampleEnvironment) [] false true).calls = [Call.GetCmSecretNew 1 2 false] ∧
    (∀ (A : Ambient) (impl : CommonWorkflowServiceImpl) (r : CommonWorkflowRequest)
        (pipeline : Option Pipeline) (env : Option Environment) (l : StringMap)
        (isJob isCi : Bool),
      ∀ c ∈ (SubmitWorkflow A impl r pipeline env l isJob isCi).calls,
        ∀ clusterConfig, c ≠ Call.GetRestConfigByCluster clusterConfig) ∧
    (SubmitWorkflow sampleAmbient failingGlobalImpl sampleRequest (some samplePipeline) none []
        false true).outcome = .returned (some ⟨"global lookup failed"⟩) ∧
    (SubmitWorkflow sampleAmbient failingGlobalImpl sampleRequest (some samplePipeline) none []
        false true).calls = [Call.FindAllActiveByPipelineType "CI"] ∧
    (∀ (A : Ambient) (impl : CommonWorkflowServiceImpl) (workflowRequest : CommonWorkflowRequest)
        (pipeline : Pipeline) (env : Option Environment) (appLabels : StringMap)
        (isJob isCi : Bool) (err : GoError),
      (∀ ev, ∃ json, A.Marshal ev = .ok json) →
      ((SubmitWorkflow A impl workflowRequest (some pipeline) env appLabels isJob
            isCi).request.IsExtRun = false →
        impl.FindAllActiveByPipelineType
            (if isCi then A.PIPELINE_TYPE_CI else A.PIPELINE_TYPE_CD) = .error err →
        (SubmitWorkflow A impl workflowRequest (some pipeline) env appLabels isJob isCi).outcome =
            .returned (some err) ∧
          (SubmitWorkflow A impl workflowRequest (some pipeline) env appLabels isJob isCi).calls =
            [Call.FindAllActiveByPipelineType
              (if isCi then A.PIPELINE_TYPE_CI else A.PIPELINE_TYPE_CD)]) ∧
      (isCi = false →
        ((SubmitWorkflow A impl workflowRequest (some pipeline) env appLabels isJob
            isCi).request.IsExtRun = true ∨
          ∃ gs, impl.FindAllActiveByPipelineType A.PIPELINE_TYPE_CD = .ok gs) →
        A.Unmarshal (if workflowRequest.StageType = "PRE" then pipeline.PreStageConfigMapSecretNames
            else pipeline.PostStageConfigMapSecretNames) = .error err →
        (SubmitWorkflow A impl workflowRequest (some pipeline) env appLabels isJob isCi).outcome =
            .returned (some err) ∧
          (SubmitWorkflow A impl workflowRequest (some pipeline) env appLabels isJob isCi).calls =
            (if (SubmitWorkflow A impl workflowRequest (some pipeline) env appLabels isJob
                isCi).request.IsExtRun then []
              else [Call.FindAllActiveByPipelineType A.PIPELINE_TYPE_CD])) ∧
      (((SubmitWorkflow A impl workflowRequest (some pipeline) env appLabels isJob
            isCi).request.IsExtRun = true ∨
          ∃ gs, impl.FindAllActiveByPipelineType
            (if isCi then A.PIPELINE_TYPE_CI else A.PIPELINE_TYPE_CD) = .ok gs) →
        (isCi = true ∨
          ∃ names, A.Unmarshal (if workflowRequest.StageType = "PRE"
            then pipeline.PreStageConfigMapSecretNames
            else pipeline.PostStageConfigMapSecretNames) = .ok names) →
        impl.GetCmSecretNew workflowRequest.AppId workflowRequest.EnvironmentId isJob = .error err →
        (SubmitWorkflow A impl workflowRequest (some pipeline) env appLabels isJob isCi).outcome =
            .returned (some err) ∧
          (SubmitWorkflow A impl workflowRequest (some pipeline) env appLabels isJob isCi).calls =
            (if (SubmitWorkflow A impl workflowRequest (some pipeline) env appLabels isJob
                isCi).request.IsExtRun then []
              else [Call.FindAllActiveByPipelineType
                (if isCi then A.PIPELINE_TYPE_CI else A.PIPELINE_TYPE_CD)]) ++
              [Call.GetCmSecretNew workflowRequest.AppId workflowRequest.EnvironmentId isJob])) ∧
    (∀ (A : Ambient) (impl : CommonWorkflowServiceImpl) (request : CommonWorkflowRequest)
        (template : WorkflowTemplate) (e : Environment) (cluster : Cluster) (err : GoError),
      request.IsExtRun = true → e.Cluster = some cluster →
      impl.GetRestConfigByCluster
          ⟨cluster.ClusterName, mapIndex cluster.Config A.BearerToken, cluster.ServerUrl, true⟩ =
        .error err →
      (resolveClusterConfig A impl request (some e) template).exit = some (.returned (some err)) ∧
        (resolveClusterConfig A impl request (some e) template).calls =
          [Call.GetRestConfigByCluster
            ⟨cluster.ClusterName, mapIndex cluster.Config A.BearerToken, cluster.ServerUrl,
              true⟩]) := by
  refine ⟨by decide, fun _ => rfl, by decide, by decide, by decide, ?_, by decide, by decide,
    ?_, ?_⟩
  · intro A impl r pipeline env l isJob isCi c hc clusterConfig hcc
    rcases (SubmitWorkflow_unreached A impl r pipeline env l isJob isCi).2.2.2.2 c hc with
      ⟨_, h⟩ | ⟨_, _, h⟩
    · rw [h] at hcc
      cases hcc
    · rw [h] at hcc
      cases hcc
  · intro A impl workflowRequest pipeline env appLabels isJob isCi err hMarshal
    exact SubmitWorkflow_lookup_failure A impl workflowRequest pipeline env appLabels isJob isCi
      err hMarshal
  · intro A impl request template e cluster err hx hc hR
    unfold resolveClusterConfig
    simp [hx, hc, hR]

/-- The global definitions as a call leaves them, when marshalling and their
lookup succeed. -/
theorem SubmitWorkflow_global_state (A : Ambient) (impl : CommonWorkflowServiceImpl)
    (r : CommonWorkflowRequest) (p : Pipeline) (env : Option Environment) (l : StringMap)
    (isJob isCi : Bool) (gs : List GlobalCMCSDto)
    (hM : ∀ ev, ∃ json, A.Marshal ev = .ok json)
    (hG : impl.FindAllActiveByPipelineType
      (if isCi then A.PIPELINE_TYPE_CI else A.PIPELINE_TYPE_CD) = .ok gs) :
    (SubmitWorkflow A impl r (some p) env l isJob isCi).globalCmCsConfigs =
      if (SubmitWorkflow A impl r (some p) env l isJob isCi).request.IsExtRun then []
      else gs.map (renameGlobal A r isCi) := by
  obtain ⟨r', hp⟩ : ∃ r', prepareRequest A impl r (some p) env l isCi = some r' :=
    ⟨_, prepareRequest_some A impl r p env l isCi⟩
  obtain ⟨hid, hrun, -, -, -⟩ := prepareRequest_ids A impl r (some p) env l isCi r' hp
  obtain ⟨json, hm⟩ := hM (triggerEvent r' isCi)
  have hstate := resolveConfigs_global_state A impl r' (some p) isJob isCi gs hG
  rw [renameGlobal_congr A r r' isCi hid hrun] at hstate
  rw [SubmitWorkflow_request, hp, Option.getD_some]
  cases hr : (resolveConfigs A impl r' (some p) isJob isCi).exit with
  | some o =>
    rw [SubmitWorkflow_resolve_exit A impl r (some p) env l isJob isCi r' json o hp hm hr]
    exact hstate
  | none =>
    rw [SubmitWorkflow_abandoned A impl r (some p) env l isJob isCi r' json hp hm hr]
    exact hstate

/-- C13. In a submission whose marshalling, lookups and (for CD) allow-list
parsing succeed, the template's `ConfigMaps` is the list made from the global
definitions followed by the entries made from the app-level config maps, and
likewise for `Secrets`. The global definitions are handed to
`GetFromGlobalCmCsDtos` in the order in which `FindAllActiveByPipelineType`
returned them and the lists it returns are used as they are; the app-level
entries are the images, in order, of a sublist of the app-level list. When
`GetFromGlobalCmCsDtos` itself converts the definitions one by one in order,
the global part is the in-order image of the returned definitions. -/
theorem template_lists_keep_source_order (A : Ambient) (impl : CommonWorkflowServiceImpl)
    (workflowRequest : CommonWorkflowRequest) (pipeline : Pipeline)
    (env : Option Environment) (appLabels : StringMap) (isJob isCi : Bool)
    (gs : List GlobalCMCSDto) (existingConfigMap : ConfigMapJson)
    (existingSecrets : ConfigSecretJson) (allowedConfigMaps allowedSecrets : List String)
    (hMarshal : ∀ ev, ∃ json, A.Marshal ev = .ok json)
    (hGlobal : impl.FindAllActiveByPipelineType
      (if isCi then A.PIPELINE_TYPE_CI else A.PIPELINE_TYPE_CD) = .ok gs)
    (hAllowed : isCi = false →
      getConfiguredCmCs A (some pipeline) workflowRequest.StageType =
        some (allowedConfigMaps, allowedSecrets, none))
    (hExisting : impl.GetCmSecretNew workflowRequest.AppId workflowRequest.EnvironmentId isJob =
      .ok (existingConfigMap, existingSecrets)) :
    ∃ globalConfigMaps globalSecrets keptConfigMaps keptSecrets : List ConfigSecretMap,
      (SubmitWorkflow A impl workflowRequest (some pipeline) env appLabels isJob
          isCi).template.ConfigMaps =
        globalConfigMaps ++
          keptConfigMaps.map
            (if isCi then renameForCi A workflowRequest else renameForCd workflowRequest) ∧
      (SubmitWorkflow A impl workflowRequest (some pipeline) env appLabels isJob
          isCi).template.Secrets =
        globalSecrets ++
          keptSecrets.map
            (if isCi then renameForCi A workflowRequest else renameForCd workflowRequest) ∧
      keptConfigMaps.Sublist existingConfigMap.Maps ∧
      keptSecrets.Sublist existingSecrets.Secrets ∧
      ((SubmitWorkflow A impl workflowRequest (some pipeline) env appLabels isJob
          isCi).request.IsExtRun = true → globalConfigMaps = [] ∧ globalSecrets = []) ∧
      ((SubmitWorkflow A impl workflowRequest (some pipeline) env appLabels isJob
          isCi).request.IsExtRun = false →
        (SubmitWorkflow A impl workflowRequest (some pipeline) env appLabels isJob
            isCi).globalCmCsConfigs = gs.map (renameGlobal A workflowRequest isCi) ∧
        globalConfigMaps = (A.GetFromGlobalCmCsDtos (gs.map (renameGlobal A workflowRequest isCi))).1 ∧
        globalSecrets = (A.GetFromGlobalCmCsDtos (gs.map (renameGlobal A workflowRequest isCi))).2.1 ∧
        ∀ (toConfigMap toSecret : GlobalCMCSDto → Option ConfigSecretMap),
          (∀ dtos, (A.GetFromGlobalCmCsDtos dtos).1 = dtos.filterMap toConfigMap ∧
            (A.GetFromGlobalCmCsDtos dtos).2.1 = dtos.filterMap toSecret) →
          globalConfigMaps =
              gs.filterMap (fun g => toConfigMap (renameGlobal A workflowRequest isCi g)) ∧
            globalSecrets =
              gs.filterMap (fun g => toSecret (renameGlobal A workflowRequest isCi g))) := by
  obtain ⟨h1, h2⟩ := SubmitWorkflow_configs_ok A impl workflowRequest pipeline env appLabels
    isJob isCi gs existingConfigMap existingSecrets allowedConfigMaps allowedSecrets hMarshal
    hGlobal hAllowed hExisting
  have hstate := SubmitWorkflow_global_state A impl workflowRequest pipeline env appLabels isJob
    isCi gs hMarshal hGlobal
  have happ : ∀ (allowed : List String) (existing : List ConfigSecretMap),
      ∃ kept : List ConfigSecretMap, kept.Sublist existing ∧
        appLevelEntries A workflowRequest isCi allowed existing =
          kept.map
            (if isCi then renameForCi A workflowRequest else renameForCd workflowRequest) := by
    intro allowed existing
    unfold appLevelEntries
    cases isCi with
    | true => exact ⟨existing, List.Sublist.refl _, by simp⟩
    | false =>
      exact ⟨existing.filter (fun cm => decide (cm.Name ∈ allowed)), List.filter_sublist _,
        by simp⟩
  obtain ⟨keptCm, hsubCm, hCm⟩ := happ allowedConfigMaps existingConfigMap.Maps
  obtain ⟨keptSec, hsubSec, hSec⟩ := happ allowedSecrets existingSecrets.Secrets
  rw [hCm] at h1
  rw [hSec] at h2
  refine ⟨_, _, keptCm, keptSec, h1, h2, hsubCm, hsubSec, ?_, ?_⟩
  · intro hx
    simp [hx]
  · intro hx
    simp only [hx, Bool.false_eq_true, if_false] at hstate
    have e1 : (if (SubmitWorkflow A impl workflowRequest (some pipeline) env appLabels isJob
          isCi).request.IsExtRun = true then ([] : List ConfigSecretMap)
        else (A.GetFromGlobalCmCsDtos (gs.map (renameGlobal A workflowRequest isCi))).1) =
        (A.GetFromGlobalCmCsDtos (gs.map (renameGlobal A workflowRequest isCi))).1 := by
      simp [hx]
    have e2 : (if (SubmitWorkflow A impl workflowRequest (some pipeline) env appLabels isJob
          isCi).request.IsExtRun = true then ([] : List ConfigSecretMap)
        else (A.GetFromGlobalCmCsDtos (gs.map (renameGlobal A workflowRequest isCi))).2.1) =
        (A.GetFromGlobalCmCsDtos (gs.map (renameGlobal A workflowRequest isCi))).2.1 := by
      simp [hx]
    refine ⟨hstate, e1, e2, ?_⟩
    intro toConfigMap toSecret hhelper
    rw [e1, e2, (hhelper _).1, (hhelper _).2, List.filterMap_map, List.filterMap_map]
    exact ⟨rfl, rfl⟩

/-- Witness for C13: the sample CI submission. -/
theorem template_lists_keep_source_order_witness :
    ∃ globalConfigMaps globalSecrets keptConfigMaps keptSecrets : List ConfigSecretMap,
      (SubmitWorkflow sampleAmbient sampleImpl sampleRequest (some samplePipeline) none []
          false true).template.ConfigMaps =
        globalConfigMaps ++ keptConfigMaps.map (renameForCi sampleAmbient sampleRequest) ∧
      (SubmitWorkflow sampleAmbient sampleImpl sampleRequest (some samplePipeline) none []
          false true).template.Secrets =
        globalSecrets ++ keptSecrets.map (renameForCi sampleAmbient sampleRequest) ∧
      keptConfigMaps.Sublist [⟨"a", false, "x"⟩, ⟨"b", true, "y"⟩] ∧
      keptSecrets.Sublist [⟨"s", false, "p"⟩, ⟨"t", true, "q"⟩] := by
  obtain ⟨g1, g2, k1, k2, h1, h2, h3, h4, -, -⟩ :=
    template_lists_keep_source_order sampleAmbient sampleImpl sampleRequest samplePipeline none
      [] false true [⟨"G", "secret"⟩] ⟨[⟨"a", false, "x"⟩, ⟨"b", true, "y"⟩]⟩
      ⟨[⟨"s", false, "p"⟩, ⟨"t", true, "q"⟩]⟩ [] [] (fun _ => ⟨_, rfl⟩) rfl
      (fun h => Bool.noConfusion h) rfl
  exact ⟨g1, g2, k1, k2, h1, h2, h3, h4⟩

/-- C14. In a non-external run whose marshalling and global lookup succeed,
every global CM/CS definition returned by `FindAllActiveByPipelineType` is left
with the name `lowercase(name)-{WorkflowId}-{CI_WORKFLOW_NAME}` for CI and
`lowercase(name)-{WorkflowRunnerId}-{CD_WORKFLOW_NAME}` for CD, and it is from
the definitions so renamed that the entries injected into the template are made. -/
theorem global_definitions_renamed (A : Ambient) (impl : CommonWorkflowServiceImpl)
    (workflowRequest : CommonWorkflowRequest) (pipeline : Pipeline)
    (env : Option Environment) (appLabels : StringMap) (isJob isCi : Bool)
    (gs : List GlobalCMCSDto)
    (hMarshal : ∀ ev, ∃ json, A.Marshal ev = .ok json)
    (hGlobal : impl.FindAllActiveByPipelineType
      (if isCi then A.PIPELINE_TYPE_CI else A.PIPELINE_TYPE_CD) = .ok gs)
    (hInternal : (SubmitWorkflow A impl workflowRequest (some pipeline) env appLabels isJob
      isCi).request.IsExtRun = false) :
    (SubmitWorkflow A impl workflowRequest (some pipeline) env appLabels isJob
        isCi).globalCmCsConfigs =
      gs.map (fun g =>
        { g with
          Name :=
            if isCi then
              A.ToLower g.Name ++ "-" ++ Itoa workflowRequest.WorkflowId ++ "-" ++
                A.CI_WORKFLOW_NAME
            else
              A.ToLower g.Name ++ "-" ++ Itoa workflowRequest.WorkflowRunnerId ++ "-" ++
                A.CD_WORKFLOW_NAME }) ∧
    (∀ (existingConfigMap : ConfigMapJson) (existingSecrets : ConfigSecretJson)
        (allowedConfigMaps allowedSecrets : List String),
      (isCi = false →
        getConfiguredCmCs A (some pipeline) workflowRequest.StageType =
          some (allowedConfigMaps, allowedSecrets, none)) →
      impl.GetCmSecretNew workflowRequest.AppId workflowRequest.EnvironmentId isJob =
        .ok (existingConfigMap, existingSecrets) →
      (A.GetFromGlobalCmCsDtos
          (SubmitWorkflow A impl workflowRequest (some pipeline) env appLabels isJob
            isCi).globalCmCsConfigs).1 <+:
        (SubmitWorkflow A impl workflowRequest (some pipeline) env appLabels isJob
          isCi).template.ConfigMaps ∧
      (A.GetFromGlobalCmCsDtos
          (SubmitWorkflow A impl workflowRequest (some pipeline) env appLabels isJob
            isCi).globalCmCsConfigs).2.1 <+:
        (SubmitWorkflow A impl workflowRequest (some pipeline) env appLabels isJob
          isCi).template.Secrets) := by
  have hname : (fun g : GlobalCMCSDto =>
      { g with
        Name :=
          if isCi then
            A.ToLower g.Name ++ "-" ++ Itoa workflowRequest.WorkflowId ++ "-" ++
              A.CI_WORKFLOW_NAME
          else
            A.ToLower g.Name ++ "-" ++ Itoa workflowRequest.WorkflowRunnerId ++ "-" ++
              A.CD_WORKFLOW_NAME }) = renameGlobal A workflowRequest isCi := by
    funext g
    unfold renameGlobal
    cases isCi <;> simp
  have hstate := SubmitWorkflow_global_state A impl workflowRequest pipeline env appLabels isJob
    isCi gs hMarshal hGlobal
  simp only [hInternal, Bool.false_eq_true, if_false] at hstate
  rw [hname]
  refine ⟨hstate, ?_⟩
  intro existingConfigMap existingSecrets allowedConfigMaps allowedSecrets hAllowed hExisting
  obtain ⟨h1, h2⟩ := SubmitWorkflow_configs_ok A impl workflowRequest pipeline env appLabels
    isJob isCi gs existingConfigMap existingSecrets allowedConfigMaps allowedSecrets hMarshal
    hGlobal hAllowed hExisting
  simp only [hInternal, Bool.false_eq_true, if_false] at h1 h2
  rw [hstate, h1, h2]
  exact ⟨List.prefix_append _ _, List.prefix_append _ _⟩

/-- Witness for C14: the sample CI submission, whose global definition `G`
becomes `g-5-ci`. -/
theorem global_definitions_renamed_witness :
    (SubmitWorkflow sampleAmbient sampleImpl sampleRequest (some samplePipeline) none []
        false true).globalCmCsConfigs = [⟨"g-5-ci", "secret"⟩] :=
  ((global_definitions_renamed sampleAmbient sampleImpl sampleRequest samplePipeline none []
    false true [⟨"G", "secret"⟩] (fun _ => ⟨_, rfl⟩) rfl (by decide)).1).trans (by decide)

theorem append_slash_ne_empty (a b : String) : a ++ "/" ++ b ≠ "" := by
  intro h
  have hd := congrArg String.data h
  simp [String.data_append] at hd

/-- C15. The block of lines 339–373 picks the four quantity strings by `isCi`
alone and parses each of them as it is, but no call of `SubmitWorkflow` gets to
it: whatever the inputs, the template is left without a container, the call
having panicked on the nil `CdRequest` (as the sample CI submission does). -/
theorem main_container_never_built :
    (∀ (A : Ambient) (impl : CommonWorkflowServiceImpl) (r : CommonWorkflowRequest)
        (pipeline : Option Pipeline) (env : Option Environment) (l : StringMap)
        (isJob isCi : Bool),
      (SubmitWorkflow A impl r pipeline env l isJob isCi).template.Containers = []) ∧
    (∀ (A : Ambient) (impl : CommonWorkflowServiceImpl) (r : CommonWorkflowRequest)
        (envs : List EnvVar) (cms secs : List ConfigSecretMap) (isCi : Bool) (c : Container),
      mainContainer A impl r envs cms secs isCi = .ok c →
      ∃ limitCpu limitMem reqCpu reqMem,
        A.ParseQuantity (if isCi then impl.ciCdConfig.CiLimitCpu
          else impl.ciCdConfig.CdLimitCpu) = some limitCpu ∧
        A.ParseQuantity (if isCi then impl.ciCdConfig.CiLimitMem
          else impl.ciCdConfig.CdLimitMem) = some limitMem ∧
        A.ParseQuantity (if isCi then impl.ciCdConfig.CiReqCpu
          else impl.ciCdConfig.CdReqCpu) = some reqCpu ∧
        A.ParseQuantity (if isCi then impl.ciCdConfig.CiReqMem
          else impl.ciCdConfig.CdReqMem) = some reqMem ∧
        c = A.UpdateContainerEnvsFromCmCs
          ⟨envs, A.MainContainerName, r.CdImage, some true,
            ⟨limitCpu, limitMem, reqCpu, reqMem⟩, []⟩ cms secs) ∧
    (SubmitWorkflow sampleAmbient sampleImpl sampleRequest (some samplePipeline) none []
        false true).outcome = .panicked .nilCdRequest := by
  refine ⟨?_, ?_, by decide⟩
  · intro A impl r pipeline env l isJob isCi
    exact (SubmitWorkflow_unreached A impl r pipeline env l isJob isCi).1
  · intro A impl r envs cms secs isCi c h
    unfold mainContainer at h
    simp only [] at h
    split at h
    · cases h
    · split at h
      · cases h
      · split at h
        · cases h
        · split at h
          · cases h
          · rename_i _ q1 h1 _ q2 h2 _ q3 h3 _ q4 h4
            simp only [Except.ok.injEq] at h
            exact ⟨q1, q2, q3, q4, h1, h2, h3, h4, h.symm⟩

/-- C16. With a non-nil pipeline, the trigger event has type `"CI"` for a CI
call and `"CD"` otherwise, whatever the request, and carries the request being
submitted; it is this event that is marshalled: the template's
`WorkflowRequestJson` is the marshalling of the event of that type with the
request as the call leaves it, and when that marshalling fails the call returns
its error. -/
theorem trigger_event_type_and_request (A : Ambient) (impl : CommonWorkflowServiceImpl)
    (workflowRequest : CommonWorkflowRequest) (pipeline : Pipeline)
    (env : Option Environment) (appLabels : StringMap) (isJob isCi : Bool) :
    (triggerEvent workflowRequest true).Type_ = "CI" ∧
    (triggerEvent workflowRequest false).Type_ = "CD" ∧
    (triggerEvent workflowRequest isCi).CommonWorkflowRequest = workflowRequest ∧
    (∀ json,
      A.Marshal
          { Type_ := if isCi then "CI" else "CD", CiRequest := none, CdRequest := none,
            CommonWorkflowRequest :=
              (SubmitWorkflow A impl workflowRequest (some pipeline) env appLabels isJob
                isCi).request } = .ok json →
      (SubmitWorkflow A impl workflowRequest (some pipeline) env appLabels isJob
        isCi).template.WorkflowRequestJson = json) ∧
    (∀ err,
      A.Marshal
          { Type_ := if isCi then "CI" else "CD", CiRequest := none, CdRequest := none,
            CommonWorkflowRequest :=
              (SubmitWorkflow A impl workflowRequest (some pipeline) env appLabels isJob
                isCi).request } = .error err →
      (SubmitWorkflow A impl workflowRequest (some pipeline) env appLabels isJob
        isCi).outcome = .returned (some err)) := by
  obtain ⟨r', hp⟩ : ∃ r', prepareRequest A impl workflowRequest (some pipeline) env appLabels
      isCi = some r' := ⟨_, prepareRequest_some A impl workflowRequest pipeline env appLabels isCi⟩
  have hreq : (SubmitWorkflow A impl workflowRequest (some pipeline) env appLabels isJob
      isCi).request = r' := by
    rw [SubmitWorkflow_request, hp, Option.getD_some]
  have hev :
      ({ Type_ := if isCi then "CI" else "CD", CiRequest := none, CdRequest := none,
         CommonWorkflowRequest := r' } : CiCdTriggerEvent) = triggerEvent r' isCi := by
    unfold triggerEvent ciEvent cdStage
    rfl
  rw [hreq, hev]
  refine ⟨rfl, rfl, rfl, ?_, ?_⟩
  · intro json hm
    cases hr : (resolveConfigs A impl r' (some pipeline) isJob isCi).exit with
    | some o =>
      rw [SubmitWorkflow_resolve_exit A impl workflowRequest (some pipeline) env appLabels isJob
        isCi r' json o hp hm hr]
      unfold initialTemplate
      cases isCi <;> simp
    | none =>
      rw [SubmitWorkflow_abandoned A impl workflowRequest (some pipeline) env appLabels isJob
        isCi r' json hp hm hr]
      unfold abandonedTemplate restartAndNodeLabel placeTemplate initialTemplate
      cases r'.BlobStorageConfigured <;> cases isCi <;> simp
  · intro err hm
    rw [SubmitWorkflow_marshal_error A impl workflowRequest (some pipeline) env appLabels isJob
      isCi r' err hp hm]

/-- Witness for C16: the sample CI submission marshals the event of type `"CI"`. -/
theorem trigger_event_type_and_request_witness :
    (SubmitWorkflow sampleAmbient sampleImpl sampleRequest (some samplePipeline) none []
        false true).template.WorkflowRequestJson = "CI:build" :=
  (trigger_event_type_and_request sampleAmbient sampleImpl sampleRequest samplePipeline none []
    false true).2.2.2.1 "CI:build" rfl

/-- C17. No call of `SubmitWorkflow` embeds the serialized event a second time:
whatever the inputs, the template is left without a container, so there is no
`CI_CD_EVENT` variable to compare `WorkflowRequestJson` with. The sample CI
submission sets `WorkflowRequestJson` and then panics on the nil `CdRequest`
at line 353, before the container of lines 355–372 is built. A marshal failure
does return its error with no call made and no template started. -/
theorem event_json_not_embedded_twice :
    (∀ (A : Ambient) (impl : CommonWorkflowServiceImpl) (r : CommonWorkflowRequest)
        (pipeline : Option Pipeline) (env : Option Environment) (l : StringMap)
        (isJob isCi : Bool),
      (SubmitWorkflow A impl r pipeline env l isJob isCi).template.Containers = []) ∧
    (∀ (A : Ambient) (impl : CommonWorkflowServiceImpl) (r : CommonWorkflowRequest)
        (pipeline : Pipeline) (env : Option Environment) (l : StringMap)
        (isJob isCi : Bool) (err : GoError),
      A.Marshal (triggerEvent (SubmitWorkflow A impl r (some pipeline) env l isJob isCi).request
        isCi) = .error err →
      SubmitWorkflow A impl r (some pipeline) env l isJob isCi =
        ⟨.returned (some err), (SubmitWorkflow A impl r (some pipeline) env l isJob isCi).request,
          {}, [], [], []⟩) ∧
    (SubmitWorkflow sampleAmbient sampleImpl sampleRequest (some samplePipeline) none []
        false true).outcome = .panicked .nilCdRequest ∧
    (SubmitWorkflow sampleAmbient sampleImpl sampleRequest (some samplePipeline) none []
        false true).template.WorkflowRequestJson = "CI:build" ∧
    (SubmitWorkflow sampleAmbient sampleImpl sampleRequest (some samplePipeline) none []
        false true).template.RestartPolicy = "Never" ∧
    (SubmitWorkflow sampleAmbient sampleImpl sampleRequest (some samplePipeline) none []
        false true).template.Containers = [] := by
  refine ⟨?_, ?_, by decide, by decide, by decide, by decide⟩
  · intro A impl r pipeline env l isJob isCi
    exact (SubmitWorkflow_unreached A impl r pipeline env l isJob isCi).1
  · intro A impl r pipeline env l isJob isCi err hm
    obtain ⟨r', hp⟩ : ∃ r', prepareRequest A impl r (some pipeline) env l isCi = some r' :=
      ⟨_, prepareRequest_some A impl r pipeline env l isCi⟩
    have hreq : (SubmitWorkflow A impl r (some pipeline) env l isJob isCi).request = r' := by
      rw [SubmitWorkflow_request, hp, Option.getD_some]
    rw [hreq] at hm ⊢
    exact SubmitWorkflow_marshal_error A impl r (some pipeline) env l isJob isCi r' err hp hm

/-- C18. With a non-nil pipeline the request is left with the log key
`{CiDefaultBuildLogsKeyPrefix}/{WorkflowPrefixForLog}` for CI and
`{CdDefaultBuildLogsKeyPrefix}/{WorkflowPrefixForLog}` for CD, but the
template's `CloudStorageKey` is never set: it is left empty, and so differs
from that key, whatever the inputs. -/
theorem cloud_storage_key_never_set (A : Ambient) (impl : CommonWorkflowServiceImpl)
    (workflowRequest : CommonWorkflowRequest) (pipeline : Pipeline)
    (env : Option Environment) (appLabels : StringMap) (isJob isCi : Bool) :
    (SubmitWorkflow A impl workflowRequest (some pipeline) env appLabels isJob
        isCi).request.BlobStorageLogsKey =
      (if isCi then impl.ciCdConfig.CiDefaultBuildLogsKeyPrefix
        else impl.ciCdConfig.CdDefaultBuildLogsKeyPrefix) ++ "/" ++
        workflowRequest.WorkflowPrefixForLog ∧
    (SubmitWorkflow A impl workflowRequest (some pipeline) env appLabels isJob
        isCi).template.CloudStorageKey = "" ∧
    (SubmitWorkflow A impl workflowRequest (some pipeline) env appLabels isJob
        isCi).template.CloudStorageKey ≠
      (SubmitWorkflow A impl workflowRequest (some pipeline) env appLabels isJob
        isCi).request.BlobStorageLogsKey := by
  have hkey : (SubmitWorkflow A impl workflowRequest (some pipeline) env appLabels isJob
      isCi).request.BlobStorageLogsKey =
      (if isCi then impl.ciCdConfig.CiDefaultBuildLogsKeyPrefix
        else impl.ciCdConfig.CdDefaultBuildLogsKeyPrefix) ++ "/" ++
        workflowRequest.WorkflowPrefixForLog := by
    rw [SubmitWorkflow_request, prepareRequest_some, Option.getD_some]
    rfl
  have hempty := (SubmitWorkflow_unreached A impl workflowRequest (some pipeline) env appLabels
    isJob isCi).2.2.1
  refine ⟨hkey, hempty, ?_⟩
  rw [hempty, hkey]
  exact (append_slash_ne_empty _ _).symm

/-- C19. No call of `SubmitWorkflow` sets the template's `ClusterConfig` or
looks up a rest config, whatever the inputs. The sample CI submission is not
external and panics with `ClusterConfig` still nil instead of the in-cluster
config; the sample CD pre-stage submission on a pipeline that runs its
pre-stage in the environment is external and panics without the lookup. -/
theorem cluster_config_never_set :
    (∀ (A : Ambient) (impl : CommonWorkflowServiceImpl) (r : CommonWorkflowRequest)
        (pipeline : Option Pipeline) (env : Option Environment) (l : StringMap)
        (isJob isCi : Bool),
      (SubmitWorkflow A impl r pipeline env l isJob isCi).template.ClusterConfig = none ∧
      ∀ c, Call.GetRestConfigByCluster c ∉
        (SubmitWorkflow A impl r pipeline env l isJob isCi).calls) ∧
    (SubmitWorkflow sampleAmbient sampleImpl sampleRequest (some samplePipeline) none []
        false true).request.IsExtRun = false ∧
    (SubmitWorkflow sampleAmbient sampleImpl sampleRequest (some samplePipeline) none []
        false true).outcome = .panicked .nilCdRequest ∧
    (SubmitWorkflow sampleAmbient sampleImpl sampleRequest (some samplePipeline) none []
        false true).template.ClusterConfig ≠ some sampleImpl.config ∧
    (SubmitWorkflow sampleAmbient sampleImpl preStageRequest (some samplePipeline)
        (some sampleEnvironment) [] false false).request.IsExtRun = true ∧
    (SubmitWorkflow sampleAmbient sampleImpl preStageRequest (some samplePipeline)
        (some sampleEnvironment) [] false false).outcome = .panicked .nilCdRequest ∧
    (SubmitWorkflow sampleAmbient sampleImpl preStageRequest (some samplePipeline)
        (some sampleEnvironment) [] false false).calls = [Call.GetCmSecretNew 1 2 false] := by
  refine ⟨?_, by decide, by decide, by decide, by decide, by decide, by decide⟩
  intro A impl r pipeline env l isJob isCi
  have h := SubmitWorkflow_unreached A impl r pipeline env l isJob isCi
  refine ⟨h.2.1, ?_⟩
  intro c hc
  rcases h.2.2.2.2 _ hc with ⟨t, ht⟩ | ⟨a, e, hae⟩
  · cases ht
  · cases hae

theorem secretsAfterLoop_congr (A : Ambient) (r r' : CommonWorkflowRequest) (isCi : Bool)
    (h : r'.WorkflowId = r.WorkflowId) (h2 : r'.WorkflowRunnerId = r.WorkflowRunnerId) :
    secretsAfterLoop A r' isCi = secretsAfterLoop A r isCi := by
  funext allowed existing
  unfold secretsAfterLoop
  rw [renameForCi_congr A r r' h, renameForCd_congr r r' h h2]

/-- The secret entries as the configuration part leaves them, when every
lookup succeeds. -/
theorem resolveConfigs_ok_secrets (A : Ambient) (impl : CommonWorkflowServiceImpl)
    (r : CommonWorkflowRequest) (p : Pipeline) (isJob isCi : Bool)
    (gs : List GlobalCMCSDto) (existingConfigMap : ConfigMapJson)
    (existingSecrets : ConfigSecretJson) (allowedConfigMaps allowedSecrets : List String)
    (hG : impl.FindAllActiveByPipelineType
      (if isCi then A.PIPELINE_TYPE_CI else A.PIPELINE_TYPE_CD) = .ok gs)
    (hA : isCi = false →
      getConfiguredCmCs A (some p) r.StageType = some (allowedConfigMaps, allowedSecrets, none))
    (hE : impl.GetCmSecretNew r.AppId r.EnvironmentId isJob =
      .ok (existingConfigMap, existingSecrets)) :
    (resolveConfigs A impl r (some p) isJob isCi).existingSecrets =
      secretsAfterLoop A r isCi allowedSecrets existingSecrets.Secrets := by
  unfold resolveConfigs
  cases isCi with
  | true =>
    simp only [if_true] at hG
    cases hx : r.IsExtRun <;> simp [hG, hE, secretsAfterLoop]
  | false =>
    simp only [Bool.false_eq_true, if_false] at hG
    have hA' := hA rfl
    cases hx : r.IsExtRun <;> simp [hG, hE, hA']

/-- Counterexample for C20: the first sample CI submission, and a second one
that is handed the objects the first has left. The global definition and the
internal secret have changed names under the first call, and the second call
suffixes them again. -/
theorem collaborator_objects_renamed_in_place :
    sampleImpl.FindAllActiveByPipelineType "CI" = .ok [⟨"G", "secret"⟩] ∧
    (SubmitWorkflow sampleAmbient sampleImpl sampleRequest (some samplePipeline) none []
        false true).globalCmCsConfigs = [⟨"g-5-ci", "secret"⟩] ∧
    sampleImpl.GetCmSecretNew 1 2 false =
      .ok (⟨[⟨"a", false, "x"⟩, ⟨"b", true, "y"⟩]⟩, ⟨[⟨"s", false, "p"⟩, ⟨"t", true, "q"⟩]⟩) ∧
    (SubmitWorkflow sampleAmbient sampleImpl sampleRequest (some samplePipeline) none []
        false true).existingSecrets = [⟨"s-5-ci", false, "p"⟩, ⟨"t", true, "q"⟩] ∧
    (SubmitWorkflow sampleAmbient sampleImpl sampleRequest (some samplePipeline) none []
        false true).template.Secrets = [⟨"s-5-ci", false, "p"⟩, ⟨"t", true, "q"⟩] ∧
    (SubmitWorkflow sampleAmbient
        (resubmitImpl
          (SubmitWorkflow sampleAmbient sampleImpl sampleRequest (some samplePipeline) none []
            false true))
        sampleRequest (some samplePipeline) none [] false true).template.Secrets =
      [⟨"s-5-ci-5-ci", false, "p"⟩, ⟨"t", true, "q"⟩] ∧
    (SubmitWorkflow sampleAmbient
        (resubmitImpl
          (SubmitWorkflow sampleAmbient sampleImpl sampleRequest (some samplePipeline) none []
            false true))
        sampleRequest (some samplePipeline) none [] false true).template.ConfigMaps ≠
      (SubmitWorkflow sampleAmbient sampleImpl sampleRequest (some samplePipeline) none []
        false true).template.ConfigMaps := by
  refine ⟨rfl, by decide, rfl, by decide, by decide, by decide, by decide⟩

/-- The entries of a list that pass a test, each followed through a change of
the list, are the changed entries of those that pass. -/
theorem zip_filter_map_snd {α β : Type} (l : List α) (f g : α → β) (q : α → Bool)
    (h : ∀ x ∈ l, q x = true → f x = g x) :
    ((l.zip (l.map f)).filter (fun p => q p.1)).map Prod.snd = (l.filter q).map g := by
  induction l with
  | nil => rfl
  | cons x xs ih =>
    have ih' := ih (fun y hy => h y (List.mem_cons_of_mem x hy))
    simp only [List.map_cons, List.zip_cons_cons, List.filter_cons]
    cases hq : q x with
    | true =>
      simp only [if_true, List.map_cons, ih']
      rw [h x (List.mem_cons_self x xs) hq]
    | false =>
      simp only [Bool.false_eq_true, if_false, ih']

/-- C20, as amended. `SubmitWorkflow` writes to the objects its collaborators
return. After a call with a non-nil pipeline whose marshalling, lookups and
(for CD) allow-list parsing succeed: in a non-external run every global CM/CS
definition returned by `FindAllActiveByPipelineType` is left with the name
`lower(name)-{WorkflowId}-{CI_WORKFLOW_NAME}` (CI) or
`lower(name)-{WorkflowRunnerId}-{CD_WORKFLOW_NAME}` (CD) and is otherwise
unchanged; every secret entry returned by `GetCmSecretNew` that is carried into
the template (each one for CI, those named in the stage allow-list for CD) and
is not external is left with the name `name-{WorkflowId}-{CI_WORKFLOW_NAME}`
(CI) or `name-{WorkflowId}-{WorkflowRunnerId}` (CD), and every other secret
entry is left as it was; the template's `Secrets` ends with the carried
entries as they are left, in order. The service keeps no state of its own: with
the same request values, a service whose two lookups return equal values
yields a template with the same `ConfigMaps` and `Secrets`. -/
theorem collaborator_objects_after_call (A : Ambient) (impl : CommonWorkflowServiceImpl)
    (workflowRequest : CommonWorkflowRequest) (pipeline : Pipeline)
    (env : Option Environment) (appLabels : StringMap) (isJob isCi : Bool)
    (gs : List GlobalCMCSDto) (existingConfigMap : ConfigMapJson)
    (existingSecrets : ConfigSecretJson) (allowedConfigMaps allowedSecrets : List String)
    (hMarshal : ∀ ev, ∃ json, A.Marshal ev = .ok json)
    (hGlobal : impl.FindAllActiveByPipelineType
      (if isCi then A.PIPELINE_TYPE_CI else A.PIPELINE_TYPE_CD) = .ok gs)
    (hAllowed : isCi = false →
      getConfiguredCmCs A (some pipeline) workflowRequest.StageType =
        some (allowedConfigMaps, allowedSecrets, none))
    (hExisting : impl.GetCmSecretNew workflowRequest.AppId workflowRequest.EnvironmentId isJob =
      .ok (existingConfigMap, existingSecrets)) :
    (SubmitWorkflow A impl workflowRequest (some pipeline) env appLabels isJob
        isCi).globalCmCsConfigs =
      (if (SubmitWorkflow A impl workflowRequest (some pipeline) env appLabels isJob
          isCi).request.IsExtRun then []
        else gs.map (fun g =>
          { g with
            Name :=
              if isCi then
                A.ToLower g.Name ++ "-" ++ Itoa workflowRequest.WorkflowId ++ "-" ++
                  A.CI_WORKFLOW_NAME
              else
                A.ToLower g.Name ++ "-" ++ Itoa workflowRequest.WorkflowRunnerId ++ "-" ++
                  A.CD_WORKFLOW_NAME })) ∧
    (SubmitWorkflow A impl workflowRequest (some pipeline) env appLabels isJob
        isCi).existingSecrets =
      existingSecrets.Secrets.map (fun secret =>
        if (isCi = true ∨ secret.Name ∈ allowedSecrets) ∧ secret.External = false then
          { secret with
            Name :=
              if isCi then
                secret.Name ++ "-" ++ Itoa workflowRequest.WorkflowId ++ "-" ++ A.CI_WORKFLOW_NAME
              else
                secret.Name ++ "-" ++ Itoa workflowRequest.WorkflowId ++ "-" ++
                  Itoa workflowRequest.WorkflowRunnerId }
        else secret) ∧
    (∃ fromGlobal,
      (SubmitWorkflow A impl workflowRequest (some pipeline) env appLabels isJob
          isCi).template.Secrets =
        fromGlobal ++
          ((existingSecrets.Secrets.zip
              (SubmitWorkflow A impl workflowRequest (some pipeline) env appLabels isJob
                isCi).existingSecrets).filter
            (fun entry => isCi || decide (entry.1.Name ∈ allowedSecrets))).map Prod.snd) ∧
    (∀ other : CommonWorkflowServiceImpl,
      other.FindAllActiveByPipelineType = impl.FindAllActiveByPipelineType →
      other.GetCmSecretNew = impl.GetCmSecretNew →
      (SubmitWorkflow A other workflowRequest (some pipeline) env appLabels isJob
          isCi).template.ConfigMaps =
        (SubmitWorkflow A impl workflowRequest (some pipeline) env appLabels isJob
          isCi).template.ConfigMaps ∧
      (SubmitWorkflow A other workflowRequest (some pipeline) env appLabels isJob
          isCi).template.Secrets =
        (SubmitWorkflow A impl workflowRequest (some pipeline) env appLabels isJob
          isCi).template.Secrets) := by
  have hsec : (SubmitWorkflow A impl workflowRequest (some pipeline) env appLabels isJob
      isCi).existingSecrets =
      existingSecrets.Secrets.map (fun secret =>
        if (isCi = true ∨ secret.Name ∈ allowedSecrets) ∧ secret.External = false then
          { secret with
            Name :=
              if isCi then
                secret.Name ++ "-" ++ Itoa workflowRequest.WorkflowId ++ "-" ++ A.CI_WORKFLOW_NAME
              else
                secret.Name ++ "-" ++ Itoa workflowRequest.WorkflowId ++ "-" ++
                  Itoa workflowRequest.WorkflowRunnerId }
        else secret) := by
    obtain ⟨r', hp⟩ : ∃ r', prepareRequest A impl workflowRequest (some pipeline) env appLabels
        isCi = some r' :=
      ⟨_, prepareRequest_some A impl workflowRequest pipeline env appLabels isCi⟩
    obtain ⟨hid, hrun, happ, henv, hstage⟩ :=
      prepareRequest_ids A impl workflowRequest (some pipeline) env appLabels isCi r' hp
    obtain ⟨json, hm⟩ := hMarshal (triggerEvent r' isCi)
    rw [← happ, ← henv] at hExisting
    rw [← hstage] at hAllowed
    obtain ⟨hx, -, -⟩ := resolveConfigs_ok A impl r' pipeline isJob isCi gs existingConfigMap
      existingSecrets allowedConfigMaps allowedSecrets hGlobal hAllowed hExisting
    have hs := resolveConfigs_ok_secrets A impl r' pipeline isJob isCi gs existingConfigMap
      existingSecrets allowedConfigMaps allowedSecrets hGlobal hAllowed hExisting
    rw [SubmitWorkflow_abandoned A impl workflowRequest (some pipeline) env appLabels isJob isCi
      r' json hp hm hx]
    simp only []
    rw [hs, secretsAfterLoop_congr A workflowRequest r' isCi hid hrun]
    unfold secretsAfterLoop renameForCi renameForCd
    cases isCi with
    | true =>
      simp only [if_true, true_or, true_and]
      apply List.map_congr_left
      intro secret _
      cases secret.External <;> simp
    | false =>
      simp only [Bool.false_eq_true, if_false, false_or]
      apply List.map_congr_left
      intro secret _
      by_cases hmem : secret.Name ∈ allowedSecrets <;> cases secret.External <;> simp [hmem]
  refine ⟨?_, hsec, ?_, ?_⟩
  · rw [SubmitWorkflow_global_state A impl workflowRequest pipeline env appLabels isJob isCi gs
      hMarshal hGlobal]
    unfold renameGlobal
    cases isCi <;> simp
  · obtain ⟨-, h2⟩ := SubmitWorkflow_configs_ok A impl workflowRequest pipeline env appLabels
      isJob isCi gs existingConfigMap existingSecrets allowedConfigMaps allowedSecrets hMarshal
      hGlobal hAllowed hExisting
    refine ⟨if (SubmitWorkflow A impl workflowRequest (some pipeline) env appLabels isJob
        isCi).request.IsExtRun then []
      else (A.GetFromGlobalCmCsDtos (gs.map (renameGlobal A workflowRequest isCi))).2.1, ?_⟩
    rw [h2, hsec, zip_filter_map_snd existingSecrets.Secrets _
      (if isCi then renameForCi A workflowRequest else renameForCd workflowRequest)
      (fun secret => isCi || decide (secret.Name ∈ allowedSecrets))]
    · unfold appLevelEntries
      cases isCi <;> simp
    · intro secret _ hq
      unfold renameForCi renameForCd
      cases isCi with
      | true => cases hext : secret.External <;> simp [hext]
      | false =>
        simp only [Bool.false_or, decide_eq_true_eq] at hq
        cases hext : secret.External <;> simp [hq, hext]
  · intro other hF hE
    have hext : (SubmitWorkflow A other workflowRequest (some pipeline) env appLabels isJob
        isCi).request.IsExtRun =
        (SubmitWorkflow A impl workflowRequest (some pipeline) env appLabels isJob
          isCi).request.IsExtRun := by
      rw [SubmitWorkflow_request, SubmitWorkflow_request, prepareRequest_some,
        prepareRequest_some]
      rfl
    obtain ⟨h1, h2⟩ := SubmitWorkflow_configs_ok A impl workflowRequest pipeline env appLabels
      isJob isCi gs existingConfigMap existingSecrets allowedConfigMaps allowedSecrets hMarshal
      hGlobal hAllowed hExisting
    obtain ⟨h3, h4⟩ := SubmitWorkflow_configs_ok A other workflowRequest pipeline env appLabels
      isJob isCi gs existingConfigMap existingSecrets allowedConfigMaps allowedSecrets hMarshal
      (by rw [hF]; exact hGlobal) hAllowed (by rw [hE]; exact hExisting)
    rw [h1, h2, h3, h4, hext]
    exact ⟨rfl, rfl⟩

/-- Witness for C20 as amended: the sample CD pre-stage submission, whose
allow-list names the secret `s`; the run is external, so no global definition
is fetched. -/
theorem collaborator_objects_after_call_witness :
    (SubmitWorkflow sampleAmbient sampleImpl preStageRequest (some samplePipeline) none []
        false false).existingSecrets = [⟨"s-5-9", false, "p"⟩, ⟨"t", true, "q"⟩] ∧
    (SubmitWorkflow sampleAmbient sampleImpl preStageRequest (some samplePipeline) none []
        false false).globalCmCsConfigs = [] :=
  ⟨(collaborator_objects_after_call sampleAmbient sampleImpl preStageRequest samplePipeline none
      [] false false [⟨"G", "secret"⟩] ⟨[⟨"a", false, "x"⟩, ⟨"b", true, "y"⟩]⟩
      ⟨[⟨"s", false, "p"⟩, ⟨"t", true, "q"⟩]⟩ ["a"] ["s"] (fun _ => ⟨_, rfl⟩) rfl
      (fun _ => rfl) rfl).2.1,
    (collaborator_objects_after_call sampleAmbient sampleImpl preStageRequest samplePipeline none
      [] false false [⟨"G", "secret"⟩] ⟨[⟨"a", false, "x"⟩, ⟨"b", true, "y"⟩]⟩
      ⟨[⟨"s", false, "p"⟩, ⟨"t", true, "q"⟩]⟩ ["a"] ["s"] (fun _ => ⟨_, rfl⟩) rfl
      (fun _ => rfl) rfl).1⟩

/-! ## App listing: auxiliary facts -/

theorem mem_firstAppearances (ids : List Int) (x : Int) :
    x ∈ firstAppearances ids ↔ x ∈ ids := by
  induction ids with
  | nil => simp [firstAppearances]
  | cons id ids ih =>
    simp only [firstAppearances, List.mem_cons, List.mem_filter, ih, decide_eq_true_eq]
    by_cases h : x = id <;> simp [h]

theorem nodup_firstAppearances (ids : List Int) : (firstAppearances ids).Nodup := by
  induction ids with
  | nil => simp [firstAppearances]
  | cons id ids ih =>
    simp only [firstAppearances, List.nodup_cons, List.mem_filter, decide_eq_true_eq]
    exact ⟨fun h => h.2 rfl, ih.filter _⟩

/-- Appending one id adds it at the end exactly when it is new. -/
theorem firstAppearances_concat (ids : List Int) (x : Int) :
    firstAppearances (ids ++ [x]) =
      if x ∈ ids then firstAppearances ids else firstAppearances ids ++ [x] := by
  induction ids with
  | nil => simp [firstAppearances]
  | cons id ids ih =>
    rw [List.cons_append]
    simp only [firstAppearances, List.mem_cons]
    rw [ih]
    by_cases hx : x ∈ ids
    · simp [hx]
    · by_cases hid : x = id
      · subst hid
        simp [hx, List.filter_append]
      · simp [hx, hid, List.filter_append]

/-- The map built by the first loop holds, for each pipeline, the time of its
last entry. -/
theorem lastSucceededTimes_eq (times : List CiPipelineLastSucceededTime) (k : Int) :
    lastSucceededTimes times k = lastSucceededOn times k := by
  unfold lastSucceededTimes lastSucceededOn
  induction times using List.reverseRecOn with
  | nil => simp
  | append_singleton times entry ih =>
    rw [List.foldl_append, List.filter_append]
    simp only [List.foldl_cons, List.foldl_nil, mapStore]
    by_cases h : k = entry.CiPipelineID
    · subst h
      simp [List.filter_cons]
    · have h' : ¬ entry.CiPipelineID = k := fun e => h e.symm
      simp [h, h', List.filter_cons, ih]

/-- The pipeline entry built in one turn of the second loop is the entry that
the claim describes for the row. -/
theorem groupJob_pipeline (times : List CiPipelineLastSucceededTime)
    (row : JobListingContainer) :
    (match lastSucceededTimes times row.CiPipelineID with
      | some lastSuccessAt =>
        ({ CiPipelineId := row.CiPipelineID, CiPipelineName := row.CiPipelineName,
           Status := row.Status, LastRunAt := row.StartedOn,
           LastSuccessAt := lastSuccessAt } : JobCIPipeline)
      | none =>
        { CiPipelineId := row.CiPipelineID, CiPipelineName := row.CiPipelineName,
          Status := row.Status, LastRunAt := row.StartedOn }) = pipelineOfRow times row := by
  rw [lastSucceededTimes_eq]
  unfold pipelineOfRow
  cases lastSucceededOn times row.CiPipelineID <;> rfl

/-- The container of a job after one more row of another job. -/
theorem containerOfJob_concat_other (rows : List JobListingContainer)
    (times : List CiPipelineLastSucceededTime) (row : JobListingContainer) (jobId : Int)
    (h : row.JobId ≠ jobId) :
    containerOfJob (rows ++ [row]) times jobId = containerOfJob rows times jobId := by
  unfold containerOfJob
  simp [List.find?_append, List.filter_append, List.filter_cons, h]

/-- The container of a job after one more row of that job, when the job has
rows already. -/
theorem containerOfJob_concat_seen (rows : List JobListingContainer)
    (times : List CiPipelineLastSucceededTime) (row : JobListingContainer)
    (h : row.JobId ∈ rows.map (·.JobId)) :
    containerOfJob (rows ++ [row]) times row.JobId =
      { containerOfJob rows times row.JobId with
        JobCiPipelines :=
          (containerOfJob rows times row.JobId).JobCiPipelines ++
            (if row.CiPipelineID ≠ 0 then [pipelineOfRow times row] else []) } := by
  obtain ⟨first, hfirst, hid⟩ := List.mem_map.1 h
  have hfind : ∃ r, rows.find? (fun r => decide (r.JobId = row.JobId)) = some r := by
    cases hf : rows.find? (fun r => decide (r.JobId = row.JobId)) with
    | some r => exact ⟨r, rfl⟩
    | none =>
      have := List.find?_eq_none.1 hf first hfirst
      simp [hid] at this
  obtain ⟨r, hr⟩ := hfind
  unfold containerOfJob
  by_cases hp : row.CiPipelineID = 0 <;>
    simp [List.find?_append, List.filter_append, List.filter_cons, hr, hp]

/-- The container of a job after its first row. -/
theorem containerOfJob_concat_new (rows : List JobListingContainer)
    (times : List CiPipelineLastSucceededTime) (row : JobListingContainer)
    (h : row.JobId ∉ rows.map (·.JobId)) :
    containerOfJob (rows ++ [row]) times row.JobId =
      { JobId := row.JobId, JobName := row.JobName, Description := row.Description,
        JobCiPipelines := if row.CiPipelineID ≠ 0 then [pipelineOfRow times row] else [] } := by
  have hnone : rows.find? (fun r => decide (r.JobId = row.JobId)) = none := by
    apply List.find?_eq_none.2
    intro r hr hdec
    exact h (List.mem_map.2 ⟨r, hr, by simpa using hdec⟩)
  have hfilter : rows.filter
      (fun r => decide (r.JobId = row.JobId) && decide (r.CiPipelineID ≠ 0)) = [] := by
    apply List.filter_eq_nil_iff.2
    intro r hr hdec
    simp only [Bool.and_eq_true, decide_eq_true_eq] at hdec
    exact h (List.mem_map.2 ⟨r, hr, hdec.1⟩)
  unfold containerOfJob
  rw [List.find?_append, hnone, List.filter_append, hfilter]
  by_cases hp : row.CiPipelineID = 0 <;> simp [List.filter_cons, hp]

/-- One turn of the second loop, by whether the job of the row is in the map. -/
theorem groupJob_apply (times : List CiPipelineLastSucceededTime)
    (state : (Int → Option JobContainer) × List Int) (row : JobListingContainer) :
    groupJob (lastSucceededTimes times) state row =
      match state.1 row.JobId with
      | some val =>
        (mapStore state.1 row.JobId
          { val with
            JobCiPipelines :=
              val.JobCiPipelines ++
                (if row.CiPipelineID ≠ 0 then [pipelineOfRow times row] else []) },
          state.2)
      | none =>
        (mapStore state.1 row.JobId
          { JobId := row.JobId, JobName := row.JobName, Description := row.Description,
            JobCiPipelines := if row.CiPipelineID ≠ 0 then [pipelineOfRow times row] else [] },
          state.2 ++ [row.JobId]) := by
  unfold groupJob
  simp only [groupJob_pipeline]
  cases state.1 row.JobId <;> by_cases hp : row.CiPipelineID = 0 <;> simp [hp]

/-- The state of the second loop after any list of rows: `appIds` holds the job
ids in the order of their first appearance, and `jobContainersMapping` holds,
for exactly these ids, the container that the claim describes. -/
theorem groupJob_foldl (rows : List JobListingContainer)
    (times : List CiPipelineLastSucceededTime) :
    (rows.foldl (groupJob (lastSucceededTimes times)) (fun _ => none, [])).2 =
        firstAppearances (rows.map (·.JobId)) ∧
      ∀ jobId,
        (rows.foldl (groupJob (lastSucceededTimes times)) (fun _ => none, [])).1 jobId =
          if jobId ∈ rows.map (·.JobId) then some (containerOfJob rows times jobId) else none := by
  induction rows using List.reverseRecOn with
  | nil => simp [firstAppearances]
  | append_singleton rows row ih =>
    obtain ⟨ihIds, ihMap⟩ := ih
    rw [List.foldl_append, List.map_append]
    simp only [List.foldl_cons, List.foldl_nil, List.map_cons, List.map_nil]
    rw [firstAppearances_concat, groupJob_apply, ihMap row.JobId]
    by_cases hseen : row.JobId ∈ rows.map (·.JobId)
    · simp only [hseen, if_true]
      refine ⟨ihIds, ?_⟩
      intro jobId
      unfold mapStore
      by_cases hj : jobId = row.JobId
      · subst hj
        simp only [if_true, List.mem_append, hseen, true_or]
        rw [containerOfJob_concat_seen rows times row hseen]
      · have hj' : row.JobId ≠ jobId := fun e => hj e.symm
        simp only [hj, if_false, ihMap jobId, List.mem_append, List.mem_singleton, or_false]
        rw [containerOfJob_concat_other rows times row jobId hj']
    · simp only [hseen, if_false]
      refine ⟨by rw [ihIds], ?_⟩
      intro jobId
      unfold mapStore
      by_cases hj : jobId = row.JobId
      · subst hj
        simp only [if_true, List.mem_append, List.mem_singleton, or_true]
        rw [containerOfJob_concat_new rows times row hseen]
      · have hj' : row.JobId ≠ jobId := fun e => hj e.symm
        simp only [hj, if_false, ihMap jobId, List.mem_append, List.mem_singleton, or_false]
        rw [containerOfJob_concat_other rows times row jobId hj']

/-- `BuildJobListingResponse` computes the grouped listing. -/
theorem BuildJobListingResponse_eq (rows : List JobListingContainer)
    (times : List CiPipelineLastSucceededTime) :
    BuildJobListingResponse rows times = groupedJobs rows times := by
  unfold BuildJobListingResponse groupedJobs
  obtain ⟨hIds, hMap⟩ := groupJob_foldl rows times
  simp only [hIds]
  apply List.map_congr_left
  intro jobId hmem
  have hin : jobId ∈ rows.map (·.JobId) := (mem_firstAppearances _ _).1 hmem
  rw [hMap jobId]
  simp [hin]

/-! ## The template a run leaves behind -/

/-- A submission with a non-nil pipeline whose marshalling and lookups succeed:
it gets past the configuration part and ends in the nil-`CdRequest` panic,
leaving the template as `abandonedTemplate` describes it. -/
theorem SubmitWorkflow_reaches_template (A : Ambient) (impl : CommonWorkflowServiceImpl)
    (r : CommonWorkflowRequest) (p : Pipeline) (env : Option Environment) (l : StringMap)
    (isJob isCi : Bool) (gs : List GlobalCMCSDto) (existingConfigMap : ConfigMapJson)
    (existingSecrets : ConfigSecretJson) (allowedConfigMaps allowedSecrets : List String)
    (hM : ∀ ev, ∃ json, A.Marshal ev = .ok json)
    (hG : impl.FindAllActiveByPipelineType
      (if isCi then A.PIPELINE_TYPE_CI else A.PIPELINE_TYPE_CD) = .ok gs)
    (hA : isCi = false →
      getConfiguredCmCs A (some p) r.StageType = some (allowedConfigMaps, allowedSecrets, none))
    (hE : impl.GetCmSecretNew r.AppId r.EnvironmentId isJob =
      .ok (existingConfigMap, existingSecrets)) :
    ∃ json cms secs,
      (SubmitWorkflow A impl r (some p) env l isJob isCi).outcome = .panicked .nilCdRequest ∧
      (SubmitWorkflow A impl r (some p) env l isJob isCi).template =
        abandonedTemplate A impl (SubmitWorkflow A impl r (some p) env l isJob isCi).request
          json cms secs isJob isCi := by
  obtain ⟨r', hp⟩ : ∃ r', prepareRequest A impl r (some p) env l isCi = some r' :=
    ⟨_, prepareRequest_some A impl r p env l isCi⟩
  obtain ⟨-, -, happ, henv, hstage⟩ := prepareRequest_ids A impl r (some p) env l isCi r' hp
  obtain ⟨json, hm⟩ := hM (triggerEvent r' isCi)
  rw [← happ, ← henv] at hE
  rw [← hstage] at hA
  obtain ⟨hx, -, -⟩ := resolveConfigs_ok A impl r' p isJob isCi gs existingConfigMap
    existingSecrets allowedConfigMaps allowedSecrets hG hA hE
  rw [SubmitWorkflow_abandoned A impl r (some p) env l isJob isCi r' json hp hm hx]
  exact ⟨json, _, _, rfl, rfl⟩

theorem abandonedTemplate_ServiceAccountName (A : Ambient) (impl : CommonWorkflowServiceImpl)
    (r : CommonWorkflowRequest) (json : String) (cms secs : List ConfigSecretMap)
    (isJob isCi : Bool) :
    (abandonedTemplate A impl r json cms secs isJob isCi).ServiceAccountName =
      if isCi then impl.ciCdConfig.CiWorkflowServiceAccount
      else impl.ciCdConfig.CdWorkflowServiceAccount := by
  unfold abandonedTemplate restartAndNodeLabel placeTemplate initialTemplate
  cases r.BlobStorageConfigured <;> cases isCi <;> simp

theorem abandonedTemplate_Tolerations (A : Ambient) (impl : CommonWorkflowServiceImpl)
    (r : CommonWorkflowRequest) (json : String) (cms secs : List ConfigSecretMap)
    (isJob isCi : Bool) :
    (abandonedTemplate A impl r json cms secs isJob isCi).Tolerations =
      if isCi then
        if impl.ciCdConfig.CiTaintKey ≠ "" ∨ impl.ciCdConfig.CiTaintValue ≠ "" then
          [⟨impl.ciCdConfig.CiTaintKey, impl.ciCdConfig.CiTaintValue, A.TolerationOpEqual,
            A.TaintEffectNoSchedule⟩]
        else []
      else
        [⟨impl.ciCdConfig.CdTaintKey, impl.ciCdConfig.CdTaintValue, A.TolerationOpEqual,
          A.TaintEffectNoSchedule⟩] := by
  unfold abandonedTemplate restartAndNodeLabel placeTemplate initialTemplate
  cases r.BlobStorageConfigured <;> cases isCi <;> simp

/-- The blob-storage fields of the template are never assigned. -/
theorem SubmitWorkflow_unreached_blob (A : Ambient) (impl : CommonWorkflowServiceImpl)
    (r : CommonWorkflowRequest) (pipeline : Option Pipeline) (env : Option Environment)
    (l : StringMap) (isJob isCi : Bool) :
    (SubmitWorkflow A impl r pipeline env l isJob isCi).template.BlobStorageConfigured = false ∧
    (SubmitWorkflow A impl r pipeline env l isJob isCi).template.BlobStorageS3Config = none ∧
    (SubmitWorkflow A impl r pipeline env l isJob isCi).template.AzureBlobConfig = none ∧
    (SubmitWorkflow A impl r pipeline env l isJob isCi).template.GcpBlobConfig = none := by
  cases hp : prepareRequest A impl r pipeline env l isCi with
  | none =>
    rw [SubmitWorkflow_nilPipeline A impl r pipeline env l isJob isCi hp]
    simp
  | some r' =>
    cases hm : A.Marshal (triggerEvent r' isCi) with
    | error err =>
      rw [SubmitWorkflow_marshal_error A impl r pipeline env l isJob isCi r' err hp hm]
      simp
    | ok json =>
      cases hr : (resolveConfigs A impl r' pipeline isJob isCi).exit with
      | some o =>
        rw [SubmitWorkflow_resolve_exit A impl r pipeline env l isJob isCi r' json o hp hm hr]
        unfold initialTemplate
        cases isCi <;> simp
      | none =>
        rw [SubmitWorkflow_abandoned A impl r pipeline env l isJob isCi r' json hp hm hr]
        unfold abandonedTemplate restartAndNodeLabel placeTemplate initialTemplate
        cases r'.BlobStorageConfigured <;> cases isCi <;> simp

/-! ## Claims C21–C30 -/

/-- C21. A CI job that runs externally, with a node label configured and blob
storage not configured: the template ends with `NodeSelector` equal to the node
label. Lines 323–325 leave the selector unset for such a job, and lines
336–338 then assign the node label whenever there is one. -/
theorem external_job_gets_node_label :
    labelledImpl.ciCdConfig.NodeLabel = [("purpose", "ci")] ∧
    (SubmitWorkflow sampleAmbient labelledImpl sampleRequest (some samplePipeline)
        (some sampleEnvironment) [] true true).request.IsExtRun = true ∧
    (SubmitWorkflow sampleAmbient labelledImpl sampleRequest (some samplePipeline)
        (some sampleEnvironment) [] true true).template.NodeSelector = [("purpose", "ci")] ∧
    (∀ (A : Ambient) (impl : CommonWorkflowServiceImpl) (r : CommonWorkflowRequest)
        (t : WorkflowTemplate) (cms secs : List ConfigSecretMap),
      r.IsExtRun = true →
      (placeTemplate A impl r t cms secs true true).NodeSelector = t.NodeSelector) ∧
    (∀ (A : Ambient) (impl : CommonWorkflowServiceImpl) (t : WorkflowTemplate)
        (archiveLogs : Bool),
      impl.ciCdConfig.NodeLabel.length > 0 →
      (restartAndNodeLabel A impl t archiveLogs).NodeSelector = impl.ciCdConfig.NodeLabel) := by
  refine ⟨rfl, by decide, by decide, ?_, ?_⟩
  · intro A impl r t cms secs hx
    unfold placeTemplate
    simp [hx]
  · intro A impl t archiveLogs h
    unfold restartAndNodeLabel
    simp [h]

/-- C22. In a submission with a non-nil pipeline whose marshalling and lookups
succeed, the template's `ServiceAccountName` is `CiWorkflowServiceAccount` for
CI and `CdWorkflowServiceAccount` for CD; for CD its `Tolerations` is the one
Equal/NoSchedule toleration on (`CdTaintKey`, `CdTaintValue`); for CI it is the
one Equal/NoSchedule toleration on (`CiTaintKey`, `CiTaintValue`) when one of
the two is non-empty, and empty otherwise. -/
theorem service_account_and_tolerations (A : Ambient) (impl : CommonWorkflowServiceImpl)
    (workflowRequest : CommonWorkflowRequest) (pipeline : Pipeline)
    (env : Option Environment) (appLabels : StringMap) (isJob isCi : Bool)
    (gs : List GlobalCMCSDto) (existingConfigMap : ConfigMapJson)
    (existingSecrets : ConfigSecretJson) (allowedConfigMaps allowedSecrets : List String)
    (hMarshal : ∀ ev, ∃ json, A.Marshal ev = .ok json)
    (hGlobal : impl.FindAllActiveByPipelineType
      (if isCi then A.PIPELINE_TYPE_CI else A.PIPELINE_TYPE_CD) = .ok gs)
    (hAllowed : isCi = false →
      getConfiguredCmCs A (some pipeline) workflowRequest.StageType =
        some (allowedConfigMaps, allowedSecrets, none))
    (hExisting : impl.GetCmSecretNew workflowRequest.AppId workflowRequest.EnvironmentId isJob =
      .ok (existingConfigMap, existingSecrets)) :
    (SubmitWorkflow A impl workflowRequest (some pipeline) env appLabels isJob
        isCi).template.ServiceAccountName =
      (if isCi then impl.ciCdConfig.CiWorkflowServiceAccount
        else impl.ciCdConfig.CdWorkflowServiceAccount) ∧
    (isCi = false →
      (SubmitWorkflow A impl workflowRequest (some pipeline) env appLabels isJob
          isCi).template.Tolerations =
        [⟨impl.ciCdConfig.CdTaintKey, impl.ciCdConfig.CdTaintValue, A.TolerationOpEqual,
          A.TaintEffectNoSchedule⟩]) ∧
    (isCi = true →
      (impl.ciCdConfig.CiTaintKey ≠ "" ∨ impl.ciCdConfig.CiTaintValue ≠ "") →
      (SubmitWorkflow A impl workflowRequest (some pipeline) env appLabels isJob
          isCi).template.Tolerations =
        [⟨impl.ciCdConfig.CiTaintKey, impl.ciCdConfig.CiTaintValue, A.TolerationOpEqual,
          A.TaintEffectNoSchedule⟩]) ∧
    (isCi = true →
      (impl.ciCdConfig.CiTaintKey = "" ∧ impl.ciCdConfig.CiTaintValue = "") →
      (SubmitWorkflow A impl workflowRequest (some pipeline) env appLabels isJob
          isCi).template.Tolerations = []) := by
  obtain ⟨json, cms, secs, -, ht⟩ := SubmitWorkflow_reaches_template A impl workflowRequest
    pipeline env appLabels isJob isCi gs existingConfigMap existingSecrets allowedConfigMaps
    allowedSecrets hMarshal hGlobal hAllowed hExisting
  rw [ht, abandonedTemplate_ServiceAccountName, abandonedTemplate_Tolerations]
  refine ⟨rfl, ?_, ?_, ?_⟩
  · intro h
    simp [h]
  · intro h hk
    simp only [h, if_true]
    rw [if_pos hk]
  · intro h hk
    simp [h, hk.1, hk.2]

/-- Witness for C22: the sample CD pre-stage submission. -/
theorem service_account_and_tolerations_witness :
    (SubmitWorkflow sampleAmbient sampleImpl preStageRequest (some samplePipeline) none []
        false false).template.ServiceAccountName = "cd-runner" ∧
    (SubmitWorkflow sampleAmbient sampleImpl preStageRequest (some samplePipeline) none []
        false false).template.Tolerations = [⟨"dedicated", "ci", "Equal", "NoSchedule"⟩] :=
  ⟨(service_account_and_tolerations sampleAmbient sampleImpl preStageRequest samplePipeline
      none [] false false [⟨"G", "secret"⟩] ⟨[⟨"a", false, "x"⟩, ⟨"b", true, "y"⟩]⟩
      ⟨[⟨"s", false, "p"⟩, ⟨"t", true, "q"⟩]⟩ ["a"] ["s"] (fun _ => ⟨_, rfl⟩) rfl
      (fun _ => rfl) rfl).1,
    (service_account_and_tolerations sampleAmbient sampleImpl preStageRequest samplePipeline
      none [] false false [⟨"G", "secret"⟩] ⟨[⟨"a", false, "x"⟩, ⟨"b", true, "y"⟩]⟩
      ⟨[⟨"s", false, "p"⟩, ⟨"t", true, "q"⟩]⟩ ["a"] ["s"] (fun _ => ⟨_, rfl⟩) rfl
      (fun _ => rfl) rfl).2.1 rfl⟩

theorem splitChars_ne_nil (sep : Char) (cs : List Char) : splitChars sep cs ≠ [] := by
  induction cs with
  | nil => simp [splitChars]
  | cons c cs ih =>
    unfold splitChars
    split
    · simp
    · split <;> simp

/-- The loop of `GetNamespaceClusterMapping` never returns the error of its
first check, and never panics. -/
theorem namespaceLoop_never_rejects (entries : List String) :
    ∀ (pairs : List ClusterNamespacePair) (ids : List Int),
      namespaceLoop entries pairs ids ≠ .panicked ∧
      ∀ (p : List ClusterNamespacePair) (c : List Int),
        namespaceLoop entries pairs ids ≠ .returned p c (some ⟨"invalid namespaceds"⟩) := by
  induction entries with
  | nil =>
    intro pairs ids
    simp [namespaceLoop]
  | cons ns rest ih =>
    intro pairs ids
    have hne : SplitUnderscore ns ≠ [] := by
      unfold SplitUnderscore
      simpa using splitChars_ne_nil '_' ns.data
    have hcond : ¬ ((SplitUnderscore ns).length < 1 ∧ (SplitUnderscore ns).length > 2) := by
      omega
    unfold namespaceLoop
    simp only [hcond, if_false]
    cases hs : SplitUnderscore ns with
    | nil => exact absurd hs hne
    | cons first others =>
      simp only []
      cases Atoi first with
      | none => simp
      | some clusterId =>
        simp only []
        split
        · exact ih _ _
        · exact ih _ _

/-- C23. The entry `"1_ns_extra"` splits into three items, yet
`GetNamespaceClusterMapping` accepts it and returns cluster id 1 with no error:
the check `len(items) < 1 && len(items) > 2` can never hold, so no request at
all gets the "invalid namespaceds" error. The rest is as claimed: an entry of
two items gives a pair, an entry of one item gives a cluster id, and a first
item that is not an integer gives the "invalid clustrer id" error. -/
theorem invalid_namespace_entry_accepted :
    SplitUnderscore "1_ns_extra" = ["1", "ns", "extra"] ∧
    GetNamespaceClusterMapping ⟨["1_ns_extra"]⟩ = .returned [] [1] none ∧
    (∀ (req : FetchAppListingRequest) (pairs : List ClusterNamespacePair) (ids : List Int),
      GetNamespaceClusterMapping req ≠ .returned pairs ids (some ⟨"invalid namespaceds"⟩)) ∧
    (∀ (ns clusterPart namespacePart : String) (clusterId : Int),
      SplitUnderscore ns = [clusterPart, namespacePart] → Atoi clusterPart = some clusterId →
      GetNamespaceClusterMapping ⟨[ns]⟩ = .returned [⟨clusterId, namespacePart⟩] [] none) ∧
    (∀ (ns : String) (clusterId : Int),
      SplitUnderscore ns = [ns] → Atoi ns = some clusterId →
      GetNamespaceClusterMapping ⟨[ns]⟩ = .returned [] [clusterId] none) ∧
    (∀ (ns first : String) (others rest : List String),
      SplitUnderscore ns = first :: others → Atoi first = none →
      GetNamespaceClusterMapping ⟨ns :: rest⟩ =
        .returned [] [] (some ⟨"invalid clustrer id"⟩)) := by
  refine ⟨by decide, by decide, ?_, ?_, ?_, ?_⟩
  · intro req pairs ids
    exact (namespaceLoop_never_rejects req.Namespaces [] []).2 pairs ids
  · intro ns a b clusterId hs ha
    unfold GetNamespaceClusterMapping namespaceLoop
    simp [hs, ha, namespaceLoop]
  · intro ns clusterId hs ha
    unfold GetNamespaceClusterMapping namespaceLoop
    simp [hs, ha, namespaceLoop]
  · intro ns first others rest hs ha
    unfold GetNamespaceClusterMapping namespaceLoop
    have hcond : ¬ ((first :: others).length < 1 ∧ (first :: others).length > 2) := by
      simp only [List.length_cons]
      omega
    simp only [hs, hcond, if_false, ha]

/-- C24. `BuildJobListingResponse` returns, for every list of job rows, the
grouped listing: one container per distinct `JobId`, in the order in which the
ids first appear among the rows, each with one pipeline entry, in input order,
for every row of that job whose `CiPipelineID` is not zero; the entry's
`LastSuccessAt` is the time of the last last-succeeded entry for that pipeline
when there is one, and the zero time otherwise. -/
theorem job_listing_grouped_in_input_order (rows : List JobListingContainer)
    (times : List CiPipelineLastSucceededTime) :
    BuildJobListingResponse rows times = groupedJobs rows times ∧
    (BuildJobListingResponse rows times).map (·.JobId) =
      firstAppearances (rows.map (·.JobId)) ∧
    ((BuildJobListingResponse rows times).map (·.JobId)).Nodup ∧
    (∀ jobId, jobId ∈ (BuildJobListingResponse rows times).map (·.JobId) ↔
      ∃ row ∈ rows, row.JobId = jobId) ∧
    (∀ c ∈ BuildJobListingResponse rows times,
      c.JobCiPipelines =
        (rows.filter
          (fun row => decide (row.JobId = c.JobId) && decide (row.CiPipelineID ≠ 0))).map
          (fun row =>
            { CiPipelineId := row.CiPipelineID, CiPipelineName := row.CiPipelineName,
              Status := row.Status, LastRunAt := row.StartedOn,
              LastSuccessAt := (lastSucceededOn times row.CiPipelineID).getD {} })) ∧
    BuildJobListingResponse sampleJobRows sampleSucceededTimes =
      [⟨7, "nightly", "nightly build",
          [⟨11, "build", "Succeeded", ⟨100⟩, ⟨95⟩⟩, ⟨12, "scan", "Failed", ⟨200⟩, ⟨0⟩⟩]⟩,
        ⟨3, "cleanup", "", []⟩] := by
  have hids : (groupedJobs rows times).map (·.JobId) = firstAppearances (rows.map (·.JobId)) := by
    unfold groupedJobs
    rw [List.map_map]
    have : ((fun c : JobContainer => c.JobId) ∘ containerOfJob rows times) = id := by
      funext jobId
      rfl
    rw [this, List.map_id]
  rw [BuildJobListingResponse_eq, hids]
  refine ⟨rfl, rfl, nodup_firstAppearances _, ?_, ?_, ?_⟩
  · intro jobId
    rw [mem_firstAppearances]
    simp only [List.mem_map]
  · intro c hc
    unfold groupedJobs at hc
    obtain ⟨jobId, -, rfl⟩ := List.mem_map.1 hc
    rfl
  · decide

/-- Witness for C24: the sample rows; job 3 has no pipeline and comes second. -/
theorem job_listing_grouped_in_input_order_witness :
    (⟨3, "cleanup", "", []⟩ : JobContainer) ∈
        BuildJobListingResponse sampleJobRows sampleSucceededTimes ∧
      ([] : List JobCIPipeline) =
        (sampleJobRows.filter
          (fun row => decide (row.JobId = 3) && decide (row.CiPipelineID ≠ 0))).map
          (fun row =>
            { CiPipelineId := row.CiPipelineID, CiPipelineName := row.CiPipelineName,
              Status := row.Status, LastRunAt := row.StartedOn,
              LastSuccessAt := (lastSucceededOn sampleSucceededTimes row.CiPipelineID).getD {} }) :=
  ⟨by decide,
    (job_listing_grouped_in_input_order sampleJobRows sampleSucceededTimes).2.2.2.2.1
      ⟨3, "cleanup", "", []⟩ (by decide)⟩

/-- C25. The trigger event is built with `CdRequest` nil, whatever the request,
and nothing sets it afterwards: a submission with a non-nil pipeline whose
marshalling and lookups all succeed panics on the nil `CdRequest` instead of
reaching the executor, at line 333 when blob storage is configured and at line
353 otherwise. The sample CI submission in an environment does so. -/
theorem cd_request_is_nil_when_read :
    (∀ (r : CommonWorkflowRequest) (isCi : Bool), (triggerEvent r isCi).CdRequest = none) ∧
    (∀ (A : Ambient) (impl : CommonWorkflowServiceImpl) (r : CommonWorkflowRequest)
        (p : Pipeline) (env : Option Environment) (l : StringMap) (isJob isCi : Bool)
        (gs : List GlobalCMCSDto) (existingConfigMap : ConfigMapJson)
        (existingSecrets : ConfigSecretJson) (allowedConfigMaps allowedSecrets : List String),
      (∀ ev, ∃ json, A.Marshal ev = .ok json) →
      impl.FindAllActiveByPipelineType
        (if isCi then A.PIPELINE_TYPE_CI else A.PIPELINE_TYPE_CD) = .ok gs →
      (isCi = false →
        getConfiguredCmCs A (some p) r.StageType =
          some (allowedConfigMaps, allowedSecrets, none)) →
      impl.GetCmSecretNew r.AppId r.EnvironmentId isJob =
        .ok (existingConfigMap, existingSecrets) →
      (SubmitWorkflow A impl r (some p) env l isJob isCi).outcome = .panicked .nilCdRequest ∧
        ∀ c ∈ (SubmitWorkflow A impl r (some p) env l isJob isCi).calls,
          ∀ id t, c ≠ Call.ExecuteWorkflow id t) ∧
    (∀ (r : CommonWorkflowRequest) (isCi : Bool) (t : WorkflowTemplate),
      t.ArchiveLogs = true → archiveLogsValue t (triggerEvent r isCi) = none) ∧
    (SubmitWorkflow sampleAmbient sampleImpl sampleRequest (some samplePipeline)
        (some sampleEnvironment) [] false true).outcome = .panicked .nilCdRequest ∧
    (SubmitWorkflow sampleAmbient sampleImpl archivingRequest (some samplePipeline)
        (some sampleEnvironment) [] false false).outcome = .panicked .nilCdRequest := by
  refine ⟨fun _ _ => rfl, ?_, ?_, by decide, by decide⟩
  · intro A impl r p env l isJob isCi gs existingConfigMap existingSecrets allowedConfigMaps
      allowedSecrets hM hG hA hE
    obtain ⟨json, cms, secs, ho, -⟩ := SubmitWorkflow_reaches_template A impl r p env l isJob
      isCi gs existingConfigMap existingSecrets allowedConfigMaps allowedSecrets hM hG hA hE
    refine ⟨ho, ?_⟩
    intro c hc id t hct
    rcases (SubmitWorkflow_unreached A impl r (some p) env l isJob isCi).2.2.2.2 c hc with
      ⟨_, h⟩ | ⟨_, _, h⟩
    · rw [h] at hct
      cases hct
    · rw [h] at hct
      cases hct
  · intro r isCi t ht
    unfold archiveLogsValue triggerEvent
    simp [ht]

/-- C26. `SubmitWorkflow` writes at most six fields of the caller's request:
putting the incoming values of `IsExtRun`, `IsPvcMounted`,
`IgnoreDockerCachePush`, `IgnoreDockerCachePull`, `BlobStorageLogsKey` and
`InAppLoggingEnabled` back into the request the call leaves behind gives the
incoming request again. The event is marshalled after these writes: the
template's `WorkflowRequestJson` is the marshalling of the event that carries
the request as the call leaves it. -/
theorem request_frame_of_six_fields (A : Ambient) (impl : CommonWorkflowServiceImpl)
    (workflowRequest : CommonWorkflowRequest) (pipeline : Option Pipeline)
    (env : Option Environment) (appLabels : StringMap) (isJob isCi : Bool) :
    { (SubmitWorkflow A impl workflowRequest pipeline env appLabels isJob isCi).request with
        IsExtRun := workflowRequest.IsExtRun
        IsPvcMounted := workflowRequest.IsPvcMounted
        IgnoreDockerCachePush := workflowRequest.IgnoreDockerCachePush
        IgnoreDockerCachePull := workflowRequest.IgnoreDockerCachePull
        BlobStorageLogsKey := workflowRequest.BlobStorageLogsKey
        InAppLoggingEnabled := workflowRequest.InAppLoggingEnabled } = workflowRequest ∧
    (∀ (p : Pipeline) (json : String), pipeline = some p →
      A.Marshal (triggerEvent
        (SubmitWorkflow A impl workflowRequest pipeline env appLabels isJob isCi).request
        isCi) = .ok json →
      (SubmitWorkflow A impl workflowRequest pipeline env appLabels isJob
        isCi).template.WorkflowRequestJson = json) := by
  constructor
  · rw [SubmitWorkflow_request, prepareRequest_eq]
    cases stageRunsInEnv A workflowRequest pipeline with
    | none => rfl
    | some inEnv => rfl
  · intro p json hp hm
    subst hp
    obtain ⟨r', hp⟩ : ∃ r', prepareRequest A impl workflowRequest (some p) env appLabels
        isCi = some r' := ⟨_, prepareRequest_some A impl workflowRequest p env appLabels isCi⟩
    have hreq : (SubmitWorkflow A impl workflowRequest (some p) env appLabels isJob
        isCi).request = r' := by
      rw [SubmitWorkflow_request, hp, Option.getD_some]
    rw [hreq] at hm
    cases hr : (resolveConfigs A impl r' (some p) isJob isCi).exit with
    | some o =>
      rw [SubmitWorkflow_resolve_exit A impl workflowRequest (some p) env appLabels isJob
        isCi r' json o hp hm hr]
      unfold initialTemplate
      cases isCi <;> simp
    | none =>
      rw [SubmitWorkflow_abandoned A impl workflowRequest (some p) env appLabels isJob
        isCi r' json hp hm hr]
      unfold abandonedTemplate restartAndNodeLabel placeTemplate initialTemplate
      cases r'.BlobStorageConfigured <;> cases isCi <;> simp

/-- Witness for C26: the sample CI submission with a PVC label. -/
theorem request_frame_of_six_fields_witness :
    (SubmitWorkflow sampleAmbient sampleImpl sampleRequest (some samplePipeline) none
        sampleLabels false true).template.WorkflowRequestJson = "CI:build" :=
  (request_frame_of_six_fields sampleAmbient sampleImpl sampleRequest (some samplePipeline)
    none sampleLabels false true).2 samplePipeline "CI:build" rfl rfl

/-- C27. With a non-nil pipeline, the request a call leaves behind has
`InAppLoggingEnabled` equal to `ciCdConfig.InAppLoggingEnabled ||
(WorkflowExecutor == WORKFLOW_EXECUTOR_TYPE_SYSTEM)`, whatever its incoming
value; the executor type is not changed, so a submission for the system
executor has in-app logging enabled. -/
theorem in_app_logging_resolved (A : Ambient) (impl : CommonWorkflowServiceImpl)
    (workflowRequest : CommonWorkflowRequest) (pipeline : Pipeline)
    (env : Option Environment) (appLabels : StringMap) (isJob isCi : Bool) :
    (SubmitWorkflow A impl workflowRequest (some pipeline) env appLabels isJob
        isCi).request.InAppLoggingEnabled =
      (impl.ciCdConfig.InAppLoggingEnabled ||
        decide (workflowRequest.WorkflowExecutor = A.WORKFLOW_EXECUTOR_TYPE_SYSTEM)) ∧
    (∀ incoming : Bool,
      (SubmitWorkflow A impl { workflowRequest with InAppLoggingEnabled := incoming }
          (some pipeline) env appLabels isJob isCi).request.InAppLoggingEnabled =
        (SubmitWorkflow A impl workflowRequest (some pipeline) env appLabels isJob
          isCi).request.InAppLoggingEnabled) ∧
    (SubmitWorkflow A impl workflowRequest (some pipeline) env appLabels isJob
        isCi).request.WorkflowExecutor = workflowRequest.WorkflowExecutor ∧
    (workflowRequest.WorkflowExecutor = A.WORKFLOW_EXECUTOR_TYPE_SYSTEM →
      (SubmitWorkflow A impl workflowRequest (some pipeline) env appLabels isJob
          isCi).request.InAppLoggingEnabled = true) := by
  have h : ∀ r : CommonWorkflowRequest,
      (SubmitWorkflow A impl r (some pipeline) env appLabels isJob isCi).request =
        preparedRequest A impl r env appLabels isCi
          ((decide (r.StageType = A.PRE) && pipeline.RunPreStageInEnv) ||
            (decide (r.StageType = A.POST) && pipeline.RunPostStageInEnv)) := by
    intro r
    rw [SubmitWorkflow_request, prepareRequest_some, Option.getD_some]
  rw [h workflowRequest]
  refine ⟨rfl, ?_, rfl, ?_⟩
  · intro incoming
    rw [h]
    rfl
  · intro hs
    simp [preparedRequest, hs]

/-- Witness for C27: the sample request for the system executor. -/
theorem in_app_logging_resolved_witness :
    (SubmitWorkflow sampleAmbient sampleImpl archivingRequest (some samplePipeline) none []
        false true).request.InAppLoggingEnabled = true :=
  (in_app_logging_resolved sampleAmbient sampleImpl archivingRequest samplePipeline none []
    false true).2.2.2 rfl

/-- C28. `updateBlobStorageConfig` computes what is claimed, but no call of
`SubmitWorkflow` gets to it: its third argument is read through the nil
`CdRequest` at line 375, after the reads of lines 333 and 353. Whatever the
inputs, the template is left with `BlobStorageConfigured` false and without
blob configs; the sample CI request with blob storage configured, an S3 config
and no external run ends so, where the claimed flag is true and the claimed S3
config is the request's. -/
theorem blob_storage_config_never_applied :
    (SubmitWorkflow sampleAmbient sampleImpl blobRequest (some samplePipeline) none []
        false true).request.BlobStorageConfigured = true ∧
    (SubmitWorkflow sampleAmbient sampleImpl blobRequest (some samplePipeline) none []
        false true).request.IsExtRun = false ∧
    (SubmitWorkflow sampleAmbient sampleImpl blobRequest (some samplePipeline) none []
        false true).request.BlobStorageS3Config = some "s3-logs" ∧
    (SubmitWorkflow sampleAmbient sampleImpl blobRequest (some samplePipeline) none []
        false true).template.BlobStorageConfigured = false ∧
    (SubmitWorkflow sampleAmbient sampleImpl blobRequest (some samplePipeline) none []
        false true).template.BlobStorageS3Config = none ∧
    (SubmitWorkflow sampleAmbient sampleImpl blobRequest (some samplePipeline) none []
        false true).outcome = .panicked .nilCdRequest ∧
    (∀ (A : Ambient) (impl : CommonWorkflowServiceImpl) (r : CommonWorkflowRequest)
        (pipeline : Option Pipeline) (env : Option Environment) (l : StringMap)
        (isJob isCi : Bool),
      (SubmitWorkflow A impl r pipeline env l isJob isCi).template.BlobStorageConfigured =
          false ∧
        (SubmitWorkflow A impl r pipeline env l isJob isCi).template.BlobStorageS3Config =
          none ∧
        (SubmitWorkflow A impl r pipeline env l isJob isCi).template.AzureBlobConfig = none ∧
        (SubmitWorkflow A impl r pipeline env l isJob isCi).template.GcpBlobConfig = none) ∧
    (∀ (impl : CommonWorkflowServiceImpl) (r : CommonWorkflowRequest) (t : WorkflowTemplate)
        (storageConfigured : Bool) (blobStorageKey : String),
      (updateBlobStorageConfig impl r t storageConfigured blobStorageKey).BlobStorageConfigured =
          (storageConfigured &&
            (impl.ciCdConfig.UseBlobStorageConfigInCdWorkflow || !r.IsExtRun)) ∧
        (updateBlobStorageConfig impl r t storageConfigured blobStorageKey).BlobStorageS3Config =
          r.BlobStorageS3Config ∧
        (updateBlobStorageConfig impl r t storageConfigured blobStorageKey).AzureBlobConfig =
          r.AzureBlobConfig ∧
        (updateBlobStorageConfig impl r t storageConfigured blobStorageKey).GcpBlobConfig =
          r.GcpBlobConfig) := by
  refine ⟨by decide, by decide, by decide, by decide, by decide, by decide, ?_, ?_⟩
  · intro A impl r pipeline env l isJob isCi
    exact SubmitWorkflow_unreached_blob A impl r pipeline env l isJob isCi
  · intro impl r t storageConfigured blobStorageKey
    exact ⟨rfl, rfl, rfl, rfl⟩

/-- C29. With a non-nil pipeline, `getConfiguredCmCs` parses
`PreStageConfigMapSecretNames` for the stage `"PRE"` and
`PostStageConfigMapSecretNames` for every other stage, and returns the parsed
`ConfigMaps` and `Secrets` names as its two sets with a nil error; when the
parse fails it returns two empty sets and the parse error. -/
theorem allow_list_selected_by_stage (A : Ambient) (pipeline : Pipeline) (stage : String) :
    (∀ names, A.Unmarshal pipeline.PreStageConfigMapSecretNames = .ok names →
      getConfiguredCmCs A (some pipeline) "PRE" =
        some (names.ConfigMaps, names.Secrets, none)) ∧
    (∀ names, stage ≠ "PRE" →
      A.Unmarshal pipeline.PostStageConfigMapSecretNames = .ok names →
      getConfiguredCmCs A (some pipeline) stage =
        some (names.ConfigMaps, names.Secrets, none)) ∧
    (∀ err, A.Unmarshal pipeline.PreStageConfigMapSecretNames = .error err →
      getConfiguredCmCs A (some pipeline) "PRE" = some ([], [], some err)) ∧
    (∀ err, stage ≠ "PRE" →
      A.Unmarshal pipeline.PostStageConfigMapSecretNames = .error err →
      getConfiguredCmCs A (some pipeline) stage = some ([], [], some err)) := by
  refine ⟨?_, ?_, ?_, ?_⟩
  · intro names h
    simp [getConfiguredCmCs, h]
  · intro names hs h
    simp [getConfiguredCmCs, hs, h]
  · intro err h
    simp [getConfiguredCmCs, h]
  · intro err hs h
    simp [getConfiguredCmCs, hs, h]

/-- Witness for C29: the sample pipeline, whose pre-stage allow-list names
config map `a` and secret `s`; the stages `"PRE"`, `"POST"` and the empty one,
and a pipeline whose allow-lists do not parse. -/
theorem allow_list_selected_by_stage_witness :
    getConfiguredCmCs sampleAmbient (some samplePipeline) "PRE" = some (["a"], ["s"], none) ∧
    getConfiguredCmCs sampleAmbient (some samplePipeline) "POST" = some ([], [], none) ∧
    getConfiguredCmCs sampleAmbient (some samplePipeline) "" = some ([], [], none) ∧
    getConfiguredCmCs sampleAmbient (some ⟨3, true, false, "", ""⟩) "PRE" =
      some ([], [], some ⟨"unexpected end of JSON input"⟩) ∧
    getConfiguredCmCs sampleAmbient (some ⟨3, true, false, "", ""⟩) "POST" =
      some ([], [], some ⟨"unexpected end of JSON input"⟩) :=
  ⟨(allow_list_selected_by_stage sampleAmbient samplePipeline "POST").1 ⟨["a"], ["s"]⟩ rfl,
    (allow_list_selected_by_stage sampleAmbient samplePipeline "POST").2.1 ⟨[], []⟩
      (by decide) rfl,
    (allow_list_selected_by_stage sampleAmbient samplePipeline "").2.1 ⟨[], []⟩
      (by decide) rfl,
    (allow_list_selected_by_stage sampleAmbient ⟨3, true, false, "", ""⟩ "POST").2.2.1
      ⟨"unexpected end of JSON input"⟩ rfl,
    (allow_list_selected_by_stage sampleAmbient ⟨3, true, false, "", ""⟩ "POST").2.2.2
      ⟨"unexpected end of JSON input"⟩ (by decide) rfl⟩

/-- C30. No call of `SubmitWorkflow` builds a template with one container:
whatever the inputs, the template it leaves behind has none, the call ending
before line 376. The sample CD submission panics on the nil `CdRequest` at line
353 with `RestartPolicy` set to `Never` and no container; with blob storage
configured the panic is at line 333 and `RestartPolicy` is still unset. The
code of lines 355–376 itself is as claimed: it takes the image from `CdImage`,
does not read `CiImage`, sets `Privileged` to true and stores one container. -/
theorem template_left_without_container :
    (∀ (A : Ambient) (impl : CommonWorkflowServiceImpl) (r : CommonWorkflowRequest)
        (pipeline : Option Pipeline) (env : Option Environment) (l : StringMap)
        (isJob isCi : Bool),
      (SubmitWorkflow A impl r pipeline env l isJob isCi).template.Containers.length ≠ 1) ∧
    (SubmitWorkflow sampleAmbient sampleImpl preStageRequest (some samplePipeline) none []
        false false).outcome = .panicked .nilCdRequest ∧
    (SubmitWorkflow sampleAmbient sampleImpl preStageRequest (some samplePipeline) none []
        false false).template.RestartPolicy = "Never" ∧
    (SubmitWorkflow sampleAmbient sampleImpl preStageRequest (some samplePipeline) none []
        false false).template.Containers = [] ∧
    (SubmitWorkflow sampleAmbient sampleImpl blobRequest (some samplePipeline) none []
        false true).template.RestartPolicy = "" ∧
    (SubmitWorkflow sampleAmbient sampleImpl blobRequest (some samplePipeline) none []
        false true).template.Containers = [] ∧
    (∀ (A : Ambient) (impl : CommonWorkflowServiceImpl) (r : CommonWorkflowRequest)
        (envs : List EnvVar) (cms secs : List ConfigSecretMap) (isCi : Bool) (c : Container),
      mainContainer A impl r envs cms secs isCi = .ok c →
      ∃ built : Container, built.Image = r.CdImage ∧ built.Privileged = some true ∧
        c = A.UpdateContainerEnvsFromCmCs built cms secs) ∧
    (∀ (A : Ambient) (impl : CommonWorkflowServiceImpl) (r : CommonWorkflowRequest)
        (envs : List EnvVar) (cms secs : List ConfigSecretMap) (isCi : Bool) (ciImage : String),
      mainContainer A impl { r with CiImage := ciImage } envs cms secs isCi =
        mainContainer A impl r envs cms secs isCi) ∧
    (∀ (impl : CommonWorkflowServiceImpl) (r : CommonWorkflowRequest) (t : WorkflowTemplate)
        (c : Container) (isCi : Bool), (finishTemplate impl r t c isCi).Containers = [c]) ∧
    (∀ (A : Ambient) (impl : CommonWorkflowServiceImpl) (t : WorkflowTemplate)
        (archiveLogs : Bool),
      (restartAndNodeLabel A impl t archiveLogs).RestartPolicy = A.RestartPolicyNever) := by
  refine ⟨?_, by decide, by decide, by decide, by decide, by decide, ?_, ?_,
    fun _ _ _ _ _ => rfl, fun _ _ _ _ => rfl⟩
  · intro A impl r pipeline env l isJob isCi
    rw [(SubmitWorkflow_unreached A impl r pipeline env l isJob isCi).1]
    decide
  · intro A impl r envs cms secs isCi c h
    unfold mainContainer at h
    simp only [] at h
    split at h
    · cases h
    · split at h
      · cases h
      · split at h
        · cases h
        · split at h
          · cases h
          · simp only [Except.ok.injEq] at h
            exact ⟨_, rfl, rfl, h.symm⟩
  · intro A impl r envs cms secs isCi ciImage
    rfl

end Devtron
